import Mathlib

/-!
# GammaLib: CTA instrument response (`GCTAResponseIrf`) and cube background model

Shallow embedding of the response evaluation code of
`inst/cta/src/GCTAResponseIrf.cpp` and `inst/cta/src/GCTAModelCubeBackground.cpp`.

Conventions of the embedding.

* A C++ `double` is a rational number (`ℚ`): finite values, exact arithmetic.
  Rounding, infinities and NaN are outside the model.
* Methods are functions in the monad `Eval σ`, where `σ` is the type of the
  object the method is called on (`this`).  A run yields the returned value or
  the exception thrown, the object after the call (the `mutable` Npred cache
  lives in it) and the list of calls made to response components, to the
  deadtime correction and to the quadrature routines, oldest first.
* Classes whose code lies outside the two embedded files (`GSkyDir`, `GEnergy`,
  `GIntegral`, the integration kernels, the constants of `GMath.hpp`, ...) are
  parameters: the record `Externals` and the function fields of the component
  records.
* Events and observations are CTA typed from the start: the downcasts done by
  `retrieve_pnt`, `retrieve_dir`, `retrieve_obs` and `retrieve_roi` (module
  `GCTASupport`) are taken to succeed.
-/

namespace GammaLib

/-! ## Value classes -/

/-- Sky direction (`GSkyDir`), identified by its celestial coordinates in degrees. -/
structure GSkyDir where
  ra_deg : ℚ
  dec_deg : ℚ
deriving DecidableEq

/-- Energy value (`GEnergy`), held in MeV. -/
structure GEnergy where
  MeV : ℚ
deriving DecidableEq

/-- Time value (`GTime`), held in seconds. -/
structure GTime where
  secs : ℚ
deriving DecidableEq

/-- Photon (`GPhoton`): true direction, true energy and true arrival time. -/
structure GPhoton where
  dir : GSkyDir
  energy : GEnergy
  time : GTime

/-- CTA instrument direction (`GCTAInstDir`). -/
structure GCTAInstDir where
  dir : GSkyDir

/-- CTA pointing (`GCTAPointing`): direction, zenith and azimuth angle (radians). -/
structure GCTAPointing where
  dir : GSkyDir
  zenith : ℚ
  azimuth : ℚ

/-- CTA region of interest (`GCTARoi`): centre and radius in degrees. -/
structure GCTARoi where
  centre : GCTAInstDir
  radius : ℚ

/-- Energy boundaries (`GEbounds`): the list of intervals `(emin(i), emax(i))`. -/
structure GEbounds where
  bins : List (GEnergy × GEnergy)

/-- Rotation matrix `(ry * rz).transpose()` with `ry.eulery(a)` and `rz.eulerz(b)`,
represented by the two angles it is built from. -/
structure GMatrix where
  eulery : ℚ
  eulerz : ℚ

/-- A measured CTA event seen through the `GEvent` interface.  `atom_index` is the
index of the event when its dynamic type is `GCTAEventAtom`, and `none` otherwise. -/
structure GEvent where
  dir : GCTAInstDir
  energy : GEnergy
  time : GTime
  atom_index : Option Int

/-- Event list of an observation (`GCTAEventList`) as far as the response reads it:
`irf_cache name index` is the IRF cache getter (negative when nothing is cached). -/
structure GCTAEventList where
  irf_cache : String → Int → ℚ

/-- Background cube (`GCTACubeBackground`) through its `integral(logE)` method. -/
structure GCTACubeBackground where
  integral : ℚ → ℚ

/-- CTA observation (`GCTAObservation`).  `events` is `none` when `obs.events()` is not
an event list; `cube_background` is the background of the response when the response
is a `GCTAResponseCube`, and `none` otherwise. -/
structure GCTAObservation where
  instrument : String
  id : String
  pointing : GCTAPointing
  roi : GCTARoi
  deadc : GTime → ℚ
  events : Option GCTAEventList
  cube_background : Option GCTACubeBackground

/-- An observation seen through the `GObservation` interface: a CTA observation or an
observation of another instrument. -/
inductive GObservation where
  | cta (obs : GCTAObservation)
  | foreign (instrument : String) (id : String) (deadc : GTime → ℚ)

/-- Method `GObservation::instrument()`. -/
def GObservation.instrument : GObservation → String
  | .cta obs => obs.instrument
  | .foreign instrument _ _ => instrument

/-- Method `GObservation::id()`. -/
def GObservation.id : GObservation → String
  | .cta obs => obs.id
  | .foreign _ id _ => id

/-- Method `GObservation::deadc(time)`. -/
def GObservation.deadc : GObservation → GTime → ℚ
  | .cta obs => obs.deadc
  | .foreign _ _ deadc => deadc

/-! ## Exceptions -/

/-- Exceptions thrown by the embedded code, with the origin string.  `undefined` is
not an exception of the library: it marks undefined behaviour of the C++ code (the
dereference of a `NULL` pointer, a `static_cast` to a wrong type). -/
inductive GException where
  | invalid_value (origin : String) (message : String)
  | invalid_argument (origin : String) (message : String)
  | bad_model_type (origin : String)
  | undefined (origin : String)
  | xml_attribute_value (origin : String) (value : List Char)
  | par_not_found (origin : String) (name : String)
  | out_of_range (origin : String) (index : Int) (min : Int) (max : Int)

/-! ## Spatial models and sky models -/

/-- Spatial model type codes (`GMODEL_SPATIAL_*`); `unknown` is any other code. -/
inductive GModelSpatialCode where
  | point_source
  | radial
  | elliptical
  | diffuse
  | unknown
deriving DecidableEq

/-- Point source spatial model (`GModelSpatialPointSource`). -/
structure GModelSpatialPointSource where
  dir : GSkyDir

/-- Radial spatial model (`GModelSpatialRadial`).  `ra` and `dec` are the centre in
degrees, `theta_max` the value of `theta_max()` in radians, and `shell_radius` is the
value of `radius()` (degrees) when the model is a `GModelSpatialRadialShell`. -/
structure GModelSpatialRadial where
  dir : GSkyDir
  ra : ℚ
  dec : ℚ
  theta_max : ℚ
  shell_radius : Option ℚ

/-- Elliptical spatial model (`GModelSpatialElliptical`): axes and position angle as
returned by `semimajor()`, `semiminor()`, `posangle()` (degrees), `theta_max()` in
radians. -/
structure GModelSpatialElliptical where
  dir : GSkyDir
  ra : ℚ
  dec : ℚ
  semimajor : ℚ
  semiminor : ℚ
  posangle : ℚ
  theta_max : ℚ

/-- Diffuse spatial model: a map queried by direction, energy and time. -/
structure GModelSpatialDiffuse where
  eval : GSkyDir → GEnergy → GTime → ℚ

/-- Spatial model (`GModelSpatial`) as a closed sum over its dynamic types. -/
inductive GModelSpatial where
  | point_source (m : GModelSpatialPointSource)
  | radial (m : GModelSpatialRadial)
  | elliptical (m : GModelSpatialElliptical)
  | diffuse (m : GModelSpatialDiffuse)
  | other

/-- Virtual method `GModelSpatial::code()`. -/
def GModelSpatial.code : GModelSpatial → GModelSpatialCode
  | .point_source _ => .point_source
  | .radial _ => .radial
  | .elliptical _ => .elliptical
  | .diffuse _ => .diffuse
  | .other => .unknown

/-- Source (`GSource`): name, spatial model, energy and time. -/
structure GSource where
  name : String
  model : GModelSpatial
  energy : GEnergy
  time : GTime

/-- Model parameter (`GModelPar`), through `name()` and the parameter value. -/
structure GModelPar where
  name : String
  value : ℚ

/-- Spectral model component (`GModelSpectral`): its `eval(energy, time)` method and
the member `m_pars`, the parameters the vector of pointers refers to, in index order. -/
structure GModelSpectral where
  eval : GEnergy → GTime → ℚ
  m_pars : List GModelPar

/-- Temporal model component, through its `eval(time)` method. -/
structure GModelTemporal where
  eval : GTime → ℚ

/-- Sky model (`GModelSky`).  `has_scales` and `scale` stand for the `GModel` methods of
the same names; `scale inst` is the value of the scale parameter for instrument `inst`. -/
structure GModelSky where
  name : String
  spatial : GModelSpatial
  spectral : GModelSpectral
  temporal : GModelTemporal
  has_scales : Bool
  scale : String → ℚ

/-! ## Response components -/

/-- Effective area component (`GCTAAeff`), `operator()(logE, theta, phi, zenith, azimuth)`. -/
structure GCTAAeff where
  eval : ℚ → ℚ → ℚ → ℚ → ℚ → ℚ

/-- Point spread function component (`GCTAPsf`):
`operator()(delta, logE, theta, phi, zenith, azimuth)` and
`delta_max(logE, theta, phi, zenith, azimuth)`. -/
structure GCTAPsf where
  eval : ℚ → ℚ → ℚ → ℚ → ℚ → ℚ → ℚ
  delta_max : ℚ → ℚ → ℚ → ℚ → ℚ → ℚ

/-- Energy dispersion component (`GCTAEdisp`):
`operator()(obsLogEng, srcLogEng, theta, phi, zenith, azimuth)` and
`ebounds_src(obsLogEng)`. -/
structure GCTAEdisp where
  eval : ℚ → ℚ → ℚ → ℚ → ℚ → ℚ → ℚ
  ebounds_src : ℚ → GEbounds

/-- The members of `GCTAResponseIrf` read or written by the embedded methods: the
response components (`none` is the `NULL` pointer), the energy dispersion flag and
the four parallel vectors of the Npred cache. -/
structure GCTAResponseIrf where
  m_aeff : Option GCTAAeff
  m_psf : Option GCTAPsf
  m_edisp : Option GCTAEdisp
  m_apply_edisp : Bool
  m_npred_names : List String
  m_npred_energies : List GEnergy
  m_npred_times : List GTime
  m_npred_values : List ℚ

/-- Modelled from the spec: the inline accessor `use_edisp()`, declared in the header
`GCTAResponseIrf.hpp` and absent from `GCTAResponseIrf.cpp`.  Energy dispersion is in
use when it has been requested and the component is available. -/
def GCTAResponseIrf.use_edisp (rsp : GCTAResponseIrf) : Bool :=
  rsp.m_apply_edisp && rsp.m_edisp.isSome

/-! ## Integration kernels

The kernel classes of `GCTAResponse_helpers` are represented by the arguments they
are constructed with, in constructor order. -/

/-- Kernel `cta_nroi_kern(model, rsp, srcTime, obsEng, obsTime, obs)`. -/
structure cta_nroi_kern where
  model : GModelSky
  rsp : GCTAResponseIrf
  srcTime : GTime
  obsEng : GEnergy
  obsTime : GTime
  obs : GCTAObservation

/-- Kernel `cta_npsf_kern_rad_azsym`. -/
structure cta_npsf_kern_rad_azsym where
  rsp : GCTAResponseIrf
  roi_radius : ℚ
  roi_psf_distance : ℚ
  srcLogEng : ℚ
  theta : ℚ
  phi : ℚ
  zenith : ℚ
  azimuth : ℚ

/-- Kernel `cta_irf_radial_kern_rho`. -/
structure cta_irf_radial_kern_rho where
  rsp : GCTAResponseIrf
  model : GModelSpatialRadial
  zenith : ℚ
  azimuth : ℚ
  srcEng : GEnergy
  srcTime : GTime
  srcLogEng : ℚ
  obsEng : GEnergy
  zeta : ℚ
  lambda : ℚ
  omega0 : ℚ
  delta_max : ℚ
  iter_phi : Nat

/-- Kernel `cta_irf_elliptical_kern_rho`. -/
structure cta_irf_elliptical_kern_rho where
  rsp : GCTAResponseIrf
  model : GModelSpatialElliptical
  semimajor : ℚ
  semiminor : ℚ
  posangle : ℚ
  zenith : ℚ
  azimuth : ℚ
  srcEng : GEnergy
  srcTime : GTime
  srcLogEng : ℚ
  obsEng : GEnergy
  rho_obs : ℚ
  posangle_obs : ℚ
  rho_pnt : ℚ
  omega_pnt : ℚ
  delta_max : ℚ
  iter_phi : Nat

/-- Kernel `cta_irf_diffuse_kern_theta`. -/
structure cta_irf_diffuse_kern_theta where
  rsp : GCTAResponseIrf
  model : GModelSpatial
  theta : ℚ
  phi : ℚ
  zenith : ℚ
  azimuth : ℚ
  srcEng : GEnergy
  srcTime : GTime
  srcLogEng : ℚ
  obsEng : GEnergy
  rot : GMatrix
  eta : ℚ
  iter_phi : Nat

/-- Kernel `cta_nroi_radial_kern_rho`. -/
structure cta_nroi_radial_kern_rho where
  rsp : GCTAResponseIrf
  model : GModelSpatialRadial
  srcEng : GEnergy
  srcTime : GTime
  obsEng : GEnergy
  obsTime : GTime
  obs : GCTAObservation
  rot : GMatrix
  roi_model_distance : ℚ
  roi_psf_radius : ℚ
  omega0 : ℚ
  iter_phi : Nat

/-- Kernel `cta_nroi_elliptical_kern_rho`. -/
structure cta_nroi_elliptical_kern_rho where
  rsp : GCTAResponseIrf
  model : GModelSpatialElliptical
  semimajor : ℚ
  semiminor : ℚ
  posangle : ℚ
  srcEng : GEnergy
  srcTime : GTime
  obsEng : GEnergy
  obsTime : GTime
  obs : GCTAObservation
  rot : GMatrix
  rho_roi : ℚ
  posangle_roi : ℚ
  radius_roi : ℚ
  iter_phi : Nat

/-- Kernel `cta_nroi_diffuse_kern_theta`. -/
structure cta_nroi_diffuse_kern_theta where
  rsp : GCTAResponseIrf
  model : GModelSpatial
  srcEng : GEnergy
  srcTime : GTime
  obsEng : GEnergy
  obsTime : GTime
  obs : GCTAObservation
  rot : GMatrix
  iter_phi : Nat

/-- An integrand handed to `GIntegral`. -/
inductive Kernel where
  | nroi_kern (k : cta_nroi_kern)
  | npsf_kern_rad_azsym (k : cta_npsf_kern_rad_azsym)
  | irf_radial_kern_rho (k : cta_irf_radial_kern_rho)
  | irf_elliptical_kern_rho (k : cta_irf_elliptical_kern_rho)
  | irf_diffuse_kern_theta (k : cta_irf_diffuse_kern_theta)
  | nroi_radial_kern_rho (k : cta_nroi_radial_kern_rho)
  | nroi_elliptical_kern_rho (k : cta_nroi_elliptical_kern_rho)
  | nroi_diffuse_kern_theta (k : cta_nroi_diffuse_kern_theta)

/-- Modelled from the spec: the profile term of a radial model.  The kernel class
`cta_irf_radial_kern_rho` belongs to `GCTAResponse_helpers`, which is absent from the
embedded files.  The integrators integrate S(rho, omega | E, t) * IRF(rho, omega) in
a model-local system centred on the reference direction of the model, and a radial
model is omega-independent in its own profile term: the integrand reads the model as
a function of the distance rho from its centre, so the celestial position of the
centre is no part of what it reads. -/
def GModelSpatialRadial.profile (m : GModelSpatialRadial) : GModelSpatialRadial :=
  { m with dir := ⟨0, 0⟩, ra := 0, dec := 0 }

/-- Modelled from the spec: what a quadrature reads of a kernel.  The kernel of
`irf_radial` presents its model through the profile term (`GModelSpatialRadial.profile`);
the other kernels are read as they are constructed. -/
def Kernel.integrand : Kernel → Kernel
  | .irf_radial_kern_rho k => .irf_radial_kern_rho { k with model := k.model.profile }
  | k => k

/-! ## Collaborators taken as parameters -/

/-- Functions and constants of classes outside the embedded files.
`romberg k n a b` is `GIntegral(k)` with `fixed_iter(n)` and `romberg(a, b)`;
`romberg_bounds k n bounds order` is `romberg(bounds, order)`; `trapzd k n a b` is
`trapzd(a, b)`; `obs_print obs` is `obs.print()`.  A quadrature is a function of what
its kernel reads of its constructor arguments (`Kernel.integrand`); what the evaluation
of a kernel does to the object is not tracked. -/
structure Externals where
  obs_print : GObservation → String
  dist : GSkyDir → GSkyDir → ℚ
  posang : GSkyDir → GSkyDir → ℚ
  log10TeV : GEnergy → ℚ
  sin : ℚ → ℚ
  cos : ℚ → ℚ
  acos : ℚ → ℚ
  log : ℚ → ℚ
  deg2rad : ℚ
  pihalf : ℚ
  ln10 : ℚ
  romberg : Kernel → Nat → ℚ → ℚ → ℚ
  romberg_bounds : Kernel → Nat → List ℚ → Nat → ℚ
  trapzd : Kernel → Nat → ℚ → ℚ → ℚ

/-! ## Call trace and evaluation monad -/

/-- One entry of the call trace. -/
inductive Call where
  | psf_delta_max (theta phi zenith azimuth srcLogEng : ℚ)
  | aeff (theta phi zenith azimuth srcLogEng : ℚ)
  | psf (delta theta phi zenith azimuth srcLogEng : ℚ)
  | edisp (obsEng : GEnergy) (theta phi zenith azimuth srcLogEng : ℚ)
  | deadc (t : GTime)
  | romberg (k : Kernel) (fixed_iter : Nat) (a b : ℚ)
  | romberg_bounds (k : Kernel) (fixed_iter : Nat) (bounds : List ℚ) (order : Nat)
  | trapzd (k : Kernel) (fixed_iter : Nat) (a b : ℚ)
  | irf_cache_get (name : String) (index : Int)
  | irf_cache_set (name : String) (index : Int) (irf : ℚ)
  | bgd_integral (logE : ℚ)
  | warning (origin : String) (message : String)

/-- Result of running a method: the value returned or the exception thrown, the
object after the call, and the calls made. -/
structure Outcome (σ α : Type) where
  result : Except GException α
  self : σ
  calls : List Call

/-- A method of an object of type `σ` returning an `α`. -/
def Eval (σ α : Type) : Type := σ → Outcome σ α

/-- Return a value. -/
def Eval.ret {σ α : Type} (a : α) : Eval σ α :=
  fun s => ⟨.ok a, s, []⟩

/-- Sequencing: an exception stops the evaluation, the object and the trace made so
far are kept. -/
def Eval.seq {σ α β : Type} (m : Eval σ α) (f : α → Eval σ β) : Eval σ β :=
  fun s =>
    match m s with
    | ⟨.ok a, s1, l1⟩ =>
      match f a s1 with
      | ⟨r, s2, l2⟩ => ⟨r, s2, l1 ++ l2⟩
    | ⟨.error e, s1, l1⟩ => ⟨.error e, s1, l1⟩

instance (σ : Type) : Monad (Eval σ) where
  pure := Eval.ret
  bind := Eval.seq

/-- Throw an exception. -/
def raise {σ α : Type} (e : GException) : Eval σ α :=
  fun s => ⟨.error e, s, []⟩

/-- Record a call in the trace. -/
def trace {σ : Type} (c : Call) : Eval σ Unit :=
  fun s => ⟨.ok (), s, [c]⟩

/-- Read the object (`*this`). -/
def this {σ : Type} : Eval σ σ :=
  fun s => ⟨.ok s, s, []⟩

/-- Overwrite the object (assignment to `mutable` members). -/
def assign {σ : Type} (s : σ) : Eval σ Unit :=
  fun _ => ⟨.ok (), s, []⟩

/-- The deadtime correction `obs.deadc(t)`, recorded in the trace. -/
def deadc {σ : Type} (obs : GCTAObservation) (t : GTime) : Eval σ ℚ := do
  trace (.deadc t)
  pure (obs.deadc t)

namespace GIntegral

/-- Calls `fixed_iter(n)` and `romberg(a, b)` on a `GIntegral` of kernel `k`. -/
def romberg {σ : Type} (x : Externals) (k : Kernel) (n : Nat) (a b : ℚ) : Eval σ ℚ := do
  trace (.romberg k n a b)
  pure (x.romberg k n a b)

/-- Calls `fixed_iter(n)` and `romberg(bounds, order)` on a `GIntegral` of kernel `k`. -/
def romberg_bounds {σ : Type} (x : Externals) (k : Kernel) (n : Nat) (bounds : List ℚ)
    (order : Nat) : Eval σ ℚ := do
  trace (.romberg_bounds k n bounds order)
  pure (x.romberg_bounds k.integrand n bounds order)

/-- Calls `fixed_iter(n)` and `trapzd(a, b)` on a `GIntegral` of kernel `k`. -/
def trapzd {σ : Type} (x : Externals) (k : Kernel) (n : Nat) (a b : ℚ) : Eval σ ℚ := do
  trace (.trapzd k n a b)
  pure (x.trapzd k n a b)

end GIntegral

namespace GCTAResponseIrf

/-! ## Method name definitions and messages (`GCTAResponseIrf.cpp`, lines 73-100) -/

/-- Macro `G_MC`. -/
def G_MC : String := "GCTAResponseIrf::mc(double&, GPhoton&, GObservation&, GRan&)"

/-- Macro `G_IRF_RADIAL`. -/
def G_IRF_RADIAL : String :=
  "GCTAResponseIrf::irf_radial(GEvent&, GSource&, GObservation&)"

/-- Macro `G_IRF_ELLIPTICAL`. -/
def G_IRF_ELLIPTICAL : String :=
  "GCTAResponseIrf::irf_elliptical(GEvent&, GSource&, GObservation&)"

/-- Macro `G_NROI_RADIAL`. -/
def G_NROI_RADIAL : String :=
  "GCTAResponseIrf::nroi_radial(GModelSky&, GEnergy&, GTime&, GEnergy&, GTime&, GObservation&)"

/-- Macro `G_NROI_ELLIPTICAL`. -/
def G_NROI_ELLIPTICAL : String :=
  "GCTAResponseIrf::nroi_elliptical(GModelSky&, GEnergy&, GTime&, GEnergy&, GTime&," ++
  " GObservation&)"

/-- Macro `G_AEFF`. -/
def G_AEFF : String :=
  "GCTAResponseIrf::aeff(double&, double&, double&, double&, double&)"

/-- Macro `G_PSF`. -/
def G_PSF : String :=
  "GCTAResponseIrf::psf(double&, double&, double&, double&, double&)"

/-- Macro `G_PSF_DELTA_MAX`. -/
def G_PSF_DELTA_MAX : String :=
  "GCTAResponseIrf::psf_delta_max(double&, double&, double&, double&, double&)"

/-- Message of the exception thrown by `aeff` (lines 1521-1523). -/
def msg_no_aeff : String :=
  "No effective area information found in response.\n" ++
  "Please make sure that the instrument response is properly defined."

/-- Message of the exception thrown by `psf` and `psf_delta_max` (lines 1562-1565 and
1602-1605). -/
def msg_no_psf : String :=
  "No point spread function information found in response.\n" ++
  "Please make sure that the instrument response is properly defined."

/-! ## Low-level response methods (`GCTAResponseIrf.cpp`, lines 1513-1644) -/

/-- Method `GCTAResponseIrf::aeff`. -/
def aeff (theta phi zenith azimuth srcLogEng : ℚ) : Eval GCTAResponseIrf ℚ := do
  trace (.aeff theta phi zenith azimuth srcLogEng)
  let rsp ← this
  match rsp.m_aeff with
  | none => raise (.invalid_value G_AEFF msg_no_aeff)
  | some a => pure (a.eval srcLogEng theta phi zenith azimuth)

/-- Method `GCTAResponseIrf::psf`. -/
def psf (delta theta phi zenith azimuth srcLogEng : ℚ) : Eval GCTAResponseIrf ℚ := do
  trace (.psf delta theta phi zenith azimuth srcLogEng)
  let rsp ← this
  match rsp.m_psf with
  | none => raise (.invalid_value G_PSF msg_no_psf)
  | some p => pure (p.eval delta srcLogEng theta phi zenith azimuth)

/-- Method `GCTAResponseIrf::psf_delta_max`. -/
def psf_delta_max (theta phi zenith azimuth srcLogEng : ℚ) : Eval GCTAResponseIrf ℚ := do
  trace (.psf_delta_max theta phi zenith azimuth srcLogEng)
  let rsp ← this
  match rsp.m_psf with
  | none => raise (.invalid_value G_PSF_DELTA_MAX msg_no_psf)
  | some p => pure (p.delta_max srcLogEng theta phi zenith azimuth)

/-- Method `GCTAResponseIrf::edisp`.  The source dereferences `m_edisp` without a
check; the `none` arm stands for that dereference of a `NULL` pointer and is not
reached when `use_edisp` holds.  The quotient is the value of the code when the
divisor `ln10 * energy` is not zero; for a zero divisor the code yields an infinite
value or a NaN, which a rational does not represent, and the statements on values that
pass through this method assume a positive measured energy. -/
def edisp (x : Externals) (obsEng : GEnergy) (theta phi zenith azimuth srcLogEng : ℚ) :
    Eval GCTAResponseIrf ℚ := do
  trace (.edisp obsEng theta phi zenith azimuth srcLogEng)
  let rsp ← this
  let obsLogEng := x.log10TeV obsEng
  let energy := obsEng.MeV
  match rsp.m_edisp with
  | none => raise (.undefined "GCTAResponseIrf::edisp")
  | some e => pure (e.eval obsLogEng srcLogEng theta phi zenith azimuth / (x.ln10 * energy))

/-! ## Per-event response (`GCTAResponseIrf.cpp`, lines 318-397) -/

/-- Method `GCTAResponseIrf::irf(event, photon, obs)`. -/
def irf (x : Externals) (event : GEvent) (photon : GPhoton) (obs : GCTAObservation) :
    Eval GCTAResponseIrf ℚ := do
  let pnt := obs.pointing
  let dir := event.dir
  let obsDir := dir.dir
  let obsEng := event.energy
  let srcDir := photon.dir
  let srcEng := photon.energy
  let srcTime := photon.time
  let zenith := pnt.zenith
  let azimuth := pnt.azimuth
  let theta := x.dist pnt.dir srcDir
  let phi : ℚ := 0
  let srcLogEng := x.log10TeV srcEng
  let delta := x.dist obsDir srcDir
  let delta_max ← psf_delta_max theta phi zenith azimuth srcLogEng
  if delta ≤ delta_max then
    let irf0 ← aeff theta phi zenith azimuth srcLogEng
    if irf0 > 0 then
      let irf1 := irf0 * (← psf delta theta phi zenith azimuth srcLogEng)
      let rsp ← this
      let irf2 ←
        if rsp.use_edisp && decide (irf1 > 0) then do
          pure (irf1 * (← edisp x obsEng theta phi zenith azimuth srcLogEng))
        else
          pure irf1
      let irf3 := irf2 * (← deadc obs srcTime)
      pure irf3
    else
      pure irf0
  else
    pure 0

/-! ## Response to extended sources (`GCTAResponseIrf.cpp`, lines 2048-2662) -/

/-- Method `GCTAResponseIrf::irf_ptsrc`.  The source casts the model with
`static_cast`; the last arm stands for a cast of a model of another type and is not
reached through the dispatcher. -/
def irf_ptsrc (x : Externals) (event : GEvent) (source : GSource) (obs : GCTAObservation) :
    Eval GCTAResponseIrf ℚ :=
  match source.model with
  | .point_source src =>
    let photon : GPhoton := ⟨src.dir, source.energy, source.time⟩
    irf x event photon obs
  | _ => raise (.undefined "GCTAResponseIrf::irf_ptsrc")

/-- Method `GCTAResponseIrf::irf_radial`. -/
def irf_radial (x : Externals) (event : GEvent) (source : GSource) (obs : GCTAObservation) :
    Eval GCTAResponseIrf ℚ := do
  let iter_rho : Nat := 5
  let iter_phi : Nat := 5
  let pnt := obs.pointing
  let dir := event.dir
  match source.model with
  | .radial model =>
    let obsDir := dir.dir
    let obsEng := event.energy
    let centre := model.dir
    let srcEng := source.energy
    let srcTime := source.time
    let zenith := pnt.zenith
    let azimuth := pnt.azimuth
    let zeta := x.dist centre obsDir
    let eta := x.dist pnt.dir obsDir
    let lambda := x.dist centre pnt.dir
    let denom := x.sin lambda * x.sin zeta
    let omega0 : ℚ :=
      if denom ≠ 0 then x.acos ((x.cos eta - x.cos lambda * x.cos zeta) / denom) else 0
    let srcLogEng := x.log10TeV srcEng
    let theta := eta
    let phi : ℚ := 0
    let delta_max ← psf_delta_max theta phi zenith azimuth srcLogEng
    let src_max := model.theta_max
    let rho_min : ℚ := if zeta > delta_max then zeta - delta_max else 0
    let rho_max0 : ℚ := zeta + delta_max
    let rho_max : ℚ := if rho_max0 > src_max then src_max else rho_max0
    if rho_max > rho_min then
      let rsp ← this
      let integrand : cta_irf_radial_kern_rho :=
        ⟨rsp, model, zenith, azimuth, srcEng, srcTime, srcLogEng, obsEng, zeta, lambda,
          omega0, delta_max, iter_phi⟩
      let bounds0 : List ℚ := [rho_min, rho_max]
      let transition_point := delta_max - zeta
      let bounds1 : List ℚ :=
        if transition_point > rho_min ∧ transition_point < rho_max then
          bounds0 ++ [transition_point]
        else bounds0
      let bounds2 : List ℚ :=
        match model.shell_radius with
        | some radius =>
          let shell_radius := radius * x.deg2rad
          if shell_radius > rho_min ∧ shell_radius < rho_max then
            bounds1 ++ [shell_radius]
          else bounds1
        | none => bounds1
      let irf0 ← GIntegral.romberg_bounds x (.irf_radial_kern_rho integrand) iter_rho
        bounds2 iter_rho
      let irf1 := irf0 * (← deadc obs srcTime)
      pure irf1
    else
      pure 0
  | _ => raise (.bad_model_type G_IRF_RADIAL)

/-- Result of the block "Get the ellipse boundary", which `irf_elliptical` (lines
2377-2397) and `nroi_elliptical` (lines 2976-2996) contain verbatim. -/
structure BoundaryEllipse where
  semimajor : ℚ
  semiminor : ℚ
  posangle : ℚ
  aspect_ratio : ℚ

/-- The block "Get the ellipse boundary" of `irf_elliptical` and `nroi_elliptical`. -/
def boundary_ellipse (x : Externals) (model : GModelSpatialElliptical) : BoundaryEllipse :=
  let aspect_ratio : ℚ :=
    if model.semimajor ≥ model.semiminor then
      (if model.semimajor > 0 then model.semiminor / model.semimajor else 0)
    else
      (if model.semiminor > 0 then model.semimajor / model.semiminor else 0)
  let posangle : ℚ :=
    if model.semimajor ≥ model.semiminor then
      model.posangle * x.deg2rad
    else
      model.posangle * x.deg2rad + x.pihalf
  let semimajor := model.theta_max
  let semiminor := semimajor * aspect_ratio
  ⟨semimajor, semiminor, posangle, aspect_ratio⟩

/-- Method `GCTAResponseIrf::irf_elliptical`. -/
def irf_elliptical (x : Externals) (event : GEvent) (source : GSource)
    (obs : GCTAObservation) : Eval GCTAResponseIrf ℚ := do
  let iter_rho : Nat := 5
  let iter_phi : Nat := 5
  let pnt := obs.pointing
  let dir := event.dir
  match source.model with
  | .elliptical model =>
    let obsDir := dir.dir
    let obsEng := event.energy
    let centre := model.dir
    let srcEng := source.energy
    let srcTime := source.time
    let zenith := pnt.zenith
    let azimuth := pnt.azimuth
    let rho_obs := x.dist centre obsDir
    let posangle_obs := x.posang centre obsDir
    let rho_pnt := x.dist centre pnt.dir
    let posangle_pnt := x.posang centre pnt.dir
    let omega_pnt := posangle_pnt - posangle_obs
    let srcLogEng := x.log10TeV srcEng
    let theta := x.dist pnt.dir obsDir
    let phi : ℚ := 0
    let delta_max ← psf_delta_max theta phi zenith azimuth srcLogEng
    let ell := boundary_ellipse x model
    let semimajor := ell.semimajor
    let semiminor := ell.semiminor
    let posangle := ell.posangle
    let rho_min : ℚ := if rho_obs > delta_max then rho_obs - delta_max else 0
    let rho_max0 : ℚ := rho_obs + delta_max
    let rho_max : ℚ := if rho_max0 > semimajor then semimajor else rho_max0
    if rho_max > rho_min then
      let rsp ← this
      let integrand : cta_irf_elliptical_kern_rho :=
        ⟨rsp, model, semimajor, semiminor, posangle, zenith, azimuth, srcEng, srcTime,
          srcLogEng, obsEng, rho_obs, posangle_obs, rho_pnt, omega_pnt, delta_max, iter_phi⟩
      let bounds0 : List ℚ := [rho_min, rho_max]
      let bounds1 : List ℚ :=
        if semiminor > rho_min ∧ semiminor < rho_max then bounds0 ++ [semiminor]
        else bounds0
      let irf0 ← GIntegral.romberg_bounds x (.irf_elliptical_kern_rho integrand) iter_rho
        bounds1 iter_rho
      let irf1 := irf0 * (← deadc obs srcTime)
      pure irf1
    else
      pure 0
  | _ => raise (.bad_model_type G_IRF_ELLIPTICAL)

/-- Method `GCTAResponseIrf::irf_diffuse`.  The IRF cache belongs to the event list of
the observation: reading it is the getter of `obs.events`, writing it is recorded in
the trace. -/
def irf_diffuse (x : Externals) (event : GEvent) (source : GSource) (obs : GCTAObservation) :
    Eval GCTAResponseIrf ℚ := do
  let iter_rho : Nat := 5
  let iter_phi : Nat := 5
  let pnt := obs.pointing
  let cached : Option ℚ ←
    match obs.events, event.atom_index with
    | some list, some index => do
      trace (.irf_cache_get source.name index)
      let irf := list.irf_cache source.name index
      pure (if irf ≥ 0 then some irf else none)
    | _, _ => pure none
  match cached with
  | some irf => pure irf
  | none =>
    let dir := event.dir
    let model := source.model
    let obsEng := event.energy
    let srcEng := source.energy
    let srcTime := source.time
    let zenith := pnt.zenith
    let azimuth := pnt.azimuth
    let eta := x.dist pnt.dir dir.dir
    let srcLogEng := x.log10TeV srcEng
    let theta := eta
    let phi : ℚ := 0
    let delta_max ← psf_delta_max theta phi zenith azimuth srcLogEng
    let irf0 : ℚ ←
      if delta_max > 0 then do
        let rot : GMatrix := ⟨dir.dir.dec_deg - 90, -dir.dir.ra_deg⟩
        let rsp ← this
        let integrand : cta_irf_diffuse_kern_theta :=
          ⟨rsp, model, theta, phi, zenith, azimuth, srcEng, srcTime, srcLogEng, obsEng,
            rot, eta, iter_phi⟩
        GIntegral.romberg x (.irf_diffuse_kern_theta integrand) iter_rho 0 delta_max
      else
        pure 0
    let irf1 := irf0 * (← deadc obs srcTime)
    match obs.events, event.atom_index with
    | some _, some index => trace (.irf_cache_set source.name index irf1)
    | _, _ => pure ()
    pure irf1

/-- Method `GCTAResponseIrf::irf(event, source, obs)` (lines 410-437). -/
def irf_source (x : Externals) (event : GEvent) (source : GSource) (obs : GCTAObservation) :
    Eval GCTAResponseIrf ℚ :=
  match source.model.code with
  | .point_source => irf_ptsrc x event source obs
  | .radial => irf_radial x event source obs
  | .elliptical => irf_elliptical x event source obs
  | .diffuse => irf_diffuse x event source obs
  | .unknown => pure 0

/-! ## Integration over the region of interest (`GCTAResponseIrf.cpp`, lines 1673-1903
and 2691-3251) -/

/-- Method `GCTAResponseIrf::npsf`. -/
def npsf (x : Externals) (srcDir : GSkyDir) (srcLogEng : ℚ) (_srcTime : GTime)
    (pnt : GCTAPointing) (roi : GCTARoi) : Eval GCTAResponseIrf ℚ := do
  let iter : Nat := 6
  let zenith := pnt.zenith
  let azimuth := pnt.azimuth
  let theta := x.dist pnt.dir srcDir
  let phi : ℚ := 0
  let roi_radius := roi.radius * x.deg2rad
  let roi_psf_distance := x.dist roi.centre.dir srcDir
  let rmax ← psf_delta_max theta phi zenith azimuth srcLogEng
  if roi_psf_distance + rmax ≤ roi_radius then
    pure 1
  else
    let rmin : ℚ := if roi_psf_distance > roi_radius then roi_psf_distance - roi_radius else 0
    if rmax > rmin then
      let rsp ← this
      let integrand : cta_npsf_kern_rad_azsym :=
        ⟨rsp, roi_radius, roi_psf_distance, srcLogEng, theta, phi, zenith, azimuth⟩
      if rmax - rmin < 1 / 1000000000000 then
        GIntegral.trapzd x (.npsf_kern_rad_azsym integrand) iter rmin rmax
      else
        GIntegral.romberg x (.npsf_kern_rad_azsym integrand) iter rmin rmax
    else
      pure 0

/-- Method `GCTAResponseIrf::nirf`. -/
def nirf (x : Externals) (photon : GPhoton) (obsEng : GEnergy) (_obsTime : GTime)
    (obs : GCTAObservation) : Eval GCTAResponseIrf ℚ := do
  let roi := obs.roi
  let pnt := obs.pointing
  let srcDir := photon.dir
  let srcEng := photon.energy
  let srcTime := photon.time
  let zenith := pnt.zenith
  let azimuth := pnt.azimuth
  let theta := x.dist pnt.dir srcDir
  let phi : ℚ := 0
  let srcLogEng := x.log10TeV srcEng
  let nroi0 ← aeff theta phi zenith azimuth srcLogEng
  if nroi0 > 0 then
    let nroi1 := nroi0 * (← npsf x srcDir srcLogEng srcTime pnt roi)
    let rsp ← this
    let nroi2 ←
      if rsp.use_edisp && decide (nroi1 > 0) then do
        pure (nroi1 * (← edisp x obsEng theta phi zenith azimuth srcLogEng))
      else
        pure nroi1
    let nroi3 := nroi2 * (← deadc obs srcTime)
    pure nroi3
  else
    pure nroi0

/-- Method `GCTAResponseIrf::nroi_ptsrc`.  The source casts the model with
`static_cast`; the last arm stands for a cast of a model of another type and is not
reached through the dispatcher. -/
def nroi_ptsrc (x : Externals) (model : GModelSky) (srcEng : GEnergy) (srcTime : GTime)
    (obsEng : GEnergy) (obsTime : GTime) (obs : GCTAObservation) : Eval GCTAResponseIrf ℚ :=
  match model.spatial with
  | .point_source src =>
    let photon : GPhoton := ⟨src.dir, srcEng, srcTime⟩
    nirf x photon obsEng obsTime obs
  | _ => raise (.undefined "GCTAResponseIrf::nroi_ptsrc")

/-- Method `GCTAResponseIrf::nroi_radial`. -/
def nroi_radial (x : Externals) (model : GModelSky) (srcEng : GEnergy) (srcTime : GTime)
    (obsEng : GEnergy) (obsTime : GTime) (obs : GCTAObservation) :
    Eval GCTAResponseIrf ℚ := do
  let iter_rho : Nat := 6
  let iter_phi : Nat := 6
  let cta := obs
  let roi := obs.roi
  let pnt := cta.pointing
  match model.spatial with
  | .radial spatial =>
    let centre := spatial.dir
    let zenith := pnt.zenith
    let azimuth := pnt.azimuth
    let srcLogEng := x.log10TeV srcEng
    let psf_max_radius ← psf_delta_max 0 0 zenith azimuth srcLogEng
    let roi_radius := roi.radius * x.deg2rad
    let roi_model_distance := x.dist roi.centre.dir centre
    let roi_psf_radius := roi_radius + psf_max_radius
    let rho_min : ℚ :=
      if roi_model_distance > roi_psf_radius then roi_model_distance - roi_psf_radius else 0
    let rho_max := spatial.theta_max
    if rho_max > rho_min then
      let rot : GMatrix := ⟨spatial.dec - 90, -spatial.ra⟩
      let omega0 := x.posang centre roi.centre.dir
      let rsp ← this
      let integrand : cta_nroi_radial_kern_rho :=
        ⟨rsp, spatial, srcEng, srcTime, obsEng, obsTime, cta, rot, roi_model_distance,
          roi_psf_radius, omega0, iter_phi⟩
      let bounds0 : List ℚ := [rho_min, rho_max]
      let transition_point1 := roi_psf_radius - roi_model_distance
      let bounds1 : List ℚ :=
        if transition_point1 > rho_min ∧ transition_point1 < rho_max then
          bounds0 ++ [transition_point1]
        else bounds0
      let transition_point2 := roi_psf_radius + roi_model_distance
      let bounds2 : List ℚ :=
        if transition_point2 > rho_min ∧ transition_point2 < rho_max then
          bounds1 ++ [transition_point2]
        else bounds1
      let bounds3 : List ℚ :=
        match spatial.shell_radius with
        | some radius =>
          let shell_radius := radius * x.deg2rad
          if shell_radius > rho_min ∧ shell_radius < rho_max then
            bounds2 ++ [shell_radius]
          else bounds2
        | none => bounds2
      GIntegral.romberg_bounds x (.nroi_radial_kern_rho integrand) iter_rho bounds3 iter_rho
    else
      pure 0
  | _ => raise (.bad_model_type G_NROI_RADIAL)

/-- Method `GCTAResponseIrf::nroi_elliptical`. -/
def nroi_elliptical (x : Externals) (model : GModelSky) (srcEng : GEnergy) (srcTime : GTime)
    (obsEng : GEnergy) (obsTime : GTime) (obs : GCTAObservation) :
    Eval GCTAResponseIrf ℚ := do
  let iter_rho : Nat := 6
  let iter_phi : Nat := 6
  let cta := obs
  let roi := obs.roi
  let pnt := cta.pointing
  match model.spatial with
  | .elliptical spatial =>
    let centre := spatial.dir
    let zenith := pnt.zenith
    let azimuth := pnt.azimuth
    let srcLogEng := x.log10TeV srcEng
    let psf_max_radius ← psf_delta_max 0 0 zenith azimuth srcLogEng
    let radius_roi := roi.radius * x.deg2rad + psf_max_radius
    let rho_roi := x.dist roi.centre.dir centre
    let ell := boundary_ellipse x spatial
    let semimajor := ell.semimajor
    let semiminor := ell.semiminor
    let posangle := ell.posangle
    let rho_min : ℚ := if rho_roi > radius_roi then rho_roi - radius_roi else 0
    let rho_max0 : ℚ := rho_roi + radius_roi
    let rho_max : ℚ := if rho_max0 > semimajor then semimajor else rho_max0
    if rho_max > rho_min then
      let rot : GMatrix := ⟨spatial.dec - 90, -spatial.ra⟩
      let posangle_roi := x.posang centre roi.centre.dir
      let rsp ← this
      let integrand : cta_nroi_elliptical_kern_rho :=
        ⟨rsp, spatial, semimajor, semiminor, posangle, srcEng, srcTime, obsEng, obsTime,
          cta, rot, rho_roi, posangle_roi, radius_roi, iter_phi⟩
      let bounds0 : List ℚ := [rho_min, rho_max]
      let bounds1 : List ℚ :=
        if semiminor > rho_min ∧ semiminor < rho_max then bounds0 ++ [semiminor]
        else bounds0
      GIntegral.romberg_bounds x (.nroi_elliptical_kern_rho integrand) iter_rho bounds1
        iter_rho
    else
      pure 0
  | _ => raise (.bad_model_type G_NROI_ELLIPTICAL)

/-- The search loop of the Npred cache in `nroi_diffuse` (lines 3132-3151), started at
index `i` with `n` indices left: the value of the first entry at or after `i` whose
name, energy and time equal the requested ones. -/
def npred_search (rsp : GCTAResponseIrf) (id : String) (srcEng : GEnergy) (srcTime : GTime) :
    Nat → Nat → Option ℚ
  | 0, _ => none
  | n + 1, i =>
    if rsp.m_npred_names[i]? = some id ∧ rsp.m_npred_energies[i]? = some srcEng ∧
        rsp.m_npred_times[i]? = some srcTime then
      some (rsp.m_npred_values.getD i 0)
    else
      npred_search rsp id srcEng srcTime n (i + 1)

/-- Method `GCTAResponseIrf::nroi_diffuse`. -/
def nroi_diffuse (x : Externals) (model : GModelSky) (srcEng : GEnergy) (srcTime : GTime)
    (obsEng : GEnergy) (obsTime : GTime) (obs : GCTAObservation) :
    Eval GCTAResponseIrf ℚ := do
  let iter_rho : Nat := 9
  let iter_phi : Nat := 9
  let id := model.name ++ "::" ++ obs.id
  let rsp ← this
  match npred_search rsp id srcEng srcTime rsp.m_npred_names.length 0 with
  | some nroi => pure nroi
  | none =>
    let cta := obs
    let roi := obs.roi
    let pnt := cta.pointing
    let spatial := model.spatial
    let zenith := pnt.zenith
    let azimuth := pnt.azimuth
    let srcLogEng := x.log10TeV srcEng
    let psf_max_radius ← psf_delta_max 0 0 zenith azimuth srcLogEng
    let roi_radius := roi.radius * x.deg2rad
    let roi_psf_radius := roi_radius + psf_max_radius
    let nroi : ℚ ←
      if roi_psf_radius > 0 then do
        let rot : GMatrix := ⟨roi.centre.dir.dec_deg - 90, -roi.centre.dir.ra_deg⟩
        let integrand : cta_nroi_diffuse_kern_theta :=
          ⟨← this, spatial, srcEng, srcTime, obsEng, obsTime, cta, rot, iter_phi⟩
        GIntegral.romberg x (.nroi_diffuse_kern_theta integrand) iter_rho 0 roi_psf_radius
      else
        pure 0
    let self ← this
    assign { self with
      m_npred_names := self.m_npred_names ++ [id]
      m_npred_energies := self.m_npred_energies ++ [srcEng]
      m_npred_times := self.m_npred_times ++ [srcTime]
      m_npred_values := self.m_npred_values ++ [nroi] }
    pure nroi

/-- Method `GCTAResponseIrf::nroi(model, srcEng, srcTime, obsEng, obsTime, obs)`
(lines 1673-1703). -/
def nroi_spatial (x : Externals) (model : GModelSky) (srcEng : GEnergy) (srcTime : GTime)
    (obsEng : GEnergy) (obsTime : GTime) (obs : GCTAObservation) : Eval GCTAResponseIrf ℚ :=
  match model.spatial.code with
  | .point_source => nroi_ptsrc x model srcEng srcTime obsEng obsTime obs
  | .radial => nroi_radial x model srcEng srcTime obsEng obsTime obs
  | .elliptical => nroi_elliptical x model srcEng srcTime obsEng obsTime obs
  | .diffuse => nroi_diffuse x model srcEng srcTime obsEng obsTime obs
  | .unknown => pure 0

/-- The loop over the true energy boundaries in `nroi` (lines 491-514): adds to `nroi`
the Romberg integral of every valid interval. -/
def nroi_edisp_loop (x : Externals) (model : GModelSky) (srcTime : GTime) (obsEng : GEnergy)
    (obsTime : GTime) (obs : GCTAObservation) (iter : Nat) :
    List (GEnergy × GEnergy) → ℚ → Eval GCTAResponseIrf ℚ
  | [], nroi => pure nroi
  | (e_min, e_max) :: rest, nroi => do
    let emin := e_min.MeV
    let emax := e_max.MeV
    if emax > emin then
      let integrand : cta_nroi_kern := ⟨model, ← this, srcTime, obsEng, obsTime, obs⟩
      let v ← GIntegral.romberg x (.nroi_kern integrand) iter (x.log emin) (x.log emax)
      nroi_edisp_loop x model srcTime obsEng obsTime obs iter rest (nroi + v)
    else
      nroi_edisp_loop x model srcTime obsEng obsTime obs iter rest nroi

/-- Method `GCTAResponseIrf::nroi(model, obsEng, obsTime, obs)` (lines 468-553).  The
`none` arm stands for the dereference of `edisp()` and is not reached, as `use_edisp`
holds there. -/
def nroi (x : Externals) (model : GModelSky) (obsEng : GEnergy) (obsTime : GTime)
    (obs : GCTAObservation) : Eval GCTAResponseIrf ℚ := do
  let iter : Nat := 6
  let srcTime := obsTime
  let rsp ← this
  let nroi0 : ℚ ←
    if rsp.use_edisp then do
      let obsLogEng := x.log10TeV obsEng
      match rsp.m_edisp with
      | none => raise (.undefined "GCTAResponseIrf::nroi")
      | some e =>
        let ebounds := e.ebounds_src obsLogEng
        nroi_edisp_loop x model srcTime obsEng obsTime obs iter ebounds.bins 0
    else do
      let srcEng := obsEng
      let npred_spatial ← nroi_spatial x model srcEng srcTime obsEng obsTime obs
      let npred_spectral := model.spectral.eval srcEng srcTime
      let npred_temporal := model.temporal.eval srcTime
      pure (npred_spatial * npred_spectral * npred_temporal)
  if model.has_scales then
    pure (nroi0 * model.scale obs.instrument)
  else
    pure nroi0

end GCTAResponseIrf

/-! ## Cube background model (`GCTAModelCubeBackground.cpp`, lines 400-495) -/

/-- The members of `GCTAModelCubeBackground` read or written by `npred`: the spectral
and temporal components (`none` is the `NULL` pointer) and the four parallel vectors
of the Npred cache. -/
structure GCTAModelCubeBackground where
  m_spectral : Option GModelSpectral
  m_temporal : Option GModelTemporal
  m_npred_names : List String
  m_npred_energies : List GEnergy
  m_npred_times : List GTime
  m_npred_values : List ℚ

namespace GCTAModelCubeBackground

/-- Macro `G_NPRED`. -/
def G_NPRED : String := "GCTAModelCubeBackground::npred(GEnergy&, GTime&, GObservation&)"

/-- Method `GCTAModelCubeBackground::valid_model` (lines 858-865). -/
def valid_model (bgd : GCTAModelCubeBackground) : Bool :=
  bgd.m_spectral.isSome && bgd.m_temporal.isSome

/-- The search loop of the Npred cache in `npred` (lines 413-430), started at index `i`
with `n` indices left: the value of the first entry at or after `i` whose name and
energy equal the requested ones. -/
def npred_search (bgd : GCTAModelCubeBackground) (id : String) (obsEng : GEnergy) :
    Nat → Nat → Option ℚ
  | 0, _ => none
  | n + 1, i =>
    if bgd.m_npred_names[i]? = some id ∧ bgd.m_npred_energies[i]? = some obsEng then
      some (bgd.m_npred_values.getD i 0)
    else
      npred_search bgd id obsEng n (i + 1)

/-- Method `GCTAModelCubeBackground::npred`.  The `undefined` arms stand for the
dereference of a `NULL` spectral or temporal component. -/
def npred (x : Externals) (obsEng : GEnergy) (obsTime : GTime) (obs : GObservation) :
    Eval GCTAModelCubeBackground ℚ := do
  let id := obs.instrument ++ "::" ++ obs.id
  let bgd0 ← this
  let npred0 : ℚ ←
    match npred_search bgd0 id obsEng bgd0.m_npred_names.length 0 with
    | some npred => pure npred
    | none =>
      if bgd0.valid_model then
        match obs with
        | .foreign _ _ _ =>
          raise (.invalid_argument G_NPRED
            ("Specified observation is not a CTA observation.\n" ++ x.obs_print obs))
        | .cta cta =>
          match cta.cube_background with
          | none =>
            raise (.invalid_argument G_NPRED
              ("Specified observation does not contain a cube response.\n" ++
                x.obs_print obs))
          | some bgd => do
            let logE := x.log10TeV obsEng
            trace (.bgd_integral logE)
            let npred := bgd.integral logE
            let self ← this
            assign { self with
              m_npred_names := self.m_npred_names ++ [id]
              m_npred_energies := self.m_npred_energies ++ [obsEng]
              m_npred_times := self.m_npred_times ++ [obsTime]
              m_npred_values := self.m_npred_values ++ [npred] }
            pure npred
      else
        pure 0
  let self ← this
  match self.m_spectral with
  | none => raise (.undefined "GCTAModelCubeBackground::npred")
  | some spectral =>
    let npred1 := npred0 * spectral.eval obsEng obsTime
    match self.m_temporal with
    | none => raise (.undefined "GCTAModelCubeBackground::npred")
    | some temporal =>
      let npred2 := npred1 * temporal.eval obsTime
      trace (.deadc obsTime)
      let npred3 := npred2 * obs.deadc obsTime
      pure npred3

end GCTAModelCubeBackground

/-! ## Life cycle of the response (`GCTAResponseIrf.cpp`, lines 127-155, 279-293 and
1915-1978) -/

namespace GCTAResponseIrf

/-- Method `GCTAResponseIrf::init_members`, on the embedded members: all component
pointers are `NULL`, energy dispersion is switched off and the Npred cache vectors are
cleared. -/
def init_members (_rsp : GCTAResponseIrf) : GCTAResponseIrf :=
  { m_aeff := none
    m_psf := none
    m_edisp := none
    m_apply_edisp := false
    m_npred_names := []
    m_npred_energies := []
    m_npred_times := []
    m_npred_values := [] }

/-- Method `GCTAResponseIrf::copy_members`: flag, cache and (cloned) components of
`rsp` are copied into the object. -/
def copy_members (self rsp : GCTAResponseIrf) : GCTAResponseIrf :=
  { self with
    m_apply_edisp := rsp.m_apply_edisp
    m_npred_names := rsp.m_npred_names
    m_npred_energies := rsp.m_npred_energies
    m_npred_times := rsp.m_npred_times
    m_npred_values := rsp.m_npred_values
    m_aeff := rsp.m_aeff
    m_psf := rsp.m_psf
    m_edisp := rsp.m_edisp }

/-- The copy constructor `GCTAResponseIrf(rsp)`: `init_members`, then `copy_members`. -/
def construct_copy (raw rsp : GCTAResponseIrf) : GCTAResponseIrf :=
  copy_members (init_members raw) rsp

end GCTAResponseIrf

/-! ## Monte Carlo simulation of an event (`GCTAResponseIrf.cpp`, lines 597-672) -/

/-- Random number generator (`GRan`): the sequence of uniform variates it delivers and
the number of variates drawn so far. -/
structure GRan where
  draws : Nat → ℚ
  pos : Nat

/-- Method `GRan::uniform`: the next variate and the generator after the draw. -/
def GRan.uniform (ran : GRan) : ℚ × GRan :=
  (ran.draws ran.pos, { ran with pos := ran.pos + 1 })

/-- CTA event atom (`GCTAEventAtom`) as far as `mc` sets it: direction, energy and
time. -/
structure GCTAEventAtom where
  m_dir : GCTAInstDir
  m_energy : GEnergy
  m_time : GTime

/-- Collaborators of the simulation, taken as parameters: the samplers
`GCTAPsf::mc(ran, logE, theta, phi, zenith, azimuth)` and
`GCTAEdisp::mc(ran, logE, theta, phi, zenith, azimuth)`, which return the sampled value
and the generator after their draws, `GSkyDir::rotate_deg(phi, theta)`,
`GCTAPointing::instdir(skydir)`, the constant `gammalib::rad2deg`, the number
formatting `gammalib::str` and the accessor `GEnergy::TeV()`. -/
structure Samplers where
  psf_mc : GCTAPsf → GRan → ℚ → ℚ → ℚ → ℚ → ℚ → ℚ × GRan
  edisp_mc : GCTAEdisp → GRan → ℚ → ℚ → ℚ → ℚ → ℚ → GEnergy × GRan
  rotate_deg : GSkyDir → ℚ → ℚ → GSkyDir
  instdir : GCTAPointing → GSkyDir → GCTAInstDir
  rad2deg : ℚ
  str : ℚ → String
  TeV : GEnergy → ℚ

namespace GCTAResponseIrf

/-- Text of the warning issued by `mc` (lines 623-629). -/
def msg_mc_warning (y : Samplers) (effective_area area : ℚ) (energy : GEnergy) : String :=
  "Effective area " ++ y.str effective_area ++
  " cm2 is larger than simulation surface area " ++ y.str area ++
  " cm2 for photon energy " ++ y.str (y.TeV energy) ++
  " TeV. Simulations are inaccurate."

/-- Method `GCTAResponseIrf::mc`: the simulated event (`none` is the `NULL` pointer)
and the generator after the call.  The second uniform variate is drawn only when
`deadc < 1` (short-circuit `||`).  The `undefined` arms stand for the dereference of
`psf()` and `edisp()` when the pointer is `NULL`.  The quotient
`effective_area / area` is the value of the code when `area` is not zero; for a zero
area the code yields an infinite value or a NaN, which a rational does not represent,
and the statements on `mc` assume a non-zero area. -/
def mc (x : Externals) (y : Samplers) (area : ℚ) (photon : GPhoton) (obs : GCTAObservation)
    (ran : GRan) : Eval GCTAResponseIrf (Option GCTAEventAtom × GRan) := do
  let pnt := obs.pointing
  let zenith := pnt.zenith
  let azimuth := pnt.azimuth
  let theta := x.dist pnt.dir photon.dir
  let phi : ℚ := 0
  let srcLogEng := x.log10TeV photon.energy
  let effective_area ← aeff theta phi zenith azimuth srcLogEng
  let ulimite := effective_area / area
  if ulimite > 1 then
    trace (.warning G_MC (msg_mc_warning y effective_area area photon.energy))
  else pure ()
  let u1 := ran.uniform
  if u1.1 ≤ ulimite then
    let deadc0 ← deadc obs photon.time
    let alive : Bool × GRan :=
      if deadc0 ≥ 1 then (true, u1.2)
      else (decide (u1.2.uniform.1 ≤ deadc0), u1.2.uniform.2)
    if alive.1 then
      let rsp ← this
      match rsp.m_psf with
      | none => raise (.undefined G_MC)
      | some p =>
        let sample := y.psf_mc p alive.2 srcLogEng theta phi zenith azimuth
        let delta := sample.1 * y.rad2deg
        let u3 := sample.2.uniform
        let alpha := 360 * u3.1
        let sky_dir := y.rotate_deg photon.dir alpha delta
        let inst_dir := y.instdir pnt sky_dir
        if rsp.use_edisp then
          match rsp.m_edisp with
          | none => raise (.undefined G_MC)
          | some e =>
            let measured := y.edisp_mc e u3.2 srcLogEng theta phi zenith azimuth
            pure (some ⟨inst_dir, measured.1, photon.time⟩, measured.2)
        else
          pure (some ⟨inst_dir, photon.energy, photon.time⟩, u3.2)
    else
      pure (none, alive.2)
  else
    pure (none, u1.2)

end GCTAResponseIrf

/-! ## Effective area from a response table (`GCTAAeff2D.cpp`, lines 177-197) -/

/-- The member `m_aeff` of `GCTAAeff2D`: a response table (`GCTAResponseTable`), through
its interpolation operator `m_aeff(index, logE, theta)`. -/
structure GCTAAeff2D where
  m_aeff : Nat → ℚ → ℚ → ℚ

/-- Operator `GCTAAeff2D::operator()(logE, theta, phi, zenith, azimuth, etrue)`. -/
def GCTAAeff2D.eval (a : GCTAAeff2D) (logE theta _phi _zenith _azimuth : ℚ) (etrue : Bool) :
    ℚ :=
  let index : Nat := if etrue then 0 else 1
  let aeff := a.m_aeff index logE theta
  if aeff < 0 then 0 else aeff

/-! ## XML attribute (`GXmlAttribute.cpp`, lines 236-331) -/

/-- The single quote character. -/
def squote : Char := Char.ofNat 39

/-- The double quote character. -/
def dquote : Char := Char.ofNat 34

/-- XML attribute (`GXmlAttribute`): name and value, as character sequences. -/
structure GXmlAttribute where
  m_name : List Char
  m_value : List Char

namespace GXmlAttribute

/-- Macro `G_VALUE`. -/
def G_VALUE : String := "GXmlAttribute::value(std::string)"

/-- Method `GXmlAttribute::value(void) const`: the stored value without its first and
last character, `substr(1, n-2)`, when it is longer than 2, and the empty string
otherwise. -/
def get_value (attr : GXmlAttribute) : List Char :=
  let n := attr.m_value.length
  if n > 2 then (attr.m_value.drop 1).take (n - 2) else []

/-- The counting loop of `value(std::string)` (lines 269-272): the numbers of single
and of double quotes met so far. -/
def count_hyphens : List Char → Nat × Nat → Nat × Nat
  | [], acc => acc
  | c :: rest, acc =>
    let n1 := if c = squote then acc.1 + 1 else acc.1
    let n2 := if c = dquote then acc.2 + 1 else acc.2
    count_hyphens rest (n1, n2)

/-- Method `GXmlAttribute::value(std::string value)`. -/
def set_value (value : List Char) : Eval GXmlAttribute Unit := do
  let n := value.length
  let has_hyphens1 : Bool :=
    decide (n ≥ 2) && decide (value[0]? = some squote) && decide (value[n - 1]? = some squote)
  let has_hyphens2 : Bool :=
    decide (n ≥ 2) && decide (value[0]? = some dquote) && decide (value[n - 1]? = some dquote)
  let counts := count_hyphens value (0, 0)
  let n_hyphens1 := counts.1
  let n_hyphens2 := counts.2
  let value1 : List Char ←
    if has_hyphens1 then
      if n_hyphens1 > 2 ∧ n_hyphens2 = 0 then
        pure ([dquote] ++ value ++ [dquote])
      else if n_hyphens1 > 2 ∧ n_hyphens2 > 0 then
        raise (.xml_attribute_value G_VALUE value)
      else
        pure value
    else if has_hyphens2 then
      if n_hyphens1 = 0 ∧ n_hyphens2 > 2 then
        pure ([squote] ++ value ++ [squote])
      else if n_hyphens1 > 0 ∧ n_hyphens2 > 2 then
        raise (.xml_attribute_value G_VALUE value)
      else
        pure value
    else
      if n_hyphens1 ≥ 0 ∧ n_hyphens2 = 0 then
        pure ([dquote] ++ value ++ [dquote])
      else if n_hyphens1 = 0 ∧ n_hyphens2 > 0 then
        pure ([squote] ++ value ++ [squote])
      else
        raise (.xml_attribute_value G_VALUE value)
  let attr ← this
  assign { attr with m_value := value1 }

end GXmlAttribute

/-! ## Parameters of a spectral model (`GModelSpectral.cpp`, lines 128-260) -/

namespace GModelSpectral

/-- Macro `G_ACCESS`. -/
def G_ACCESS : String := "GModelSpectral::operator[](std::string&)"

/-- Macro `G_AT`. -/
def G_AT : String := "GModelPar& GModelSpectral::at(int&)"

/-- Modelled from the spec: the inline accessor `size()`, declared in the header
`GModelSpectral.hpp` and absent from `GModelSpectral.cpp`: the number of parameters
of the container, `m_pars.size()` as an `int`. -/
def size (m : GModelSpectral) : Int := m.m_pars.length

/-- The search loop of `operator[]` (lines 139-144 and 167-172), at `index` with `n`
indices below `size()` left: the index at which the loop stops. -/
def access_loop (m : GModelSpectral) (name : String) : Nat → Nat → Nat
  | 0, index => index
  | n + 1, index =>
    if (m.m_pars[index]?).map GModelPar.name = some name then index
    else access_loop m name n (index + 1)

/-- Operator `GModelSpectral::operator[](const std::string& name)`, both versions.  The
`undefined` arm stands for an access past the end of `m_pars`. -/
def access (m : GModelSpectral) (name : String) : Except GException GModelPar :=
  let index : Int := access_loop m name m.size.toNat 0
  if index ≥ m.size then
    .error (.par_not_found G_ACCESS name)
  else
    match m.m_pars[index.toNat]? with
    | some par => .ok par
    | none => .error (.undefined G_ACCESS)

/-- Method `GModelSpectral::at(const int& index)`, both versions.  The `undefined` arm
stands for an access past the end of `m_pars`. -/
def «at» (m : GModelSpectral) (index : Int) : Except GException GModelPar :=
  if index < 0 ∨ index ≥ m.size then
    .error (.out_of_range G_AT index 0 (m.size - 1))
  else
    match m.m_pars[index.toNat]? with
    | some par => .ok par
    | none => .error (.undefined G_AT)

/-- The search loop of `has_par` (lines 251-256), at index `i` with `n` indices below
`size()` left: the value of `found` when the loop stops. -/
def has_par_loop (m : GModelSpectral) (name : String) : Nat → Nat → Bool
  | 0, _ => false
  | n + 1, i =>
    if (m.m_pars[i]?).map GModelPar.name = some name then true
    else has_par_loop m name n (i + 1)

/-- Method `GModelSpectral::has_par(const std::string& name)`. -/
def has_par (m : GModelSpectral) (name : String) : Bool :=
  has_par_loop m name m.size.toNat 0

end GModelSpectral

/-! ## Random strings of the VO hub (`GVOHub.cpp`, lines 1937-1949) -/

namespace GVOHub

/-- The string `str` is initialised with: digits, upper case and lower case letters. -/
def alphabet : List Char :=
  "0123456789ABCDEFGHIJKLMNOPQRSTUVWXYZabcdefghijklmnopqrstuvwxyz".data

/-- The `while` loop of `random_string`, with `fuel` iterations allowed; `rand k` is the
value of the k-th call of `rand()` after `srand`, and `k` counts the calls made so far.
`none` means that the iterations allowed are used up; the `undefined` result stands
for the modulo by zero, which is undefined behaviour. -/
def random_string_loop (rand : Nat → Nat) (length : Nat) :
    Nat → Nat → List Char → Option (Except GException (List Char))
  | fuel, k, str =>
    if str.length = length then some (.ok str)
    else
      match fuel with
      | 0 => none
      | fuel + 1 =>
        if str.length - 1 = 0 then some (.error (.undefined "GVOHub::random_string"))
        else
          let pos := rand k % (str.length - 1)
          random_string_loop rand length fuel (k + 1) (str.eraseIdx pos)

/-- Method `GVOHub::random_string(const size_t& length)`, run for at most `fuel`
iterations of its loop. -/
def random_string (rand : Nat → Nat) (length : Nat) (fuel : Nat) :
    Option (Except GException (List Char)) :=
  random_string_loop rand length fuel 0 alphabet

end GVOHub

/-! ## Running sequences of calls -/

/-- Arguments of one call of `GCTAResponseIrf::nroi_diffuse`. -/
structure NroiDiffuseArgs where
  model : GModelSky
  srcEng : GEnergy
  srcTime : GTime
  obsEng : GEnergy
  obsTime : GTime
  obs : GCTAObservation

/-- The response object after a sequence of `nroi_diffuse` calls, made one after the
other on the same object (a call that throws leaves the object as it is then). -/
def after_nroi_diffuse_calls (x : Externals) :
    List NroiDiffuseArgs → GCTAResponseIrf → GCTAResponseIrf
  | [], rsp => rsp
  | a :: rest, rsp =>
    after_nroi_diffuse_calls x rest
      (GCTAResponseIrf.nroi_diffuse x a.model a.srcEng a.srcTime a.obsEng a.obsTime a.obs
        rsp).self

/-- Arguments of one call of `GCTAModelCubeBackground::npred`. -/
structure NpredArgs where
  obsEng : GEnergy
  obsTime : GTime
  obs : GObservation

/-- The background model after a sequence of `npred` calls made one after the other on
the same object. -/
def after_npred_calls (x : Externals) :
    List NpredArgs → GCTAModelCubeBackground → GCTAModelCubeBackground
  | [], bgd => bgd
  | a :: rest, bgd =>
    after_npred_calls x rest (GCTAModelCubeBackground.npred x a.obsEng a.obsTime a.obs bgd).self

/-- Keys of the Npred cache of a response: entry `i` pairs name, energy and time at
index `i` of the parallel vectors. -/
def GCTAResponseIrf.npred_keys (rsp : GCTAResponseIrf) : List (String × GEnergy × GTime) :=
  rsp.m_npred_names.zip (rsp.m_npred_energies.zip rsp.m_npred_times)

/-- Keys of the Npred cache of a cube background model. -/
def GCTAModelCubeBackground.npred_keys (bgd : GCTAModelCubeBackground) :
    List (String × GEnergy × GTime) :=
  bgd.m_npred_names.zip (bgd.m_npred_energies.zip bgd.m_npred_times)

/-- The four cache vectors of a response have the same length. -/
def GCTAResponseIrf.cache_aligned (rsp : GCTAResponseIrf) : Prop :=
  rsp.m_npred_energies.length = rsp.m_npred_names.length ∧
  rsp.m_npred_times.length = rsp.m_npred_names.length ∧
  rsp.m_npred_values.length = rsp.m_npred_names.length

/-- The four cache vectors of a cube background model have the same length. -/
def GCTAModelCubeBackground.cache_aligned (bgd : GCTAModelCubeBackground) : Prop :=
  bgd.m_npred_energies.length = bgd.m_npred_names.length ∧
  bgd.m_npred_times.length = bgd.m_npred_names.length ∧
  bgd.m_npred_values.length = bgd.m_npred_names.length

/-! ## Quantities named in the statements -/

/-- Camera offset of the true photon: distance between pointing and photon direction. -/
def photon_theta (x : Externals) (photon : GPhoton) (obs : GCTAObservation) : ℚ :=
  x.dist obs.pointing.dir photon.dir

/-- Angular separation between the measured and the true photon direction. -/
def photon_delta (x : Externals) (event : GEvent) (photon : GPhoton) : ℚ :=
  x.dist event.dir.dir photon.dir

/-- The energy dispersion factor `D` in the words of the statement on the value of
`irf`: the table value divided by `ln10 * E_measured` when energy dispersion is in use
and the product `ap` of effective area and PSF is positive, and `1` otherwise. -/
def claimed_edisp_factor (x : Externals) (rsp : GCTAResponseIrf) (event : GEvent)
    (photon : GPhoton) (obs : GCTAObservation) (ap : ℚ) : ℚ :=
  if rsp.use_edisp = true ∧ 0 < ap then
    match rsp.m_edisp with
    | some e =>
      e.eval (x.log10TeV event.energy) (x.log10TeV photon.energy) (photon_theta x photon obs) 0
        obs.pointing.zenith obs.pointing.azimuth / (x.ln10 * event.energy.MeV)
    | none => 0
  else 1

/-! ## A concrete configuration

A small closed instance of the parameters on which the statements are exercised: a
flat toy geometry, constant response components and a constant deadtime correction. -/

/-- Toy collaborators. -/
def demo_x : Externals where
  obs_print := fun obs => obs.instrument ++ " " ++ obs.id
  dist := fun a b => (a.ra_deg - b.ra_deg) ^ 2 + (a.dec_deg - b.dec_deg) ^ 2
  posang := fun _ _ => 0
  log10TeV := fun e => e.MeV / 1000000
  sin := fun t => t
  cos := fun _ => 1
  acos := fun _ => 0
  log := fun t => t
  deg2rad := 1 / 50
  pihalf := 3 / 2
  ln10 := 2
  romberg := fun _ _ a b => b - a
  romberg_bounds := fun _ _ bounds _ => bounds.getD 1 0 - bounds.getD 0 0
  trapzd := fun _ _ a b => b - a

/-- Constant effective area of 2. -/
def demo_aeff : GCTAAeff := ⟨fun _ _ _ _ _ => 2⟩

/-- Constant PSF of 3 with a maximum radius of 1. -/
def demo_psf : GCTAPsf := ⟨fun _ _ _ _ _ _ => 3, fun _ _ _ _ _ => 1⟩

/-- Constant energy dispersion table value of 4, one true energy interval. -/
def demo_edisp : GCTAEdisp := ⟨fun _ _ _ _ _ _ => 4, fun _ => ⟨[(⟨1⟩, ⟨2⟩)]⟩⟩

/-- Response with all components, energy dispersion switched on, empty cache. -/
def demo_rsp : GCTAResponseIrf := ⟨some demo_aeff, some demo_psf, some demo_edisp, true, [], [], [], []⟩

/-- Observation pointing at the origin, ROI radius 10 degrees, deadtime correction 1/2. -/
def demo_obs : GCTAObservation :=
  ⟨"CTA", "0001", ⟨⟨0, 0⟩, 0, 0⟩, ⟨⟨⟨0, 0⟩⟩, 10⟩, fun _ => 1 / 2, none, none⟩

/-- Event measured at the origin with an energy of 1000 MeV. -/
def demo_event : GEvent := ⟨⟨⟨0, 0⟩⟩, ⟨1000⟩, ⟨0⟩, none⟩

/-- Photon from the measured direction. -/
def demo_photon_near : GPhoton := ⟨⟨0, 0⟩, ⟨1000⟩, ⟨0⟩⟩

/-- Photon from a direction outside the PSF radius. -/
def demo_photon_far : GPhoton := ⟨⟨2, 0⟩, ⟨1000⟩, ⟨0⟩⟩

/-- Point source at the measured direction. -/
def demo_source_point : GSource := ⟨"Crab", .point_source ⟨⟨0, 0⟩⟩, ⟨1000⟩, ⟨0⟩⟩

/-- Radial model of maximum radius 1/2 centred two units away from the measured
direction (distance 4 in the toy geometry). -/
def demo_radial_far : GModelSpatialRadial := ⟨⟨2, 0⟩, 2, 0, 1 / 2, none⟩

/-- Elliptical model whose declared semiminor axis exceeds the semimajor axis. -/
def demo_elliptical : GModelSpatialElliptical := ⟨⟨0, 0⟩, 0, 0, 1, 2, 30, 3⟩

/-- Elliptical model of maximum radius 1/2 centred two units away. -/
def demo_elliptical_far : GModelSpatialElliptical := ⟨⟨2, 0⟩, 2, 0, 2, 1, 30, 1 / 2⟩

/-- Source with a given spatial model, at 1000 MeV and time 0. -/
def demo_source (m : GModelSpatial) : GSource := ⟨"Src", m, ⟨1000⟩, ⟨0⟩⟩

/-- Sky model with a given spatial model, constant spectrum 5 and light curve 7, and
an instrument scale of 3 when `scaled` is set. -/
def demo_model (m : GModelSpatial) (scaled : Bool) : GModelSky :=
  ⟨"Src", m, ⟨fun _ _ => 5, []⟩, ⟨fun _ => 7⟩, scaled, fun _ => 3⟩

/-- Lower bound of the zenith angle range in the words of the statement:
`max(0, zeta - delta_max)`. -/
def claimed_rho_min (zeta delta_max : ℚ) : ℚ := max 0 (zeta - delta_max)

/-- Upper bound of the zenith angle range in the words of the statement:
`min(zeta + delta_max, theta_max)`. -/
def claimed_rho_max (zeta delta_max theta_max : ℚ) : ℚ := min (zeta + delta_max) theta_max

/-- Maximum PSF radius as `irf_radial`, `irf_elliptical` and `irf_diffuse` obtain it:
`delta_max` of the PSF at the true energy of the source and at the offset angle of the
measured direction. -/
def measured_delta_max (x : Externals) (p : GCTAPsf) (srcEng : GEnergy) (event : GEvent)
    (obs : GCTAObservation) : ℚ :=
  p.delta_max (x.log10TeV srcEng) (x.dist obs.pointing.dir event.dir.dir) 0
    obs.pointing.zenith obs.pointing.azimuth

/-- Trace entry of the call that yields `measured_delta_max`. -/
def measured_delta_max_call (x : Externals) (srcEng : GEnergy) (event : GEvent)
    (obs : GCTAObservation) : Call :=
  Call.psf_delta_max (x.dist obs.pointing.dir event.dir.dir) 0
    obs.pointing.zenith obs.pointing.azimuth (x.log10TeV srcEng)

/-- Response whose PSF has a maximum radius of 2 degrees. -/
def demo_rsp_narrow : GCTAResponseIrf :=
  ⟨some demo_aeff, some ⟨fun _ _ _ _ _ _ => 3, fun _ _ _ _ _ => 2 * (1 / 50)⟩, none, false,
    [], [], [], []⟩

/-- The value of `nroi` without energy dispersion in the words of the statement: the
spatial integral `S` times the spectral and temporal model values at the measured
energy and time, multiplied last by the instrument scale when the model has scales. -/
def claimed_nroi_value (model : GModelSky) (obsEng : GEnergy) (obsTime : GTime)
    (obs : GCTAObservation) (S : ℚ) : ℚ :=
  if model.has_scales = true then
    S * model.spectral.eval obsEng obsTime * model.temporal.eval obsTime *
      model.scale obs.instrument
  else
    S * model.spectral.eval obsEng obsTime * model.temporal.eval obsTime

/-- The response with one more cache entry, appended to the four vectors. -/
def GCTAResponseIrf.push_npred (rsp : GCTAResponseIrf) (id : String) (srcEng : GEnergy)
    (srcTime : GTime) (value : ℚ) : GCTAResponseIrf :=
  { rsp with
    m_npred_names := rsp.m_npred_names ++ [id]
    m_npred_energies := rsp.m_npred_energies ++ [srcEng]
    m_npred_times := rsp.m_npred_times ++ [srcTime]
    m_npred_values := rsp.m_npred_values ++ [value] }

/-- The background model with one more cache entry, appended to the four vectors. -/
def GCTAModelCubeBackground.push_npred (bgd : GCTAModelCubeBackground) (id : String)
    (obsEng : GEnergy) (obsTime : GTime) (value : ℚ) : GCTAModelCubeBackground :=
  { bgd with
    m_npred_names := bgd.m_npred_names ++ [id]
    m_npred_energies := bgd.m_npred_energies ++ [obsEng]
    m_npred_times := bgd.m_npred_times ++ [obsTime]
    m_npred_values := bgd.m_npred_values ++ [value] }

/-- A cube background on which the integral at `logE` is `logE + 1`. -/
def demo_cube : GCTACubeBackground := ⟨fun logE => logE + 1⟩

/-- An observation with a cube response. -/
def demo_obs_cube : GCTAObservation :=
  ⟨"CTA", "0001", ⟨⟨0, 0⟩, 0, 0⟩, ⟨⟨⟨0, 0⟩⟩, 10⟩, fun _ => 1 / 2, none, some demo_cube⟩

/-- A second observation with the instrument and the id of `demo_obs_cube` and another
cube response, on which the integral at `logE` is `logE + 2`. -/
def demo_obs_cube_other : GCTAObservation :=
  ⟨"CTA", "0001", ⟨⟨0, 0⟩, 0, 0⟩, ⟨⟨⟨0, 0⟩⟩, 10⟩, fun _ => 1 / 2, none,
    some ⟨fun logE => logE + 2⟩⟩

/-- A valid cube background model with an empty cache. -/
def demo_bgd : GCTAModelCubeBackground :=
  ⟨some ⟨fun _ _ => 5, []⟩, some ⟨fun _ => 7⟩, [], [], [], []⟩

/-- Two identical calls of `nroi_diffuse` followed by one at another energy. -/
def demo_nroi_calls : List NroiDiffuseArgs :=
  [⟨demo_model (.diffuse ⟨fun _ _ _ => 1⟩) false, ⟨1000⟩, ⟨0⟩, ⟨1000⟩, ⟨0⟩, demo_obs⟩,
   ⟨demo_model (.diffuse ⟨fun _ _ _ => 1⟩) false, ⟨1000⟩, ⟨0⟩, ⟨1000⟩, ⟨0⟩, demo_obs⟩,
   ⟨demo_model (.diffuse ⟨fun _ _ _ => 1⟩) false, ⟨2000⟩, ⟨0⟩, ⟨2000⟩, ⟨0⟩, demo_obs⟩]

/-- Two calls of `npred` at the same energy and different times, then one at another
energy. -/
def demo_npred_calls : List NpredArgs :=
  [⟨⟨1000⟩, ⟨0⟩, .cta demo_obs_cube⟩, ⟨⟨1000⟩, ⟨1⟩, .cta demo_obs_cube⟩,
   ⟨⟨2000⟩, ⟨0⟩, .cta demo_obs_cube⟩]

/-- The radius `roi_psf_radius` of `nroi_diffuse`: ROI radius in radians plus the
on-axis maximum PSF radius. -/
def diffuse_roi_psf_radius (x : Externals) (p : GCTAPsf) (srcEng : GEnergy)
    (obs : GCTAObservation) : ℚ :=
  obs.roi.radius * x.deg2rad +
    p.delta_max (x.log10TeV srcEng) 0 0 obs.pointing.zenith obs.pointing.azimuth

/-- The integrand that `nroi_diffuse` hands to `GIntegral`. -/
def diffuse_kernel (rsp : GCTAResponseIrf) (model : GModelSky) (srcEng : GEnergy)
    (srcTime : GTime) (obsEng : GEnergy) (obsTime : GTime) (obs : GCTAObservation) : Kernel :=
  .nroi_diffuse_kern_theta ⟨rsp, model.spatial, srcEng, srcTime, obsEng, obsTime, obs,
    ⟨obs.roi.centre.dir.dec_deg - 90, -obs.roi.centre.dir.ra_deg⟩, 9⟩

/-- The value `nroi_diffuse` computes when the cache has no entry for the key. -/
def diffuse_value (x : Externals) (rsp : GCTAResponseIrf) (p : GCTAPsf) (model : GModelSky)
    (srcEng : GEnergy) (srcTime : GTime) (obsEng : GEnergy) (obsTime : GTime)
    (obs : GCTAObservation) : ℚ :=
  if diffuse_roi_psf_radius x p srcEng obs > 0 then
    x.romberg (diffuse_kernel rsp model srcEng srcTime obsEng obsTime obs) 9 0
      (diffuse_roi_psf_radius x p srcEng obs)
  else 0

/-- The calls `nroi_diffuse` makes when the cache has no entry for the key. -/
def diffuse_calls (x : Externals) (rsp : GCTAResponseIrf) (p : GCTAPsf) (model : GModelSky)
    (srcEng : GEnergy) (srcTime : GTime) (obsEng : GEnergy) (obsTime : GTime)
    (obs : GCTAObservation) : List Call :=
  if diffuse_roi_psf_radius x p srcEng obs > 0 then
    [Call.psf_delta_max 0 0 obs.pointing.zenith obs.pointing.azimuth (x.log10TeV srcEng),
     Call.romberg (diffuse_kernel rsp model srcEng srcTime obsEng obsTime obs) 9 0
      (diffuse_roi_psf_radius x p srcEng obs)]
  else
    [Call.psf_delta_max 0 0 obs.pointing.zenith obs.pointing.azimuth (x.log10TeV srcEng)]

/-- A diffuse sky model named "Src". -/
def demo_diffuse : GModelSky := demo_model (.diffuse ⟨fun _ _ _ => 1⟩) false

/-- Effective area at the true photon: the value `mc`, `irf` and `nirf` obtain from
the component `a`. -/
def photon_aeff (x : Externals) (a : GCTAAeff) (photon : GPhoton) (obs : GCTAObservation) : ℚ :=
  a.eval (x.log10TeV photon.energy) (photon_theta x photon obs) 0
    obs.pointing.zenith obs.pointing.azimuth

/-- The generator as `mc` leaves it after the detection and deadtime tests of a
detected event: one variate drawn when `deadc >= 1`, two otherwise. -/
def mc_ran_alive (ran : GRan) (deadc0 : ℚ) : GRan :=
  if deadc0 ≥ 1 then ran.uniform.2 else ran.uniform.2.uniform.2

/-- The PSF sample of `mc`: offset (radians) and generator after the sampling. -/
def mc_psf_sample (x : Externals) (y : Samplers) (p : GCTAPsf) (photon : GPhoton)
    (obs : GCTAObservation) (ran : GRan) : ℚ × GRan :=
  y.psf_mc p (mc_ran_alive ran (obs.deadc photon.time)) (x.log10TeV photon.energy)
    (photon_theta x photon obs) 0 obs.pointing.zenith obs.pointing.azimuth

/-- The measured direction of `mc`: the photon direction rotated by the position angle
`360 * u` and the PSF offset in degrees, as instrument direction of the pointing. -/
def mc_direction (x : Externals) (y : Samplers) (p : GCTAPsf) (photon : GPhoton)
    (obs : GCTAObservation) (ran : GRan) : GCTAInstDir :=
  y.instdir obs.pointing
    (y.rotate_deg photon.dir (360 * (mc_psf_sample x y p photon obs ran).2.uniform.1)
      ((mc_psf_sample x y p photon obs ran).1 * y.rad2deg))

/-- The energy sample of `mc` when energy dispersion is in use. -/
def mc_edisp_sample (x : Externals) (y : Samplers) (p : GCTAPsf) (e : GCTAEdisp)
    (photon : GPhoton) (obs : GCTAObservation) (ran : GRan) : GEnergy × GRan :=
  y.edisp_mc e (mc_psf_sample x y p photon obs ran).2.uniform.2 (x.log10TeV photon.energy)
    (photon_theta x photon obs) 0 obs.pointing.zenith obs.pointing.azimuth

/-- Toy samplers: the PSF sampler draws one variate, the energy sampler draws one
variate and doubles the energy scale with it. -/
def demo_y : Samplers where
  psf_mc := fun _ ran _ _ _ _ _ => ran.uniform
  edisp_mc := fun _ ran _ _ _ _ _ => (⟨1000 * ran.uniform.1⟩, ran.uniform.2)
  rotate_deg := fun d phi theta => ⟨d.ra_deg + phi, d.dec_deg + theta⟩
  instdir := fun _ d => ⟨d⟩
  rad2deg := 50
  str := fun q => if q = 0 then "0" else "number"
  TeV := fun e => e.MeV / 1000000

/-- A generator delivering the constant variate 1/4. -/
def demo_ran : GRan := ⟨fun _ => 1 / 4, 0⟩

/-- Response without an effective area component. -/
def demo_rsp_no_aeff : GCTAResponseIrf :=
  ⟨none, some demo_psf, none, false, [], [], [], []⟩

/-- The azimuth `omega0` of the pointing in the model system, as `irf_radial` computes
it from the three distances. -/
def radial_omega0 (x : Externals) (zeta eta lambda : ℚ) : ℚ :=
  if x.sin lambda * x.sin zeta ≠ 0 then
    x.acos ((x.cos eta - x.cos lambda * x.cos zeta) / (x.sin lambda * x.sin zeta))
  else 0

/-- Lower end `rho_min` of the zenith angle range of `irf_radial`. -/
def radial_rho_min (zeta delta_max : ℚ) : ℚ :=
  if zeta > delta_max then zeta - delta_max else 0

/-- Upper end `rho_max` of the zenith angle range of `irf_radial`. -/
def radial_rho_max (zeta delta_max src_max : ℚ) : ℚ :=
  if zeta + delta_max > src_max then src_max else zeta + delta_max

/-- The boundary list that `irf_radial` hands to the piecewise Romberg integration. -/
def radial_bounds (x : Externals) (m : GModelSpatialRadial) (zeta delta_max : ℚ) : List ℚ :=
  let rho_min := radial_rho_min zeta delta_max
  let rho_max := radial_rho_max zeta delta_max m.theta_max
  let bounds1 : List ℚ :=
    if delta_max - zeta > rho_min ∧ delta_max - zeta < rho_max then
      [rho_min, rho_max] ++ [delta_max - zeta]
    else [rho_min, rho_max]
  match m.shell_radius with
  | some radius =>
    if radius * x.deg2rad > rho_min ∧ radius * x.deg2rad < rho_max then
      bounds1 ++ [radius * x.deg2rad]
    else bounds1
  | none => bounds1

/-- The integrand that `irf_radial` hands to `GIntegral`. -/
def radial_kernel (x : Externals) (rsp : GCTAResponseIrf) (m : GModelSpatialRadial)
    (zenith azimuth : ℚ) (srcEng : GEnergy) (srcTime : GTime) (obsEng : GEnergy)
    (zeta eta lambda delta_max : ℚ) : cta_irf_radial_kern_rho :=
  ⟨rsp, m, zenith, azimuth, srcEng, srcTime, x.log10TeV srcEng, obsEng, zeta, lambda,
    radial_omega0 x zeta eta lambda, delta_max, 5⟩

/-- A character sequence of length at least 2 that starts and ends with `c`. -/
def enclosed_in (c : Char) (v : List Char) : Prop :=
  2 ≤ v.length ∧ v.head? = some c ∧ v.getLast? = some c

instance (c : Char) (v : List Char) : Decidable (enclosed_in c v) :=
  inferInstanceAs (Decidable (2 ≤ v.length ∧ v.head? = some c ∧ v.getLast? = some c))

/-- An attribute with a stored value, to call the setter on. -/
def demo_attr : GXmlAttribute := ⟨['i', 'd'], [dquote, 'x', dquote]⟩

/-- A spectral model with three parameters, two of them of the same name. -/
def demo_spectral : GModelSpectral :=
  ⟨fun _ _ => 5, [⟨"Prefactor", 1⟩, ⟨"Index", -2⟩, ⟨"Index", -3⟩]⟩

/-- The true energy intervals of positive width among those the energy dispersion
component returns for the measured energy. -/
def valid_intervals (x : Externals) (e : GCTAEdisp) (obsEng : GEnergy) :
    List (GEnergy × GEnergy) :=
  (e.ebounds_src (x.log10TeV obsEng)).bins.filter (fun b => decide (b.2.MeV > b.1.MeV))

/-- The Nroi kernel that `nroi` integrates over the true energy. -/
def nroi_kernel (rsp : GCTAResponseIrf) (model : GModelSky) (obsEng : GEnergy)
    (obsTime : GTime) (obs : GCTAObservation) : Kernel :=
  .nroi_kern ⟨model, rsp, obsTime, obsEng, obsTime, obs⟩

/-- The Romberg integral of the Nroi kernel with 6 iterations over the logarithm of
one true energy interval. -/
def interval_integral (x : Externals) (rsp : GCTAResponseIrf) (model : GModelSky)
    (obsEng : GEnergy) (obsTime : GTime) (obs : GCTAObservation) (b : GEnergy × GEnergy) : ℚ :=
  x.romberg (nroi_kernel rsp model obsEng obsTime obs) 6 (x.log b.1.MeV) (x.log b.2.MeV)

/-- The call of the Romberg integration for one true energy interval. -/
def interval_call (x : Externals) (rsp : GCTAResponseIrf) (model : GModelSky)
    (obsEng : GEnergy) (obsTime : GTime) (obs : GCTAObservation) (b : GEnergy × GEnergy) :
    Call :=
  .romberg (nroi_kernel rsp model obsEng obsTime obs) 6 (x.log b.1.MeV) (x.log b.2.MeV)

/-- Sum of the interval integrals over the valid true energy intervals. -/
def claimed_nroi_edisp (x : Externals) (rsp : GCTAResponseIrf) (e : GCTAEdisp)
    (model : GModelSky) (obsEng : GEnergy) (obsTime : GTime) (obs : GCTAObservation) : ℚ :=
  ((valid_intervals x e obsEng).map (interval_integral x rsp model obsEng obsTime obs)).sum

/-- Upper end `rmax` of the radial range of `npsf`: the maximum PSF radius. -/
def npsf_rmax (x : Externals) (p : GCTAPsf) (srcDir : GSkyDir) (srcLogEng : ℚ)
    (pnt : GCTAPointing) : ℚ :=
  p.delta_max srcLogEng (x.dist pnt.dir srcDir) 0 pnt.zenith pnt.azimuth

/-- Lower end `rmin` of the radial range of `npsf` in the words of the statement:
`max(0, distance - ROI radius)`. -/
def claimed_npsf_rmin (x : Externals) (srcDir : GSkyDir) (roi : GCTARoi) : ℚ :=
  max 0 (x.dist roi.centre.dir srcDir - roi.radius * x.deg2rad)

/-- The kernel that `npsf` integrates. -/
def npsf_kernel (x : Externals) (rsp : GCTAResponseIrf) (srcDir : GSkyDir) (srcLogEng : ℚ)
    (pnt : GCTAPointing) (roi : GCTARoi) : Kernel :=
  .npsf_kern_rad_azsym ⟨rsp, roi.radius * x.deg2rad, x.dist roi.centre.dir srcDir, srcLogEng,
    x.dist pnt.dir srcDir, 0, pnt.zenith, pnt.azimuth⟩

/-- Energy dispersion whose true energy intervals are one empty, one valid and one
reversed interval. -/
def demo_edisp_mixed : GCTAEdisp :=
  ⟨fun _ _ _ _ _ _ => 4, fun _ => ⟨[(⟨3⟩, ⟨3⟩), (⟨1⟩, ⟨2⟩), (⟨5⟩, ⟨4⟩)]⟩⟩

/-- Response with a PSF of maximum radius 1/10^13. -/
def demo_rsp_tiny : GCTAResponseIrf :=
  ⟨some demo_aeff, some ⟨fun _ _ _ _ _ _ => 3, fun _ _ _ _ _ => 1 / 10000000000000⟩, none,
    false, [], [], [], []⟩

/-- Observation with a region of interest of radius 0. -/
def demo_obs_point_roi : GCTAObservation :=
  ⟨"CTA", "0001", ⟨⟨0, 0⟩, 0, 0⟩, ⟨⟨⟨0, 0⟩⟩, 0⟩, fun _ => 1 / 2, none, none⟩

/-- The iteration count `iter_phi` of the inner integral that a kernel is constructed
with, for the kernels that have one. -/
def Kernel.inner_iterations : Kernel → List Nat
  | .nroi_kern _ => []
  | .npsf_kern_rad_azsym _ => []
  | .irf_radial_kern_rho k => [k.iter_phi]
  | .irf_elliptical_kern_rho k => [k.iter_phi]
  | .irf_diffuse_kern_theta k => [k.iter_phi]
  | .nroi_radial_kern_rho k => [k.iter_phi]
  | .nroi_elliptical_kern_rho k => [k.iter_phi]
  | .nroi_diffuse_kern_theta k => [k.iter_phi]

/-- The Romberg iteration counts of a call: the fixed number of iterations of the
outer integral, the order of a piecewise integration, and the count the kernel uses
for the inner integral.  Calls that are no Romberg integration have none. -/
def Call.iterations : Call → List Nat
  | .romberg k n _ _ => n :: k.inner_iterations
  | .romberg_bounds k n _ order => n :: order :: k.inner_iterations
  | _ => []

/-- Whether a call is a call of the trapezoidal rule `trapzd(a, b)`. -/
def Call.is_trapzd : Call → Bool
  | .trapzd _ _ _ _ => true
  | _ => false

/-- The interior breakpoints of `irf_radial` in the words of the statement: the
containment transition point delta_max - zeta when 0 < zeta < delta_max and
delta_max - zeta < theta_max, then the shell radius in radians when the model is a
shell and the radius lies strictly between rho_min and rho_max. -/
def claimed_radial_interior (x : Externals) (m : GModelSpatialRadial) (zeta delta_max : ℚ) :
    List ℚ :=
  (if 0 < zeta ∧ zeta < delta_max ∧ delta_max - zeta < m.theta_max then [delta_max - zeta]
    else []) ++
  (match m.shell_radius with
   | some radius =>
     if claimed_rho_min zeta delta_max < radius * x.deg2rad ∧
         radius * x.deg2rad < claimed_rho_max zeta delta_max m.theta_max then
       [radius * x.deg2rad]
     else []
   | none => [])

/-- The interior breakpoints of `irf_elliptical` in the words of the statement: the
boundary semiminor axis when it lies strictly between rho_min and rho_max. -/
def claimed_elliptical_interior (x : Externals) (m : GModelSpatialElliptical)
    (rho_obs delta_max : ℚ) : List ℚ :=
  if claimed_rho_min rho_obs delta_max < (GCTAResponseIrf.boundary_ellipse x m).semiminor ∧
      (GCTAResponseIrf.boundary_ellipse x m).semiminor <
        claimed_rho_max rho_obs delta_max (GCTAResponseIrf.boundary_ellipse x m).semimajor then
    [(GCTAResponseIrf.boundary_ellipse x m).semiminor]
  else []

/-- The integrand that `irf_elliptical` hands to `GIntegral`. -/
def elliptical_kernel (x : Externals) (rsp : GCTAResponseIrf) (m : GModelSpatialElliptical)
    (event : GEvent) (source : GSource) (obs : GCTAObservation) (delta_max : ℚ) :
    cta_irf_elliptical_kern_rho :=
  ⟨rsp, m, (GCTAResponseIrf.boundary_ellipse x m).semimajor, (GCTAResponseIrf.boundary_ellipse x m).semiminor,
    (GCTAResponseIrf.boundary_ellipse x m).posangle, obs.pointing.zenith, obs.pointing.azimuth, source.energy,
    source.time, x.log10TeV source.energy, event.energy, x.dist m.dir event.dir.dir,
    x.posang m.dir event.dir.dir, x.dist m.dir obs.pointing.dir,
    x.posang m.dir obs.pointing.dir - x.posang m.dir event.dir.dir, delta_max, 5⟩

/-- Radial model of maximum radius 1/10^13 centred on the measured direction. -/
def demo_radial_tiny : GModelSpatialRadial := ⟨⟨0, 0⟩, 0, 0, 1 / 10000000000000, none⟩

/-- Shell model of maximum radius 3 and shell radius 25 degrees around the measured
direction. -/
def demo_shell : GModelSpatialRadial := ⟨⟨0, 0⟩, 0, 0, 3, some 25⟩

/-- The integrand that `irf_diffuse` hands to `GIntegral`. -/
def irf_diffuse_kernel (x : Externals) (rsp : GCTAResponseIrf) (event : GEvent)
    (source : GSource) (obs : GCTAObservation) : Kernel :=
  .irf_diffuse_kern_theta ⟨rsp, source.model, x.dist obs.pointing.dir event.dir.dir, 0,
    obs.pointing.zenith, obs.pointing.azimuth, source.energy, source.time,
    x.log10TeV source.energy, event.energy,
    ⟨event.dir.dir.dec_deg - 90, -event.dir.dir.ra_deg⟩,
    x.dist obs.pointing.dir event.dir.dir, 5⟩

/-! ## Evaluation lemmas -/

@[simp] theorem Eval.run_pure {σ α : Type} (a : α) (s : σ) :
    (pure a : Eval σ α) s = ⟨.ok a, s, []⟩ := rfl

@[simp] theorem Eval.run_ret {σ α : Type} (a : α) (s : σ) :
    (Eval.ret a : Eval σ α) s = ⟨.ok a, s, []⟩ := rfl

@[simp] theorem Eval.run_bind {σ α β : Type} (m : Eval σ α) (f : α → Eval σ β) (s : σ) :
    (m >>= f) s = Eval.seq m f s := rfl

@[simp] theorem Eval.run_raise {σ α : Type} (e : GException) (s : σ) :
    (raise e : Eval σ α) s = ⟨.error e, s, []⟩ := rfl

@[simp] theorem Eval.run_trace {σ : Type} (c : Call) (s : σ) :
    (trace c : Eval σ Unit) s = ⟨.ok (), s, [c]⟩ := rfl

@[simp] theorem Eval.run_this {σ : Type} (s : σ) :
    (this : Eval σ σ) s = ⟨.ok s, s, []⟩ := rfl

@[simp] theorem Eval.run_assign {σ : Type} (s t : σ) :
    (assign t : Eval σ Unit) s = ⟨.ok (), t, []⟩ := rfl

@[simp] theorem Eval.run_deadc {σ : Type} (obs : GCTAObservation) (t : GTime) (s : σ) :
    (deadc obs t : Eval σ ℚ) s = ⟨.ok (obs.deadc t), s, [Call.deadc t]⟩ := rfl

namespace GCTAResponseIrf

theorem run_psf_delta_max (rsp : GCTAResponseIrf) (p : GCTAPsf) (hpsf : rsp.m_psf = some p)
    (theta phi zenith azimuth srcLogEng : ℚ) :
    psf_delta_max theta phi zenith azimuth srcLogEng rsp =
      ⟨.ok (p.delta_max srcLogEng theta phi zenith azimuth), rsp,
        [Call.psf_delta_max theta phi zenith azimuth srcLogEng]⟩ := by
  simp [psf_delta_max, Eval.seq, hpsf]

theorem run_aeff (rsp : GCTAResponseIrf) (a : GCTAAeff) (haeff : rsp.m_aeff = some a)
    (theta phi zenith azimuth srcLogEng : ℚ) :
    aeff theta phi zenith azimuth srcLogEng rsp =
      ⟨.ok (a.eval srcLogEng theta phi zenith azimuth), rsp,
        [Call.aeff theta phi zenith azimuth srcLogEng]⟩ := by
  simp [aeff, Eval.seq, haeff]

theorem run_psf (rsp : GCTAResponseIrf) (p : GCTAPsf) (hpsf : rsp.m_psf = some p)
    (delta theta phi zenith azimuth srcLogEng : ℚ) :
    psf delta theta phi zenith azimuth srcLogEng rsp =
      ⟨.ok (p.eval delta srcLogEng theta phi zenith azimuth), rsp,
        [Call.psf delta theta phi zenith azimuth srcLogEng]⟩ := by
  simp [psf, Eval.seq, hpsf]

theorem run_edisp (x : Externals) (rsp : GCTAResponseIrf) (e : GCTAEdisp)
    (hedisp : rsp.m_edisp = some e) (obsEng : GEnergy)
    (theta phi zenith azimuth srcLogEng : ℚ) :
    edisp x obsEng theta phi zenith azimuth srcLogEng rsp =
      ⟨.ok (e.eval (x.log10TeV obsEng) srcLogEng theta phi zenith azimuth /
          (x.ln10 * obsEng.MeV)), rsp,
        [Call.edisp obsEng theta phi zenith azimuth srcLogEng]⟩ := by
  simp [edisp, Eval.seq, hedisp]

/-! ## The per-event response -/

theorem irf_run_pruned (x : Externals) (rsp : GCTAResponseIrf) (event : GEvent)
    (photon : GPhoton) (obs : GCTAObservation) (p : GCTAPsf) (hpsf : rsp.m_psf = some p)
    (hprune : photon_delta x event photon >
      p.delta_max (x.log10TeV photon.energy) (photon_theta x photon obs) 0
        obs.pointing.zenith obs.pointing.azimuth) :
    irf x event photon obs rsp =
      ⟨.ok 0, rsp, [Call.psf_delta_max (photon_theta x photon obs) 0
        obs.pointing.zenith obs.pointing.azimuth (x.log10TeV photon.energy)]⟩ := by
  unfold photon_delta photon_theta at *
  simp [irf, Eval.seq, run_psf_delta_max rsp p hpsf, not_le.2 hprune]

theorem irf_run_value (x : Externals) (rsp : GCTAResponseIrf) (event : GEvent)
    (photon : GPhoton) (obs : GCTAObservation) (a : GCTAAeff) (p : GCTAPsf)
    (haeff : rsp.m_aeff = some a) (hpsf : rsp.m_psf = some p)
    (hdelta : photon_delta x event photon ≤
      p.delta_max (x.log10TeV photon.energy) (photon_theta x photon obs) 0
        obs.pointing.zenith obs.pointing.azimuth)
    (hpos : 0 < a.eval (x.log10TeV photon.energy) (photon_theta x photon obs) 0
        obs.pointing.zenith obs.pointing.azimuth) :
    (irf x event photon obs rsp).result =
      .ok (a.eval (x.log10TeV photon.energy) (photon_theta x photon obs) 0
            obs.pointing.zenith obs.pointing.azimuth *
          p.eval (photon_delta x event photon) (x.log10TeV photon.energy)
            (photon_theta x photon obs) 0 obs.pointing.zenith obs.pointing.azimuth *
          claimed_edisp_factor x rsp event photon obs
            (a.eval (x.log10TeV photon.energy) (photon_theta x photon obs) 0
              obs.pointing.zenith obs.pointing.azimuth *
            p.eval (photon_delta x event photon) (x.log10TeV photon.energy)
              (photon_theta x photon obs) 0 obs.pointing.zenith obs.pointing.azimuth) *
          obs.deadc photon.time) := by
  unfold claimed_edisp_factor
  unfold photon_delta photon_theta at *
  cases hu : rsp.use_edisp with
  | false =>
    simp [irf, Eval.seq, run_psf_delta_max rsp p hpsf, run_aeff rsp a haeff,
      run_psf rsp p hpsf, hdelta, hpos, hu]
  | true =>
    have hsome : ∃ e, rsp.m_edisp = some e := by
      cases he : rsp.m_edisp with
      | none => simp [use_edisp, he] at hu
      | some e => exact ⟨e, rfl⟩
    obtain ⟨e, he⟩ := hsome
    by_cases hpv : 0 < p.eval (x.dist event.dir.dir photon.dir) (x.log10TeV photon.energy)
        (x.dist obs.pointing.dir photon.dir) 0 obs.pointing.zenith obs.pointing.azimuth
    · simp [irf, Eval.seq, run_psf_delta_max rsp p hpsf, run_aeff rsp a haeff,
        run_psf rsp p hpsf, run_edisp x rsp e he, hdelta, hpos, hu, hpv, he]
    · simp [irf, Eval.seq, run_psf_delta_max rsp p hpsf, run_aeff rsp a haeff,
        run_psf rsp p hpsf, hdelta, hpos, hu, hpv]

theorem irf_run_nonpositive (x : Externals) (rsp : GCTAResponseIrf) (event : GEvent)
    (photon : GPhoton) (obs : GCTAObservation) (a : GCTAAeff) (p : GCTAPsf)
    (haeff : rsp.m_aeff = some a) (hpsf : rsp.m_psf = some p)
    (hdelta : photon_delta x event photon ≤
      p.delta_max (x.log10TeV photon.energy) (photon_theta x photon obs) 0
        obs.pointing.zenith obs.pointing.azimuth)
    (hpos : ¬ 0 < a.eval (x.log10TeV photon.energy) (photon_theta x photon obs) 0
        obs.pointing.zenith obs.pointing.azimuth) :
    (irf x event photon obs rsp).result =
      .ok (a.eval (x.log10TeV photon.energy) (photon_theta x photon obs) 0
            obs.pointing.zenith obs.pointing.azimuth) := by
  unfold photon_delta photon_theta at *
  simp [irf, Eval.seq, run_psf_delta_max rsp p hpsf, run_aeff rsp a haeff, hdelta, hpos]

/-- C1: when the separation delta between measured and true direction exceeds
delta_max = psf_delta_max(theta, 0, zenith, azimuth, log10 E_true), `irf` returns
exactly 0, and the only call it makes is the one to psf_delta_max: neither aeff, psf,
edisp nor the deadtime correction is evaluated. -/
theorem irf_pruned (x : Externals) (rsp : GCTAResponseIrf) (event : GEvent) (photon : GPhoton)
    (obs : GCTAObservation) (p : GCTAPsf) (hpsf : rsp.m_psf = some p)
    (hprune : photon_delta x event photon >
      p.delta_max (x.log10TeV photon.energy) (photon_theta x photon obs) 0
        obs.pointing.zenith obs.pointing.azimuth) :
    irf x event photon obs rsp =
      ⟨.ok 0, rsp, [Call.psf_delta_max (photon_theta x photon obs) 0
        obs.pointing.zenith obs.pointing.azimuth (x.log10TeV photon.energy)]⟩ := by
  unfold photon_delta photon_theta at *
  have hnot : ¬ x.dist event.dir.dir photon.dir ≤
      p.delta_max (x.log10TeV photon.energy) (x.dist obs.pointing.dir photon.dir) 0
        obs.pointing.zenith obs.pointing.azimuth := not_le.2 hprune
  simp only [irf, Eval.run_bind, Eval.seq, run_psf_delta_max rsp p hpsf, hnot, if_false,
    Eval.run_pure, List.append_nil]

theorem irf_pruned_witness :
    irf demo_x demo_event demo_photon_far demo_obs demo_rsp =
      ⟨.ok 0, demo_rsp, [Call.psf_delta_max 4 0 0 0 (1 / 1000)]⟩ := by
  have h := irf_pruned demo_x demo_rsp demo_event demo_photon_far demo_obs demo_psf rfl
    (by norm_num [photon_delta, photon_theta, demo_x, demo_event, demo_photon_far, demo_psf])
  norm_num [photon_theta, demo_x, demo_photon_far, demo_obs] at h
  exact h

/-- C2: for delta <= delta_max, an effective area a > 0 and a positive measured energy,
`irf` returns a * psf * D * deadc(t_true), where D is the energy dispersion value (table
value divided by ln10 times the measured energy in MeV) when energy dispersion is in
use and a * psf > 0, and D = 1 otherwise. -/
theorem irf_value (x : Externals) (rsp : GCTAResponseIrf) (event : GEvent) (photon : GPhoton)
    (obs : GCTAObservation) (a : GCTAAeff) (p : GCTAPsf)
    (haeff : rsp.m_aeff = some a) (hpsf : rsp.m_psf = some p)
    (hdelta : photon_delta x event photon ≤
      p.delta_max (x.log10TeV photon.energy) (photon_theta x photon obs) 0
        obs.pointing.zenith obs.pointing.azimuth)
    (hpos : 0 < a.eval (x.log10TeV photon.energy) (photon_theta x photon obs) 0
        obs.pointing.zenith obs.pointing.azimuth)
    (_hln10 : 0 < x.ln10) (_hE : 0 < event.energy.MeV) :
    (irf x event photon obs rsp).result =
      .ok (a.eval (x.log10TeV photon.energy) (photon_theta x photon obs) 0
            obs.pointing.zenith obs.pointing.azimuth *
          p.eval (photon_delta x event photon) (x.log10TeV photon.energy)
            (photon_theta x photon obs) 0 obs.pointing.zenith obs.pointing.azimuth *
          claimed_edisp_factor x rsp event photon obs
            (a.eval (x.log10TeV photon.energy) (photon_theta x photon obs) 0
              obs.pointing.zenith obs.pointing.azimuth *
            p.eval (photon_delta x event photon) (x.log10TeV photon.energy)
              (photon_theta x photon obs) 0 obs.pointing.zenith obs.pointing.azimuth) *
          obs.deadc photon.time) := by
  unfold claimed_edisp_factor
  unfold photon_delta photon_theta at *
  cases hu : rsp.use_edisp with
  | false =>
    simp [irf, Eval.seq, run_psf_delta_max rsp p hpsf, run_aeff rsp a haeff,
      run_psf rsp p hpsf, hdelta, hpos, hu]
  | true =>
    have hsome : ∃ e, rsp.m_edisp = some e := by
      cases he : rsp.m_edisp with
      | none => simp [use_edisp, he] at hu
      | some e => exact ⟨e, rfl⟩
    obtain ⟨e, he⟩ := hsome
    by_cases hpv : 0 < p.eval (x.dist event.dir.dir photon.dir) (x.log10TeV photon.energy)
        (x.dist obs.pointing.dir photon.dir) 0 obs.pointing.zenith obs.pointing.azimuth
    · simp [irf, Eval.seq, run_psf_delta_max rsp p hpsf, run_aeff rsp a haeff,
        run_psf rsp p hpsf, run_edisp x rsp e he, hdelta, hpos, hu, hpv, he]
    · simp [irf, Eval.seq, run_psf_delta_max rsp p hpsf, run_aeff rsp a haeff,
        run_psf rsp p hpsf, hdelta, hpos, hu, hpv]

theorem irf_value_witness :
    (irf demo_x demo_event demo_photon_near demo_obs demo_rsp).result =
      .ok (2 * 3 * (4 / (2 * 1000)) * (1 / 2)) := by
  have h := irf_value demo_x demo_rsp demo_event demo_photon_near demo_obs demo_aeff demo_psf
    rfl rfl
    (by norm_num [photon_delta, photon_theta, demo_x, demo_event, demo_photon_near, demo_psf])
    (by norm_num [demo_aeff]) (by norm_num [demo_x]) (by norm_num [demo_event])
  simpa [claimed_edisp_factor, use_edisp, demo_rsp, demo_aeff, demo_psf, demo_edisp,
    demo_obs, demo_event] using h

/-- C3: if the effective area, PSF and energy dispersion components return
non-negative values, the measured energy is positive and the deadtime correction lies
in [0,1], then `irf` returns a value, and that value is non-negative (whether the
photon is pruned, the effective area is zero, or energy dispersion is used or not). -/
theorem irf_nonneg (x : Externals) (rsp : GCTAResponseIrf) (event : GEvent) (photon : GPhoton)
    (obs : GCTAObservation) (a : GCTAAeff) (p : GCTAPsf)
    (haeff : rsp.m_aeff = some a) (hpsf : rsp.m_psf = some p)
    (ha : ∀ logE theta phi zenith azimuth, 0 ≤ a.eval logE theta phi zenith azimuth)
    (hp : ∀ delta logE theta phi zenith azimuth, 0 ≤ p.eval delta logE theta phi zenith azimuth)
    (he : ∀ e, rsp.m_edisp = some e →
      ∀ obsLogE logE theta phi zenith azimuth, 0 ≤ e.eval obsLogE logE theta phi zenith azimuth)
    (hln10 : 0 < x.ln10) (hE : 0 < event.energy.MeV)
    (hd0 : 0 ≤ obs.deadc photon.time) (_hd1 : obs.deadc photon.time ≤ 1) :
    ∃ v, (irf x event photon obs rsp).result = .ok v ∧ 0 ≤ v := by
  by_cases hdelta : photon_delta x event photon ≤
      p.delta_max (x.log10TeV photon.energy) (photon_theta x photon obs) 0
        obs.pointing.zenith obs.pointing.azimuth
  · by_cases hpos : 0 < a.eval (x.log10TeV photon.energy) (photon_theta x photon obs) 0
        obs.pointing.zenith obs.pointing.azimuth
    · refine ⟨_, irf_run_value x rsp event photon obs a p haeff hpsf hdelta hpos, ?_⟩
      have hap := mul_nonneg (le_of_lt hpos)
        (hp (photon_delta x event photon) (x.log10TeV photon.energy)
          (photon_theta x photon obs) 0 obs.pointing.zenith obs.pointing.azimuth)
      refine mul_nonneg (mul_nonneg hap ?_) hd0
      unfold claimed_edisp_factor
      split_ifs with hu
      · cases hm : rsp.m_edisp with
        | none => simp
        | some e =>
          simp only
          exact div_nonneg (he e hm _ _ _ _ _ _) (le_of_lt (mul_pos hln10 hE))
      · exact zero_le_one
    · exact ⟨_, irf_run_nonpositive x rsp event photon obs a p haeff hpsf hdelta hpos,
        ha _ _ _ _ _⟩
  · refine ⟨0, ?_, le_refl 0⟩
    rw [irf_run_pruned x rsp event photon obs p hpsf (not_le.1 hdelta)]

theorem irf_nonneg_witness :
    ∃ v, (irf demo_x demo_event demo_photon_near demo_obs demo_rsp).result = .ok v ∧ 0 ≤ v :=
  irf_nonneg demo_x demo_rsp demo_event demo_photon_near demo_obs demo_aeff demo_psf rfl rfl
    (by intros; norm_num [demo_aeff]) (by intros; norm_num [demo_psf])
    (by
      intro e h
      have h2 : demo_edisp = e := by simpa [demo_rsp] using h
      subst h2
      intros
      norm_num [demo_edisp])
    (by norm_num [demo_x]) (by norm_num [demo_event])
    (by norm_num [demo_obs]) (by norm_num [demo_obs])

/-! ## Dispatch on the spatial model -/

/-- C4: a source with the point source code is handed to the per-event `irf` with the
photon (model direction, source energy, source time); the radial, elliptical and
diffuse codes are dispatched to `irf_radial`, `irf_elliptical` and `irf_diffuse`; the
spatial `nroi` dispatches in the same way to `nroi_ptsrc` (which is `nirf` of that
photon), `nroi_radial`, `nroi_elliptical` and `nroi_diffuse`. -/
theorem dispatch_by_code (x : Externals) (event : GEvent) (source : GSource)
    (model : GModelSky) (srcEng obsEng : GEnergy) (srcTime obsTime : GTime)
    (obs : GCTAObservation) :
    (source.model.code = .point_source →
      ∃ src, source.model = .point_source src ∧
        irf_source x event source obs = irf x event ⟨src.dir, source.energy, source.time⟩ obs) ∧
    (source.model.code = .radial → irf_source x event source obs = irf_radial x event source obs) ∧
    (source.model.code = .elliptical →
      irf_source x event source obs = irf_elliptical x event source obs) ∧
    (source.model.code = .diffuse →
      irf_source x event source obs = irf_diffuse x event source obs) ∧
    (model.spatial.code = .point_source →
      nroi_spatial x model srcEng srcTime obsEng obsTime obs =
        nroi_ptsrc x model srcEng srcTime obsEng obsTime obs ∧
      ∃ src, model.spatial = .point_source src ∧
        nroi_ptsrc x model srcEng srcTime obsEng obsTime obs =
          nirf x ⟨src.dir, srcEng, srcTime⟩ obsEng obsTime obs) ∧
    (model.spatial.code = .radial →
      nroi_spatial x model srcEng srcTime obsEng obsTime obs =
        nroi_radial x model srcEng srcTime obsEng obsTime obs) ∧
    (model.spatial.code = .elliptical →
      nroi_spatial x model srcEng srcTime obsEng obsTime obs =
        nroi_elliptical x model srcEng srcTime obsEng obsTime obs) ∧
    (model.spatial.code = .diffuse →
      nroi_spatial x model srcEng srcTime obsEng obsTime obs =
        nroi_diffuse x model srcEng srcTime obsEng obsTime obs) := by
  refine ⟨?_, ?_, ?_, ?_, ?_, ?_, ?_, ?_⟩
  · intro h
    cases hm : source.model with
    | point_source src =>
      refine ⟨src, rfl, ?_⟩
      simp [irf_source, irf_ptsrc, hm, GModelSpatial.code]
    | radial m => simp [hm, GModelSpatial.code] at h
    | elliptical m => simp [hm, GModelSpatial.code] at h
    | diffuse m => simp [hm, GModelSpatial.code] at h
    | other => simp [hm, GModelSpatial.code] at h
  · intro h
    simp [irf_source, h]
  · intro h
    simp [irf_source, h]
  · intro h
    simp [irf_source, h]
  · intro h
    refine ⟨by simp [nroi_spatial, h], ?_⟩
    cases hm : model.spatial with
    | point_source src =>
      refine ⟨src, rfl, ?_⟩
      simp [nroi_ptsrc, hm]
    | radial m => simp [hm, GModelSpatial.code] at h
    | elliptical m => simp [hm, GModelSpatial.code] at h
    | diffuse m => simp [hm, GModelSpatial.code] at h
    | other => simp [hm, GModelSpatial.code] at h
  · intro h
    simp [nroi_spatial, h]
  · intro h
    simp [nroi_spatial, h]
  · intro h
    simp [nroi_spatial, h]

theorem dispatch_by_code_witness :
    irf_source demo_x demo_event demo_source_point demo_obs =
      irf demo_x demo_event ⟨⟨0, 0⟩, ⟨1000⟩, ⟨0⟩⟩ demo_obs := by
  obtain ⟨src, h1, h2⟩ := (dispatch_by_code demo_x demo_event demo_source_point
    (demo_model (.point_source ⟨⟨0, 0⟩⟩) false) ⟨1000⟩ ⟨1000⟩ ⟨0⟩ ⟨0⟩ demo_obs).1 rfl
  have h3 : src = ⟨⟨0, 0⟩⟩ := by
    simp only [demo_source_point, GModelSpatial.point_source.injEq] at h1
    exact h1.symm
  subst h3
  exact h2

/-! ## Zenith angle range of the radial and elliptical integration -/

theorem rho_min_eq (zeta delta_max : ℚ) :
    (if zeta > delta_max then zeta - delta_max else 0) = claimed_rho_min zeta delta_max := by
  unfold claimed_rho_min
  split_ifs with h
  · exact (max_eq_right (le_of_lt (sub_pos.2 h))).symm
  · exact (max_eq_left (sub_nonpos.2 (not_lt.1 h))).symm

theorem rho_max_eq (zeta delta_max theta_max : ℚ) :
    (if zeta + delta_max > theta_max then theta_max else zeta + delta_max) =
      claimed_rho_max zeta delta_max theta_max := by
  unfold claimed_rho_max
  split_ifs with h
  · exact (min_eq_right (le_of_lt h)).symm
  · exact (min_eq_left (not_lt.1 h)).symm

/-- C5: in `irf_radial`, with zeta the distance between model centre and measured
direction, the zenith angle range is rho_min = max(0, zeta - delta_max),
rho_max = min(zeta + delta_max, theta_max).  If rho_max <= rho_min the method returns
exactly 0 and its only call is the one to psf_delta_max (no quadrature); otherwise the
single quadrature call receives a boundary list that starts with rho_min, rho_max.
`irf_elliptical` does the same with rho_obs and the semimajor axis of the boundary
ellipse, which is theta_max of the model. -/
theorem irf_extended_rho_range (x : Externals) (rsp : GCTAResponseIrf) (event : GEvent)
    (obs : GCTAObservation) (p : GCTAPsf) (hpsf : rsp.m_psf = some p)
    (source : GSource) (model : GModelSpatialRadial) (hr : source.model = .radial model)
    (esource : GSource) (emodel : GModelSpatialElliptical)
    (he : esource.model = .elliptical emodel) :
    ((claimed_rho_max (x.dist model.dir event.dir.dir)
          (measured_delta_max x p source.energy event obs) model.theta_max ≤
        claimed_rho_min (x.dist model.dir event.dir.dir)
          (measured_delta_max x p source.energy event obs) →
      irf_radial x event source obs rsp =
        ⟨.ok 0, rsp, [measured_delta_max_call x source.energy event obs]⟩) ∧
     (claimed_rho_min (x.dist model.dir event.dir.dir)
          (measured_delta_max x p source.energy event obs) <
        claimed_rho_max (x.dist model.dir event.dir.dir)
          (measured_delta_max x p source.energy event obs) model.theta_max →
      ∃ k extra, (irf_radial x event source obs rsp).calls =
        [measured_delta_max_call x source.energy event obs,
         Call.romberg_bounds k 5
          (claimed_rho_min (x.dist model.dir event.dir.dir)
              (measured_delta_max x p source.energy event obs) ::
            claimed_rho_max (x.dist model.dir event.dir.dir)
              (measured_delta_max x p source.energy event obs) model.theta_max :: extra) 5,
         Call.deadc source.time])) ∧
    ((boundary_ellipse x emodel).semimajor = emodel.theta_max) ∧
    ((claimed_rho_max (x.dist emodel.dir event.dir.dir)
          (measured_delta_max x p esource.energy event obs)
          (boundary_ellipse x emodel).semimajor ≤
        claimed_rho_min (x.dist emodel.dir event.dir.dir)
          (measured_delta_max x p esource.energy event obs) →
      irf_elliptical x event esource obs rsp =
        ⟨.ok 0, rsp, [measured_delta_max_call x esource.energy event obs]⟩) ∧
     (claimed_rho_min (x.dist emodel.dir event.dir.dir)
          (measured_delta_max x p esource.energy event obs) <
        claimed_rho_max (x.dist emodel.dir event.dir.dir)
          (measured_delta_max x p esource.energy event obs)
          (boundary_ellipse x emodel).semimajor →
      ∃ k extra, (irf_elliptical x event esource obs rsp).calls =
        [measured_delta_max_call x esource.energy event obs,
         Call.romberg_bounds k 5
          (claimed_rho_min (x.dist emodel.dir event.dir.dir)
              (measured_delta_max x p esource.energy event obs) ::
            claimed_rho_max (x.dist emodel.dir event.dir.dir)
              (measured_delta_max x p esource.energy event obs)
              (boundary_ellipse x emodel).semimajor :: extra) 5,
         Call.deadc esource.time])) := by
  unfold measured_delta_max measured_delta_max_call
  refine ⟨⟨?_, ?_⟩, rfl, ⟨?_, ?_⟩⟩
  · intro h
    rw [← rho_min_eq, ← rho_max_eq] at h
    simp [irf_radial, hr, Eval.seq, run_psf_delta_max rsp p hpsf, not_lt.2 h]
  · intro h
    rw [← rho_min_eq, ← rho_max_eq] at h ⊢
    cases hs : model.shell_radius with
    | none =>
      simp only [irf_radial, hr, hs, Eval.run_bind, Eval.seq, run_psf_delta_max rsp p hpsf, h,
        GIntegral.romberg_bounds, if_true, Eval.run_this, Eval.run_trace, Eval.run_pure,
        Eval.run_deadc, List.append_nil, List.nil_append, List.cons_append, gt_iff_lt]
      split_ifs <;> exact ⟨_, _, rfl⟩
    | some r =>
      simp only [irf_radial, hr, hs, Eval.run_bind, Eval.seq, run_psf_delta_max rsp p hpsf, h,
        GIntegral.romberg_bounds, if_true, Eval.run_this, Eval.run_trace, Eval.run_pure,
        Eval.run_deadc, List.append_nil, List.nil_append, List.cons_append, gt_iff_lt]
      split_ifs <;> exact ⟨_, _, rfl⟩
  · intro h
    rw [← rho_min_eq, ← rho_max_eq] at h
    simp [irf_elliptical, he, Eval.seq, run_psf_delta_max rsp p hpsf, not_lt.2 h]
  · intro h
    rw [← rho_min_eq, ← rho_max_eq] at h ⊢
    simp only [irf_elliptical, he, Eval.run_bind, Eval.seq, run_psf_delta_max rsp p hpsf, h,
        GIntegral.romberg_bounds, if_true, Eval.run_this, Eval.run_trace, Eval.run_pure,
        Eval.run_deadc, List.append_nil, List.nil_append, List.cons_append, gt_iff_lt]
    split_ifs <;> exact ⟨_, _, rfl⟩

theorem irf_extended_rho_range_witness :
    irf_radial demo_x demo_event (demo_source (.radial demo_radial_far)) demo_obs demo_rsp =
        ⟨.ok 0, demo_rsp, [Call.psf_delta_max 0 0 0 0 (1 / 1000)]⟩ ∧
    irf_elliptical demo_x demo_event (demo_source (.elliptical demo_elliptical_far)) demo_obs
        demo_rsp = ⟨.ok 0, demo_rsp, [Call.psf_delta_max 0 0 0 0 (1 / 1000)]⟩ := by
  have h := irf_extended_rho_range demo_x demo_rsp demo_event demo_obs demo_psf rfl
    (demo_source (.radial demo_radial_far)) demo_radial_far rfl
    (demo_source (.elliptical demo_elliptical_far)) demo_elliptical_far rfl
  constructor
  · have h1 := h.1.1 (by
      norm_num [claimed_rho_max, claimed_rho_min, measured_delta_max, demo_x, demo_event,
        demo_radial_far, demo_psf, demo_obs, demo_source])
    have hc : measured_delta_max_call demo_x (demo_source (.radial demo_radial_far)).energy
        demo_event demo_obs = Call.psf_delta_max 0 0 0 0 (1 / 1000) := by
      norm_num [measured_delta_max_call, demo_x, demo_obs, demo_event, demo_source]
    rw [hc] at h1
    exact h1
  · have h2 := h.2.2.1 (by
      norm_num [claimed_rho_max, claimed_rho_min, measured_delta_max, demo_x, demo_event,
        demo_elliptical_far, demo_psf, demo_obs, demo_source, boundary_ellipse])
    have hc : measured_delta_max_call demo_x
        (demo_source (.elliptical demo_elliptical_far)).energy
        demo_event demo_obs = Call.psf_delta_max 0 0 0 0 (1 / 1000) := by
      norm_num [measured_delta_max_call, demo_x, demo_obs, demo_event, demo_source]
    rw [hc] at h2
    exact h2

/-! ## The boundary ellipse -/

theorem boundary_ellipse_aspect_ratio_le_one (x : Externals) (model : GModelSpatialElliptical)
    (ha : 0 ≤ model.semimajor) (hb : 0 ≤ model.semiminor) :
    0 ≤ (boundary_ellipse x model).aspect_ratio ∧ (boundary_ellipse x model).aspect_ratio ≤ 1 := by
  unfold boundary_ellipse
  simp only
  split_ifs with h1 h2 h3
  · exact ⟨div_nonneg hb ha, (div_le_one h2).2 h1⟩
  · exact ⟨le_refl 0, zero_le_one⟩
  · exact ⟨div_nonneg ha hb, (div_le_one h3).2 (le_of_lt (not_le.1 h1))⟩
  · exact ⟨le_refl 0, zero_le_one⟩

theorem irf_elliptical_kernel (x : Externals) (rsp : GCTAResponseIrf) (event : GEvent)
    (source : GSource) (obs : GCTAObservation) (model : GModelSpatialElliptical)
    (hm : source.model = .elliptical model) (c : Call)
    (hc : c ∈ (irf_elliptical x event source obs rsp).calls)
    (k : Kernel) (n : Nat) (bounds : List ℚ) (order : Nat)
    (hk : c = Call.romberg_bounds k n bounds order) :
    ∃ ke, k = .irf_elliptical_kern_rho ke ∧
      ke.semimajor = (boundary_ellipse x model).semimajor ∧
      ke.semiminor = (boundary_ellipse x model).semiminor ∧
      ke.posangle = (boundary_ellipse x model).posangle := by
  subst hk
  cases hp : rsp.m_psf with
  | none =>
    simp [irf_elliptical, hm, Eval.seq, psf_delta_max, hp] at hc
  | some p =>
    simp only [irf_elliptical, hm, Eval.run_bind, Eval.seq, run_psf_delta_max rsp p hp,
      GIntegral.romberg_bounds, Eval.run_this, Eval.run_trace, Eval.run_pure,
      Eval.run_deadc, List.append_nil, List.nil_append, List.cons_append] at hc
    split_ifs at hc <;> simp [Eval.seq, GIntegral.romberg_bounds] at hc <;>
      exact ⟨_, hc.1, rfl, rfl, rfl⟩

theorem nroi_elliptical_kernel (x : Externals) (rsp : GCTAResponseIrf) (sky : GModelSky)
    (srcEng obsEng : GEnergy) (srcTime obsTime : GTime) (obs : GCTAObservation)
    (model : GModelSpatialElliptical) (hm : sky.spatial = .elliptical model) (c : Call)
    (hc : c ∈ (nroi_elliptical x sky srcEng srcTime obsEng obsTime obs rsp).calls)
    (k : Kernel) (n : Nat) (bounds : List ℚ) (order : Nat)
    (hk : c = Call.romberg_bounds k n bounds order) :
    ∃ ke, k = .nroi_elliptical_kern_rho ke ∧
      ke.semimajor = (boundary_ellipse x model).semimajor ∧
      ke.semiminor = (boundary_ellipse x model).semiminor ∧
      ke.posangle = (boundary_ellipse x model).posangle := by
  subst hk
  cases hp : rsp.m_psf with
  | none =>
    simp [nroi_elliptical, hm, Eval.seq, psf_delta_max, hp] at hc
  | some p =>
    simp only [nroi_elliptical, hm, Eval.run_bind, Eval.seq, run_psf_delta_max rsp p hp,
      GIntegral.romberg_bounds, Eval.run_this, Eval.run_trace, Eval.run_pure,
      Eval.run_deadc, List.append_nil, List.nil_append, List.cons_append] at hc
    split_ifs at hc <;> simp [Eval.seq, GIntegral.romberg_bounds] at hc <;>
      exact ⟨_, hc.1, rfl, rfl, rfl⟩

/-- C6: for an elliptical model with semimajor >= 0, semiminor >= 0 and
theta_max >= 0, the block computing the boundary ellipse in `irf_elliptical` and
`nroi_elliptical` yields an aspect ratio equal to (smaller axis)/(larger axis), which
lies in [0,1] and is 0 when the larger axis is 0; the position angle is the model
position angle (in radians) plus pi/2 when the declared semiminor axis exceeds the
semimajor axis and is unchanged otherwise; the boundary ellipse has
semiminor = theta_max * aspect_ratio <= semimajor = theta_max; and every quadrature
kernel built by the two methods carries exactly these boundary values. -/
theorem boundary_ellipse_canonical (x : Externals) (model : GModelSpatialElliptical)
    (ha : 0 ≤ model.semimajor) (hb : 0 ≤ model.semiminor) (ht : 0 ≤ model.theta_max) :
    (0 < max model.semimajor model.semiminor →
      (boundary_ellipse x model).aspect_ratio =
        min model.semimajor model.semiminor / max model.semimajor model.semiminor) ∧
    (max model.semimajor model.semiminor = 0 → (boundary_ellipse x model).aspect_ratio = 0) ∧
    0 ≤ (boundary_ellipse x model).aspect_ratio ∧
    (boundary_ellipse x model).aspect_ratio ≤ 1 ∧
    (model.semiminor > model.semimajor →
      (boundary_ellipse x model).posangle = model.posangle * x.deg2rad + x.pihalf) ∧
    (¬ model.semiminor > model.semimajor →
      (boundary_ellipse x model).posangle = model.posangle * x.deg2rad) ∧
    (boundary_ellipse x model).semimajor = model.theta_max ∧
    (boundary_ellipse x model).semiminor =
      model.theta_max * (boundary_ellipse x model).aspect_ratio ∧
    (boundary_ellipse x model).semiminor ≤ (boundary_ellipse x model).semimajor ∧
    (∀ rsp event source obs k n bounds order, source.model = .elliptical model →
      Call.romberg_bounds k n bounds order ∈ (irf_elliptical x event source obs rsp).calls →
      ∃ ke, k = .irf_elliptical_kern_rho ke ∧
        ke.semimajor = (boundary_ellipse x model).semimajor ∧
        ke.semiminor = (boundary_ellipse x model).semiminor ∧
        ke.posangle = (boundary_ellipse x model).posangle) ∧
    (∀ rsp sky srcEng srcTime obsEng obsTime obs k n bounds order,
      sky.spatial = .elliptical model →
      Call.romberg_bounds k n bounds order ∈
        (nroi_elliptical x sky srcEng srcTime obsEng obsTime obs rsp).calls →
      ∃ ke, k = .nroi_elliptical_kern_rho ke ∧
        ke.semimajor = (boundary_ellipse x model).semimajor ∧
        ke.semiminor = (boundary_ellipse x model).semiminor ∧
        ke.posangle = (boundary_ellipse x model).posangle) := by
  have hr := boundary_ellipse_aspect_ratio_le_one x model ha hb
  refine ⟨?_, ?_, hr.1, hr.2, ?_, ?_, rfl, rfl, ?_, ?_, ?_⟩
  · intro hmax
    unfold boundary_ellipse
    simp only
    by_cases h1 : model.semimajor ≥ model.semiminor
    · have h2 : 0 < model.semimajor := by rwa [max_eq_left h1] at hmax
      rw [if_pos h1, if_pos h2, max_eq_left h1, min_eq_right h1]
    · have h1' : model.semimajor ≤ model.semiminor := le_of_lt (not_le.1 h1)
      have h2 : 0 < model.semiminor := by rwa [max_eq_right h1'] at hmax
      rw [if_neg h1, if_pos h2, max_eq_right h1', min_eq_left h1']
  · intro hmax
    unfold boundary_ellipse
    simp only
    by_cases h1 : model.semimajor ≥ model.semiminor
    · have h2 : ¬ model.semimajor > 0 := by
        rw [max_eq_left h1] at hmax
        simp [hmax]
      rw [if_pos h1, if_neg h2]
    · have h1' : model.semimajor ≤ model.semiminor := le_of_lt (not_le.1 h1)
      have h2 : ¬ model.semiminor > 0 := by
        rw [max_eq_right h1'] at hmax
        simp [hmax]
      rw [if_neg h1, if_neg h2]
  · intro h
    unfold boundary_ellipse
    simp only
    rw [if_neg (not_le.2 h)]
  · intro h
    unfold boundary_ellipse
    simp only
    rw [if_pos (not_lt.1 h)]
  · show model.theta_max * (boundary_ellipse x model).aspect_ratio ≤ model.theta_max
    exact mul_le_of_le_one_right ht hr.2
  · intro rsp event source obs k n bounds order hm hc
    exact irf_elliptical_kernel x rsp event source obs model hm _ hc k n bounds order rfl
  · intro rsp sky srcEng srcTime obsEng obsTime obs k n bounds order hm hc
    exact nroi_elliptical_kernel x rsp sky srcEng obsEng srcTime obsTime obs model hm _ hc
      k n bounds order rfl

theorem boundary_ellipse_canonical_witness :
    (boundary_ellipse demo_x demo_elliptical).aspect_ratio = 1 / 2 ∧
    (boundary_ellipse demo_x demo_elliptical).posangle = 30 * (1 / 50) + 3 / 2 ∧
    (boundary_ellipse demo_x demo_elliptical).semiminor ≤
      (boundary_ellipse demo_x demo_elliptical).semimajor := by
  have h := boundary_ellipse_canonical demo_x demo_elliptical
    (by norm_num [demo_elliptical]) (by norm_num [demo_elliptical])
    (by norm_num [demo_elliptical])
  refine ⟨?_, ?_, h.2.2.2.2.2.2.2.2.1⟩
  · have h1 := h.1 (by norm_num [demo_elliptical])
    rw [h1]
    norm_num [demo_elliptical]
  · have h2 := h.2.2.2.2.1 (by norm_num [demo_elliptical])
    rw [h2]
    norm_num [demo_elliptical, demo_x]

/-! ## PSF integral over the region of interest -/

/-- C7: `npsf` returns exactly 1, its only call being the one to psf_delta_max (no
numerical integration), whenever dist(ROI centre, source direction) + delta_max is at
most the ROI radius converted to radians, in particular for an ROI radius of 10
degrees, distance 0 and delta_max of 2 degrees; and it returns exactly 0, again without
integration, when the PSF is not enclosed and delta_max <= max(0, distance - radius). -/
theorem npsf_short_circuit (x : Externals) (rsp : GCTAResponseIrf) (p : GCTAPsf)
    (hpsf : rsp.m_psf = some p) (srcDir : GSkyDir) (srcLogEng : ℚ) (srcTime : GTime)
    (pnt : GCTAPointing) (roi : GCTARoi) :
    (x.dist roi.centre.dir srcDir +
        p.delta_max srcLogEng (x.dist pnt.dir srcDir) 0 pnt.zenith pnt.azimuth ≤
        roi.radius * x.deg2rad →
      npsf x srcDir srcLogEng srcTime pnt roi rsp =
        ⟨.ok 1, rsp, [Call.psf_delta_max (x.dist pnt.dir srcDir) 0 pnt.zenith pnt.azimuth
          srcLogEng]⟩) ∧
    (0 ≤ x.deg2rad → roi.radius = 10 → x.dist roi.centre.dir srcDir = 0 →
        p.delta_max srcLogEng (x.dist pnt.dir srcDir) 0 pnt.zenith pnt.azimuth =
          2 * x.deg2rad →
      npsf x srcDir srcLogEng srcTime pnt roi rsp =
        ⟨.ok 1, rsp, [Call.psf_delta_max (x.dist pnt.dir srcDir) 0 pnt.zenith pnt.azimuth
          srcLogEng]⟩) ∧
    (¬ (x.dist roi.centre.dir srcDir +
        p.delta_max srcLogEng (x.dist pnt.dir srcDir) 0 pnt.zenith pnt.azimuth ≤
        roi.radius * x.deg2rad) →
      p.delta_max srcLogEng (x.dist pnt.dir srcDir) 0 pnt.zenith pnt.azimuth ≤
        max 0 (x.dist roi.centre.dir srcDir - roi.radius * x.deg2rad) →
      npsf x srcDir srcLogEng srcTime pnt roi rsp =
        ⟨.ok 0, rsp, [Call.psf_delta_max (x.dist pnt.dir srcDir) 0 pnt.zenith pnt.azimuth
          srcLogEng]⟩) := by
  have hin : x.dist roi.centre.dir srcDir +
        p.delta_max srcLogEng (x.dist pnt.dir srcDir) 0 pnt.zenith pnt.azimuth ≤
        roi.radius * x.deg2rad →
      npsf x srcDir srcLogEng srcTime pnt roi rsp =
        ⟨.ok 1, rsp, [Call.psf_delta_max (x.dist pnt.dir srcDir) 0 pnt.zenith pnt.azimuth
          srcLogEng]⟩ := by
    intro h
    simp [npsf, Eval.seq, run_psf_delta_max rsp p hpsf, h]
  refine ⟨hin, ?_, ?_⟩
  · intro hd hr h0 h2
    apply hin
    rw [h0, h2, hr]
    nlinarith
  · intro hout hle
    have hmax : (if x.dist roi.centre.dir srcDir > roi.radius * x.deg2rad then
        x.dist roi.centre.dir srcDir - roi.radius * x.deg2rad else 0) =
        max 0 (x.dist roi.centre.dir srcDir - roi.radius * x.deg2rad) := by
      split_ifs with h
      · exact (max_eq_right (le_of_lt (sub_pos.2 h))).symm
      · exact (max_eq_left (sub_nonpos.2 (not_lt.1 h))).symm
    rw [← hmax] at hle
    simp [npsf, Eval.seq, run_psf_delta_max rsp p hpsf, hout, not_lt.2 hle]

theorem npsf_short_circuit_witness :
    npsf demo_x ⟨0, 0⟩ 0 ⟨0⟩ demo_obs.pointing demo_obs.roi demo_rsp_narrow =
        ⟨.ok 1, demo_rsp_narrow, [Call.psf_delta_max 0 0 0 0 0]⟩ ∧
    npsf demo_x ⟨2, 0⟩ 0 ⟨0⟩ demo_obs.pointing demo_obs.roi demo_rsp =
        ⟨.ok 0, demo_rsp, [Call.psf_delta_max 4 0 0 0 0]⟩ := by
  constructor
  · have h := (npsf_short_circuit demo_x demo_rsp_narrow
      ⟨fun _ _ _ _ _ _ => 3, fun _ _ _ _ _ => 2 * (1 / 50)⟩ rfl ⟨0, 0⟩ 0 ⟨0⟩
      demo_obs.pointing demo_obs.roi).2.1
      (by norm_num [demo_x]) (by norm_num [demo_obs]) (by norm_num [demo_x, demo_obs])
      (by norm_num [demo_x])
    have hc : demo_x.dist demo_obs.pointing.dir ⟨0, 0⟩ = 0 := by norm_num [demo_x, demo_obs]
    rw [hc] at h
    exact h
  · have h := (npsf_short_circuit demo_x demo_rsp demo_psf rfl ⟨2, 0⟩ 0 ⟨0⟩
      demo_obs.pointing demo_obs.roi).2.2
      (by norm_num [demo_x, demo_obs, demo_psf])
      (by norm_num [demo_x, demo_obs, demo_psf])
    have hc : demo_x.dist demo_obs.pointing.dir ⟨2, 0⟩ = 4 := by norm_num [demo_x, demo_obs]
    rw [hc] at h
    exact h

/-! ## The deadtime correction factor -/

/-- C9: when energy dispersion is not in use, `nroi(model, obsEng, obsTime, obs)` makes
exactly the calls of the spatial `nroi` with true energy = measured energy and true
time = measured time, and returns its value S times spectral.eval(obsEng, obsTime) times
temporal.eval(obsTime), multiplied as the last step by the scale of the instrument of
the observation if the model has scales, and unscaled otherwise. -/
theorem nroi_without_edisp (x : Externals) (rsp : GCTAResponseIrf) (model : GModelSky)
    (obsEng : GEnergy) (obsTime : GTime) (obs : GCTAObservation)
    (hu : rsp.use_edisp = false) :
    (nroi x model obsEng obsTime obs rsp).result =
      (match (nroi_spatial x model obsEng obsTime obsEng obsTime obs rsp).result with
       | .ok S => .ok (claimed_nroi_value model obsEng obsTime obs S)
       | .error e => .error e) ∧
    (nroi x model obsEng obsTime obs rsp).self =
      (nroi_spatial x model obsEng obsTime obsEng obsTime obs rsp).self ∧
    (nroi x model obsEng obsTime obs rsp).calls =
      (nroi_spatial x model obsEng obsTime obsEng obsTime obs rsp).calls := by
  unfold claimed_nroi_value
  rcases hs : nroi_spatial x model obsEng obsTime obsEng obsTime obs rsp with ⟨r, s, l⟩
  cases r with
  | error e => simp [nroi, Eval.seq, hu, hs]
  | ok S =>
    cases hsc : model.has_scales <;> simp [nroi, Eval.seq, hu, hs, hsc]

theorem nirf_run_enclosed (x : Externals) (rsp : GCTAResponseIrf) (photon : GPhoton)
    (obsEng : GEnergy) (obsTime : GTime) (obs : GCTAObservation) (a : GCTAAeff) (p : GCTAPsf)
    (haeff : rsp.m_aeff = some a) (hpsf : rsp.m_psf = some p) (hu : rsp.use_edisp = false)
    (hpos : 0 < a.eval (x.log10TeV photon.energy) (x.dist obs.pointing.dir photon.dir) 0
      obs.pointing.zenith obs.pointing.azimuth)
    (hin : x.dist obs.roi.centre.dir photon.dir +
        p.delta_max (x.log10TeV photon.energy) (x.dist obs.pointing.dir photon.dir) 0
          obs.pointing.zenith obs.pointing.azimuth ≤ obs.roi.radius * x.deg2rad) :
    (nirf x photon obsEng obsTime obs rsp).result =
      .ok (a.eval (x.log10TeV photon.energy) (x.dist obs.pointing.dir photon.dir) 0
        obs.pointing.zenith obs.pointing.azimuth * obs.deadc photon.time) := by
  simp [nirf, npsf, Eval.seq, run_aeff rsp a haeff, run_psf_delta_max rsp p hpsf, hpos, hin, hu]

theorem nroi_without_edisp_witness :
    (nroi demo_x (demo_model (.point_source ⟨⟨0, 0⟩⟩) true) ⟨1000⟩ ⟨0⟩ demo_obs
      demo_rsp_narrow).result = .ok 105 := by
  have h := (nroi_without_edisp demo_x demo_rsp_narrow
    (demo_model (.point_source ⟨⟨0, 0⟩⟩) true) ⟨1000⟩ ⟨0⟩ demo_obs rfl).1
  have hd : nroi_spatial demo_x (demo_model (.point_source ⟨⟨0, 0⟩⟩) true) ⟨1000⟩ ⟨0⟩ ⟨1000⟩ ⟨0⟩
      demo_obs demo_rsp_narrow = nirf demo_x ⟨⟨0, 0⟩, ⟨1000⟩, ⟨0⟩⟩ ⟨1000⟩ ⟨0⟩ demo_obs
        demo_rsp_narrow := rfl
  have hn := nirf_run_enclosed demo_x demo_rsp_narrow ⟨⟨0, 0⟩, ⟨1000⟩, ⟨0⟩⟩ ⟨1000⟩ ⟨0⟩ demo_obs
    demo_aeff ⟨fun _ _ _ _ _ _ => 3, fun _ _ _ _ _ => 2 * (1 / 50)⟩ rfl rfl rfl
    (by norm_num [demo_aeff]) (by norm_num [demo_x, demo_obs])
  rw [hd, hn] at h
  rw [h]
  norm_num [claimed_nroi_value, demo_model, demo_aeff, demo_obs]

/-! ## The Npred cache of the response -/

theorem npred_search_none (rsp : GCTAResponseIrf) (id : String) (srcEng : GEnergy)
    (srcTime : GTime) (n : Nat) :
    ∀ i, npred_search rsp id srcEng srcTime n i = none →
      ∀ j : Nat, i ≤ j → j < i + n →
        ¬ (rsp.m_npred_names[j]? = some id ∧ rsp.m_npred_energies[j]? = some srcEng ∧
          rsp.m_npred_times[j]? = some srcTime) := by
  induction n with
  | zero =>
    intro i _ j h1 h2
    omega
  | succ n ih =>
    intro i h j h1 h2
    unfold npred_search at h
    split_ifs at h with hc
    rcases Nat.eq_or_lt_of_le h1 with h3 | h3
    · subst h3
      exact hc
    · exact ih (i + 1) h j h3 (by omega)

theorem mem_npred_keys (rsp : GCTAResponseIrf) (id : String) (srcEng : GEnergy)
    (srcTime : GTime) :
    (id, srcEng, srcTime) ∈ rsp.npred_keys ↔
      ∃ j : Nat, rsp.m_npred_names[j]? = some id ∧ rsp.m_npred_energies[j]? = some srcEng ∧
        rsp.m_npred_times[j]? = some srcTime := by
  unfold npred_keys
  rw [List.mem_iff_getElem?]
  constructor
  · rintro ⟨j, hj⟩
    rw [List.getElem?_zip_eq_some] at hj
    obtain ⟨h1, h2⟩ := hj
    rw [List.getElem?_zip_eq_some] at h2
    exact ⟨j, h1, h2.1, h2.2⟩
  · rintro ⟨j, h1, h2, h3⟩
    refine ⟨j, ?_⟩
    rw [List.getElem?_zip_eq_some]
    refine ⟨h1, ?_⟩
    rw [List.getElem?_zip_eq_some]
    exact ⟨h2, h3⟩

theorem npred_search_none_iff (rsp : GCTAResponseIrf) (id : String) (srcEng : GEnergy)
    (srcTime : GTime) :
    npred_search rsp id srcEng srcTime rsp.m_npred_names.length 0 = none →
      (id, srcEng, srcTime) ∉ rsp.npred_keys := by
  intro h hmem
  rw [mem_npred_keys] at hmem
  obtain ⟨j, h1, h2, h3⟩ := hmem
  have hj : j < rsp.m_npred_names.length := by
    rcases List.getElem?_eq_some.1 h1 with ⟨hlt, _⟩
    exact hlt
  exact npred_search_none rsp id srcEng srcTime _ 0 h j (Nat.zero_le j) (by omega) ⟨h1, h2, h3⟩

theorem nroi_diffuse_self (x : Externals) (model : GModelSky) (srcEng : GEnergy)
    (srcTime : GTime) (obsEng : GEnergy) (obsTime : GTime) (obs : GCTAObservation)
    (rsp : GCTAResponseIrf) :
    (nroi_diffuse x model srcEng srcTime obsEng obsTime obs rsp).self = rsp ∨
    (npred_search rsp (model.name ++ "::" ++ obs.id) srcEng srcTime
        rsp.m_npred_names.length 0 = none ∧
      ∃ v, (nroi_diffuse x model srcEng srcTime obsEng obsTime obs rsp).self =
        rsp.push_npred (model.name ++ "::" ++ obs.id) srcEng srcTime v) := by
  cases hs : npred_search rsp (model.name ++ "::" ++ obs.id) srcEng srcTime
      rsp.m_npred_names.length 0 with
  | some v =>
    left
    simp [nroi_diffuse, Eval.seq, hs]
  | none =>
    cases hp : rsp.m_psf with
    | none =>
      left
      simp [nroi_diffuse, Eval.seq, hs, psf_delta_max, hp]
    | some p =>
      right
      refine ⟨rfl, ?_⟩
      simp only [nroi_diffuse, Eval.run_bind, Eval.seq, Eval.run_this, hs,
        run_psf_delta_max rsp p hp]
      split_ifs <;>
        simp [Eval.seq, GIntegral.romberg, push_npred]

theorem npred_keys_push (rsp : GCTAResponseIrf) (h : rsp.cache_aligned) (id : String)
    (srcEng : GEnergy) (srcTime : GTime) (v : ℚ) :
    (rsp.push_npred id srcEng srcTime v).npred_keys = rsp.npred_keys ++ [(id, srcEng, srcTime)] ∧
    (rsp.push_npred id srcEng srcTime v).cache_aligned := by
  obtain ⟨h1, h2, h3⟩ := h
  constructor
  · unfold npred_keys push_npred
    simp only
    rw [List.zip_append (by rw [h1, h2]), List.zip_append (by simp [List.length_zip, h1, h2])]
    rfl
  · unfold cache_aligned push_npred
    simp [h1, h2, h3]

/-- The cache invariant: the four vectors are aligned and no key occurs twice. -/
theorem nroi_diffuse_keeps_cache (x : Externals) (model : GModelSky) (srcEng : GEnergy)
    (srcTime : GTime) (obsEng : GEnergy) (obsTime : GTime) (obs : GCTAObservation)
    (rsp : GCTAResponseIrf) (h : rsp.cache_aligned) (hn : rsp.npred_keys.Nodup) :
    (nroi_diffuse x model srcEng srcTime obsEng obsTime obs rsp).self.cache_aligned ∧
    (nroi_diffuse x model srcEng srcTime obsEng obsTime obs rsp).self.npred_keys.Nodup := by
  rcases nroi_diffuse_self x model srcEng srcTime obsEng obsTime obs rsp with hs | ⟨hs, v, hv⟩
  · rw [hs]
    exact ⟨h, hn⟩
  · rw [hv]
    have hk := npred_keys_push rsp h (model.name ++ "::" ++ obs.id) srcEng srcTime v
    refine ⟨hk.2, ?_⟩
    rw [hk.1]
    refine List.Nodup.append hn (List.nodup_singleton _) ?_
    intro k hk1 hk2
    rw [List.mem_singleton] at hk2
    subst hk2
    exact npred_search_none_iff rsp _ srcEng srcTime hs hk1

theorem after_nroi_diffuse_calls_keeps_cache (x : Externals) (calls : List NroiDiffuseArgs) :
    ∀ rsp : GCTAResponseIrf, rsp.cache_aligned → rsp.npred_keys.Nodup →
      (after_nroi_diffuse_calls x calls rsp).cache_aligned ∧
      (after_nroi_diffuse_calls x calls rsp).npred_keys.Nodup := by
  induction calls with
  | nil =>
    intro rsp h hn
    exact ⟨h, hn⟩
  | cons a rest ih =>
    intro rsp h hn
    have hk := nroi_diffuse_keeps_cache x a.model a.srcEng a.srcTime a.obsEng a.obsTime a.obs
      rsp h hn
    exact ih _ hk.1 hk.2

theorem nroi_diffuse_hit_keeps_self (x : Externals) (model : GModelSky) (srcEng : GEnergy)
    (srcTime : GTime) (obsEng : GEnergy) (obsTime : GTime) (obs : GCTAObservation)
    (rsp : GCTAResponseIrf)
    (hmem : (model.name ++ "::" ++ obs.id, srcEng, srcTime) ∈ rsp.npred_keys) :
    (nroi_diffuse x model srcEng srcTime obsEng obsTime obs rsp).self = rsp := by
  rcases nroi_diffuse_self x model srcEng srcTime obsEng obsTime obs rsp with hs | ⟨hs, _⟩
  · exact hs
  · exact absurd hmem (npred_search_none_iff rsp _ srcEng srcTime hs)

end GCTAResponseIrf

namespace GCTAModelCubeBackground

/-! ## The Npred cache of the cube background model -/

theorem bgd_npred_search_none (bgd : GCTAModelCubeBackground) (id : String) (obsEng : GEnergy)
    (n : Nat) :
    ∀ i, npred_search bgd id obsEng n i = none →
      ∀ j : Nat, i ≤ j → j < i + n →
        ¬ (bgd.m_npred_names[j]? = some id ∧ bgd.m_npred_energies[j]? = some obsEng) := by
  induction n with
  | zero =>
    intro i _ j h1 h2
    omega
  | succ n ih =>
    intro i h j h1 h2
    unfold npred_search at h
    split_ifs at h with hc
    rcases Nat.eq_or_lt_of_le h1 with h3 | h3
    · subst h3
      exact hc
    · exact ih (i + 1) h j h3 (by omega)

theorem npred_search_none_not_mem (bgd : GCTAModelCubeBackground) (id : String)
    (obsEng : GEnergy)
    (h : npred_search bgd id obsEng bgd.m_npred_names.length 0 = none) :
    (id, obsEng) ∉ bgd.m_npred_names.zip bgd.m_npred_energies := by
  intro hmem
  rw [List.mem_iff_getElem?] at hmem
  obtain ⟨j, hj⟩ := hmem
  rw [List.getElem?_zip_eq_some] at hj
  have hlt : j < bgd.m_npred_names.length := by
    rcases List.getElem?_eq_some.1 hj.1 with ⟨hlt, _⟩
    exact hlt
  exact bgd_npred_search_none bgd id obsEng _ 0 h j (Nat.zero_le j) (by omega) hj

theorem npred_self (x : Externals) (obsEng : GEnergy) (obsTime : GTime) (obs : GObservation)
    (bgd : GCTAModelCubeBackground) :
    (npred x obsEng obsTime obs bgd).self = bgd ∨
    (npred_search bgd (obs.instrument ++ "::" ++ obs.id) obsEng bgd.m_npred_names.length 0 =
        none ∧
      ∃ v, (npred x obsEng obsTime obs bgd).self =
        bgd.push_npred (obs.instrument ++ "::" ++ obs.id) obsEng obsTime v) := by
  cases hsp : bgd.m_spectral with
  | none =>
    left
    cases hs : npred_search bgd (obs.instrument ++ "::" ++ obs.id) obsEng
      bgd.m_npred_names.length 0 <;>
      simp [npred, Eval.seq, hs, valid_model, hsp]
  | some spectral =>
    cases htp : bgd.m_temporal with
    | none =>
      left
      cases hs : npred_search bgd (obs.instrument ++ "::" ++ obs.id) obsEng
        bgd.m_npred_names.length 0 <;>
        simp [npred, Eval.seq, hs, valid_model, hsp, htp]
    | some temporal =>
      cases hs : npred_search bgd (obs.instrument ++ "::" ++ obs.id) obsEng
        bgd.m_npred_names.length 0 with
      | some v =>
        left
        simp [npred, Eval.seq, hs, hsp, htp]
      | none =>
        cases obs with
        | foreign instrument id deadc =>
          left
          simp [npred, Eval.seq, hs, valid_model, hsp, htp, GObservation.instrument,
            GObservation.id] at hs ⊢
        | cta cta =>
          cases hc : cta.cube_background with
          | none =>
            left
            simp [npred, Eval.seq, hs, valid_model, hsp, htp, GObservation.instrument,
              GObservation.id, hc] at hs ⊢
          | some cube =>
            right
            refine ⟨rfl, cube.integral (x.log10TeV obsEng), ?_⟩
            simp [npred, Eval.seq, hs, valid_model, hsp, htp, GObservation.instrument,
              GObservation.id, hc, push_npred] at hs ⊢

theorem zip_zip_map {α β γ : Type} (l1 : List α) :
    ∀ (l2 : List β) (l3 : List γ), l3.length = l2.length →
      (l1.zip (l2.zip l3)).map (fun k => (k.1, k.2.1)) = l1.zip l2 := by
  induction l1 with
  | nil => intro l2 l3 _; rfl
  | cons a l1 ih =>
    intro l2 l3 h
    cases l2 with
    | nil => simp
    | cons b l2 =>
      cases l3 with
      | nil => simp at h
      | cons c l3 =>
        simp only [List.zip_cons_cons, List.map_cons, List.cons.injEq, true_and]
        exact ih l2 l3 (by simpa using h)

theorem npred_keeps_cache (x : Externals) (obsEng : GEnergy) (obsTime : GTime)
    (obs : GObservation) (bgd : GCTAModelCubeBackground) (h : bgd.cache_aligned)
    (hn : (bgd.m_npred_names.zip bgd.m_npred_energies).Nodup) :
    (npred x obsEng obsTime obs bgd).self.cache_aligned ∧
    ((npred x obsEng obsTime obs bgd).self.m_npred_names.zip
      (npred x obsEng obsTime obs bgd).self.m_npred_energies).Nodup := by
  rcases npred_self x obsEng obsTime obs bgd with hs | ⟨hs, v, hv⟩
  · rw [hs]
    exact ⟨h, hn⟩
  · rw [hv]
    obtain ⟨h1, h2, h3⟩ := h
    constructor
    · unfold cache_aligned push_npred
      simp [h1, h2, h3]
    · unfold push_npred
      simp only
      rw [List.zip_append h1.symm]
      refine List.Nodup.append hn (List.nodup_singleton _) ?_
      intro k hk1 hk2
      rw [List.zip_cons_cons, List.zip_nil_right, List.mem_singleton] at hk2
      subst hk2
      exact npred_search_none_not_mem bgd _ obsEng hs hk1

theorem after_npred_calls_keeps_cache (x : Externals) (calls : List NpredArgs) :
    ∀ bgd : GCTAModelCubeBackground, bgd.cache_aligned →
      (bgd.m_npred_names.zip bgd.m_npred_energies).Nodup →
      (after_npred_calls x calls bgd).cache_aligned ∧
      ((after_npred_calls x calls bgd).m_npred_names.zip
        (after_npred_calls x calls bgd).m_npred_energies).Nodup := by
  induction calls with
  | nil =>
    intro bgd h hn
    exact ⟨h, hn⟩
  | cons a rest ih =>
    intro bgd h hn
    have hk := npred_keeps_cache x a.obsEng a.obsTime a.obs bgd h hn
    exact ih _ hk.1 hk.2

theorem npred_keys_nodup (bgd : GCTAModelCubeBackground) (h : bgd.cache_aligned)
    (hn : (bgd.m_npred_names.zip bgd.m_npred_energies).Nodup) : bgd.npred_keys.Nodup := by
  apply List.Nodup.of_map (fun k : String × GEnergy × GTime => (k.1, k.2.1))
  unfold npred_keys
  rw [zip_zip_map _ _ _ (by rw [h.1, h.2.1])]
  exact hn

theorem npred_hit_keeps_self (x : Externals) (obsEng : GEnergy) (obsTime : GTime)
    (obs : GObservation) (bgd : GCTAModelCubeBackground)
    (hmem : (obs.instrument ++ "::" ++ obs.id, obsEng, obsTime) ∈ bgd.npred_keys) :
    (npred x obsEng obsTime obs bgd).self = bgd := by
  rcases npred_self x obsEng obsTime obs bgd with hs | ⟨hs, _⟩
  · exact hs
  · exfalso
    unfold npred_keys at hmem
    rw [List.mem_iff_getElem?] at hmem
    obtain ⟨j, hj⟩ := hmem
    rw [List.getElem?_zip_eq_some] at hj
    obtain ⟨hj1, hj2⟩ := hj
    rw [List.getElem?_zip_eq_some] at hj2
    have hlt : j < bgd.m_npred_names.length := by
      rcases List.getElem?_eq_some.1 hj1 with ⟨hlt, _⟩
      exact hlt
    exact bgd_npred_search_none bgd _ obsEng _ 0 hs j (Nat.zero_le j) (by omega) ⟨hj1, hj2.1⟩

end GCTAModelCubeBackground

/-- C10: starting from an empty Npred cache, after any sequence of `nroi_diffuse` calls
the four cache vectors of the response are aligned and no two entries have the same
key (identity string, energy, time); the same holds for the cache of
`GCTAModelCubeBackground::npred` after any sequence of `npred` calls.  A call leaves the
cache as it is or appends exactly one entry with the requested key, and it appends
none when an entry with the requested key already exists. -/
theorem npred_cache_unique (x : Externals)
    (calls : List NroiDiffuseArgs) (rsp0 : GCTAResponseIrf)
    (h0 : rsp0.m_npred_names = [] ∧ rsp0.m_npred_energies = [] ∧ rsp0.m_npred_times = [] ∧
      rsp0.m_npred_values = [])
    (bcalls : List NpredArgs) (bgd0 : GCTAModelCubeBackground)
    (hb0 : bgd0.m_npred_names = [] ∧ bgd0.m_npred_energies = [] ∧ bgd0.m_npred_times = [] ∧
      bgd0.m_npred_values = []) :
    ((after_nroi_diffuse_calls x calls rsp0).cache_aligned ∧
      (after_nroi_diffuse_calls x calls rsp0).npred_keys.Nodup) ∧
    ((after_npred_calls x bcalls bgd0).cache_aligned ∧
      (after_npred_calls x bcalls bgd0).npred_keys.Nodup) ∧
    (∀ rsp model srcEng srcTime obsEng obsTime obs,
      ((GCTAResponseIrf.nroi_diffuse x model srcEng srcTime obsEng obsTime obs rsp).self = rsp ∨
        ∃ v, (GCTAResponseIrf.nroi_diffuse x model srcEng srcTime obsEng obsTime obs rsp).self =
          rsp.push_npred (model.name ++ "::" ++ obs.id) srcEng srcTime v) ∧
      ((model.name ++ "::" ++ obs.id, srcEng, srcTime) ∈ rsp.npred_keys →
        (GCTAResponseIrf.nroi_diffuse x model srcEng srcTime obsEng obsTime obs rsp).self =
          rsp)) ∧
    (∀ bgd obsEng obsTime obs,
      ((GCTAModelCubeBackground.npred x obsEng obsTime obs bgd).self = bgd ∨
        ∃ v, (GCTAModelCubeBackground.npred x obsEng obsTime obs bgd).self =
          bgd.push_npred (obs.instrument ++ "::" ++ obs.id) obsEng obsTime v) ∧
      ((obs.instrument ++ "::" ++ obs.id, obsEng, obsTime) ∈ bgd.npred_keys →
        (GCTAModelCubeBackground.npred x obsEng obsTime obs bgd).self = bgd)) := by
  obtain ⟨h1, h2, h3, h4⟩ := h0
  obtain ⟨b1, b2, b3, b4⟩ := hb0
  refine ⟨?_, ?_, ?_, ?_⟩
  · apply GCTAResponseIrf.after_nroi_diffuse_calls_keeps_cache
    · simp [GCTAResponseIrf.cache_aligned, h1, h2, h3, h4]
    · simp [GCTAResponseIrf.npred_keys, h1]
  · have hk := GCTAModelCubeBackground.after_npred_calls_keeps_cache x bcalls bgd0
      (by simp [GCTAModelCubeBackground.cache_aligned, b1, b2, b3, b4]) (by simp [b1])
    exact ⟨hk.1, GCTAModelCubeBackground.npred_keys_nodup _ hk.1 hk.2⟩
  · intro rsp model srcEng srcTime obsEng obsTime obs
    refine ⟨?_, GCTAResponseIrf.nroi_diffuse_hit_keeps_self x model srcEng srcTime obsEng
      obsTime obs rsp⟩
    rcases GCTAResponseIrf.nroi_diffuse_self x model srcEng srcTime obsEng obsTime obs rsp
      with hs | ⟨_, v, hv⟩
    · exact Or.inl hs
    · exact Or.inr ⟨v, hv⟩
  · intro bgd obsEng obsTime obs
    refine ⟨?_, GCTAModelCubeBackground.npred_hit_keeps_self x obsEng obsTime obs bgd⟩
    rcases GCTAModelCubeBackground.npred_self x obsEng obsTime obs bgd with hs | ⟨_, v, hv⟩
    · exact Or.inl hs
    · exact Or.inr ⟨v, hv⟩

theorem npred_cache_unique_witness :
    (after_nroi_diffuse_calls demo_x demo_nroi_calls demo_rsp).npred_keys.Nodup ∧
    (after_npred_calls demo_x demo_npred_calls demo_bgd).npred_keys.Nodup :=
  ⟨(npred_cache_unique demo_x demo_nroi_calls demo_rsp ⟨rfl, rfl, rfl, rfl⟩
      demo_npred_calls demo_bgd ⟨rfl, rfl, rfl, rfl⟩).1.2,
   (npred_cache_unique demo_x demo_nroi_calls demo_rsp ⟨rfl, rfl, rfl, rfl⟩
      demo_npred_calls demo_bgd ⟨rfl, rfl, rfl, rfl⟩).2.1.2⟩

namespace GCTAResponseIrf

/-! ## Repeated calls of `nroi_diffuse` -/

theorem npred_search_congr (rsp rsp2 : GCTAResponseIrf) (id : String) (srcEng : GEnergy)
    (srcTime : GTime) (n : Nat) :
    ∀ i, (∀ j : Nat, i ≤ j → j < i + n →
        rsp2.m_npred_names[j]? = rsp.m_npred_names[j]? ∧
        rsp2.m_npred_energies[j]? = rsp.m_npred_energies[j]? ∧
        rsp2.m_npred_times[j]? = rsp.m_npred_times[j]? ∧
        rsp2.m_npred_values.getD j 0 = rsp.m_npred_values.getD j 0) →
      npred_search rsp2 id srcEng srcTime n i = npred_search rsp id srcEng srcTime n i := by
  induction n with
  | zero =>
    intro i _
    rfl
  | succ n ih =>
    intro i h
    obtain ⟨h1, h2, h3, h4⟩ := h i (Nat.le_refl i) (by omega)
    unfold npred_search
    rw [h1, h2, h3, h4, ih (i + 1) (fun j hj1 hj2 => h j (by omega) (by omega))]

theorem npred_search_extend (rsp : GCTAResponseIrf) (id : String) (srcEng : GEnergy)
    (srcTime : GTime) (v : ℚ) (n : Nat) :
    ∀ i, npred_search rsp id srcEng srcTime n i = some v →
      npred_search rsp id srcEng srcTime (n + 1) i = some v := by
  induction n with
  | zero =>
    intro i h
    simp [npred_search] at h
  | succ n ih =>
    intro i h
    unfold npred_search at h ⊢
    split_ifs at h ⊢ with hc
    · exact h
    · exact ih (i + 1) h

theorem npred_search_extend_none (rsp : GCTAResponseIrf) (id : String) (srcEng : GEnergy)
    (srcTime : GTime) (n : Nat) :
    ∀ i, npred_search rsp id srcEng srcTime n i = none →
      rsp.m_npred_names[i + n]? = some id → rsp.m_npred_energies[i + n]? = some srcEng →
      rsp.m_npred_times[i + n]? = some srcTime →
      npred_search rsp id srcEng srcTime (n + 1) i = some (rsp.m_npred_values.getD (i + n) 0) := by
  induction n with
  | zero =>
    intro i _ h1 h2 h3
    simp only [Nat.add_zero] at h1 h2 h3 ⊢
    simp [npred_search, h1, h2, h3]
  | succ n ih =>
    intro i h h1 h2 h3
    unfold npred_search at h ⊢
    split_ifs at h ⊢ with hc
    have e : i + (n + 1) = i + 1 + n := by omega
    rw [e] at h1 h2 h3 ⊢
    exact ih (i + 1) h h1 h2 h3

theorem push_npred_agrees (rsp : GCTAResponseIrf) (h : rsp.cache_aligned) (id : String)
    (srcEng : GEnergy) (srcTime : GTime) (v : ℚ) (j : Nat) (hj : j < rsp.m_npred_names.length) :
    (rsp.push_npred id srcEng srcTime v).m_npred_names[j]? = rsp.m_npred_names[j]? ∧
    (rsp.push_npred id srcEng srcTime v).m_npred_energies[j]? = rsp.m_npred_energies[j]? ∧
    (rsp.push_npred id srcEng srcTime v).m_npred_times[j]? = rsp.m_npred_times[j]? ∧
    (rsp.push_npred id srcEng srcTime v).m_npred_values.getD j 0 =
      rsp.m_npred_values.getD j 0 := by
  obtain ⟨h1, h2, h3⟩ := h
  unfold push_npred
  simp only
  refine ⟨List.getElem?_append_left hj, List.getElem?_append_left (by omega),
    List.getElem?_append_left (by omega), ?_⟩
  rw [List.getD_eq_getElem?_getD, List.getD_eq_getElem?_getD,
    List.getElem?_append_left (by omega)]

theorem push_npred_last (rsp : GCTAResponseIrf) (h : rsp.cache_aligned) (id : String)
    (srcEng : GEnergy) (srcTime : GTime) (v : ℚ) :
    (rsp.push_npred id srcEng srcTime v).m_npred_names[rsp.m_npred_names.length]? = some id ∧
    (rsp.push_npred id srcEng srcTime v).m_npred_energies[rsp.m_npred_names.length]? =
      some srcEng ∧
    (rsp.push_npred id srcEng srcTime v).m_npred_times[rsp.m_npred_names.length]? =
      some srcTime ∧
    (rsp.push_npred id srcEng srcTime v).m_npred_values.getD rsp.m_npred_names.length 0 = v := by
  obtain ⟨h1, h2, h3⟩ := h
  unfold push_npred
  simp only
  refine ⟨?_, ?_, ?_, ?_⟩
  · simp
  · rw [← h1]
    simp
  · rw [← h2]
    simp
  · rw [← h3, List.getD_eq_getElem?_getD]
    simp

theorem push_npred_length (rsp : GCTAResponseIrf) (id : String) (srcEng : GEnergy)
    (srcTime : GTime) (v : ℚ) :
    (rsp.push_npred id srcEng srcTime v).m_npred_names.length =
      rsp.m_npred_names.length + 1 := by
  simp [push_npred]

theorem npred_search_push_of_some (rsp : GCTAResponseIrf) (h : rsp.cache_aligned)
    (id : String) (srcEng : GEnergy) (srcTime : GTime) (v : ℚ)
    (hs : npred_search rsp id srcEng srcTime rsp.m_npred_names.length 0 = some v)
    (id2 : String) (srcEng2 : GEnergy) (srcTime2 : GTime) (v2 : ℚ) :
    npred_search (rsp.push_npred id2 srcEng2 srcTime2 v2) id srcEng srcTime
      (rsp.push_npred id2 srcEng2 srcTime2 v2).m_npred_names.length 0 = some v := by
  rw [push_npred_length]
  apply npred_search_extend
  rw [npred_search_congr rsp (rsp.push_npred id2 srcEng2 srcTime2 v2) id srcEng srcTime _ 0
    (fun j _ hj => push_npred_agrees rsp h id2 srcEng2 srcTime2 v2 j (by omega))]
  exact hs

theorem npred_search_push_of_none (rsp : GCTAResponseIrf) (h : rsp.cache_aligned)
    (id : String) (srcEng : GEnergy) (srcTime : GTime) (v : ℚ)
    (hs : npred_search rsp id srcEng srcTime rsp.m_npred_names.length 0 = none) :
    npred_search (rsp.push_npred id srcEng srcTime v) id srcEng srcTime
      (rsp.push_npred id srcEng srcTime v).m_npred_names.length 0 = some v := by
  rw [push_npred_length]
  have hl := push_npred_last rsp h id srcEng srcTime v
  have hn : npred_search (rsp.push_npred id srcEng srcTime v) id srcEng srcTime
      rsp.m_npred_names.length 0 = none := by
    rw [npred_search_congr rsp (rsp.push_npred id srcEng srcTime v) id srcEng srcTime _ 0
      (fun j _ hj => push_npred_agrees rsp h id srcEng srcTime v j (by omega))]
    exact hs
  have he := npred_search_extend_none (rsp.push_npred id srcEng srcTime v) id srcEng srcTime
    rsp.m_npred_names.length 0 hn (by simpa using hl.1) (by simpa using hl.2.1)
    (by simpa using hl.2.2.1)
  rw [he]
  simp only [Nat.zero_add]
  rw [hl.2.2.2]

theorem nroi_diffuse_run_hit (x : Externals) (model : GModelSky) (srcEng : GEnergy)
    (srcTime : GTime) (obsEng : GEnergy) (obsTime : GTime) (obs : GCTAObservation)
    (rsp : GCTAResponseIrf) (v : ℚ)
    (hs : npred_search rsp (model.name ++ "::" ++ obs.id) srcEng srcTime
      rsp.m_npred_names.length 0 = some v) :
    nroi_diffuse x model srcEng srcTime obsEng obsTime obs rsp = ⟨.ok v, rsp, []⟩ := by
  simp [nroi_diffuse, Eval.seq, hs]

theorem nroi_diffuse_run_miss (x : Externals) (model : GModelSky) (srcEng : GEnergy)
    (srcTime : GTime) (obsEng : GEnergy) (obsTime : GTime) (obs : GCTAObservation)
    (rsp : GCTAResponseIrf) (p : GCTAPsf) (hpsf : rsp.m_psf = some p)
    (hs : npred_search rsp (model.name ++ "::" ++ obs.id) srcEng srcTime
      rsp.m_npred_names.length 0 = none) :
    nroi_diffuse x model srcEng srcTime obsEng obsTime obs rsp =
      ⟨.ok (diffuse_value x rsp p model srcEng srcTime obsEng obsTime obs),
        rsp.push_npred (model.name ++ "::" ++ obs.id) srcEng srcTime
          (diffuse_value x rsp p model srcEng srcTime obsEng obsTime obs),
        diffuse_calls x rsp p model srcEng srcTime obsEng obsTime obs⟩ := by
  unfold diffuse_value diffuse_calls diffuse_kernel diffuse_roi_psf_radius
  simp only [nroi_diffuse, Eval.run_bind, Eval.seq, Eval.run_this, hs,
    run_psf_delta_max rsp p hpsf]
  split_ifs <;> simp [Eval.seq, GIntegral.romberg, push_npred]

theorem nroi_diffuse_run_no_psf (x : Externals) (model : GModelSky) (srcEng : GEnergy)
    (srcTime : GTime) (obsEng : GEnergy) (obsTime : GTime) (obs : GCTAObservation)
    (rsp : GCTAResponseIrf) (hpsf : rsp.m_psf = none)
    (hs : npred_search rsp (model.name ++ "::" ++ obs.id) srcEng srcTime
      rsp.m_npred_names.length 0 = none) :
    nroi_diffuse x model srcEng srcTime obsEng obsTime obs rsp =
      ⟨.error (.invalid_value G_PSF_DELTA_MAX msg_no_psf), rsp,
        [Call.psf_delta_max 0 0 obs.pointing.zenith obs.pointing.azimuth
          (x.log10TeV srcEng)]⟩ := by
  simp [nroi_diffuse, Eval.seq, hs, psf_delta_max, hpsf]

theorem nroi_diffuse_ok_search (x : Externals) (model : GModelSky) (srcEng : GEnergy)
    (srcTime : GTime) (obsEng : GEnergy) (obsTime : GTime) (obs : GCTAObservation)
    (rsp : GCTAResponseIrf) (h : rsp.cache_aligned) (v : ℚ)
    (hv : (nroi_diffuse x model srcEng srcTime obsEng obsTime obs rsp).result = .ok v) :
    npred_search (nroi_diffuse x model srcEng srcTime obsEng obsTime obs rsp).self
      (model.name ++ "::" ++ obs.id) srcEng srcTime
      (nroi_diffuse x model srcEng srcTime obsEng obsTime obs rsp).self.m_npred_names.length 0 =
      some v := by
  cases hs : npred_search rsp (model.name ++ "::" ++ obs.id) srcEng srcTime
      rsp.m_npred_names.length 0 with
  | some w =>
    rw [nroi_diffuse_run_hit x model srcEng srcTime obsEng obsTime obs rsp w hs] at hv ⊢
    simp only [Except.ok.injEq] at hv
    rw [← hv]
    exact hs
  | none =>
    cases hp : rsp.m_psf with
    | none =>
      rw [nroi_diffuse_run_no_psf x model srcEng srcTime obsEng obsTime obs rsp hp hs] at hv
      simp at hv
    | some p =>
      rw [nroi_diffuse_run_miss x model srcEng srcTime obsEng obsTime obs rsp p hp hs] at hv ⊢
      simp only [Except.ok.injEq] at hv
      rw [← hv]
      exact npred_search_push_of_none rsp h _ srcEng srcTime _ hs

theorem nroi_diffuse_keeps_aligned (x : Externals) (model : GModelSky) (srcEng : GEnergy)
    (srcTime : GTime) (obsEng : GEnergy) (obsTime : GTime) (obs : GCTAObservation)
    (rsp : GCTAResponseIrf) (h : rsp.cache_aligned) :
    (nroi_diffuse x model srcEng srcTime obsEng obsTime obs rsp).self.cache_aligned := by
  rcases nroi_diffuse_self x model srcEng srcTime obsEng obsTime obs rsp with hs | ⟨_, v, hv⟩
  · rw [hs]
    exact h
  · rw [hv]
    exact (npred_keys_push rsp h _ srcEng srcTime v).2

theorem nroi_diffuse_keeps_search (x : Externals) (model : GModelSky) (srcEng : GEnergy)
    (srcTime : GTime) (obsEng : GEnergy) (obsTime : GTime) (obs : GCTAObservation)
    (rsp : GCTAResponseIrf) (h : rsp.cache_aligned) (id : String) (e : GEnergy) (t : GTime)
    (v : ℚ) (hs : npred_search rsp id e t rsp.m_npred_names.length 0 = some v) :
    npred_search (nroi_diffuse x model srcEng srcTime obsEng obsTime obs rsp).self id e t
      (nroi_diffuse x model srcEng srcTime obsEng obsTime obs rsp).self.m_npred_names.length 0 =
      some v := by
  rcases nroi_diffuse_self x model srcEng srcTime obsEng obsTime obs rsp with hk | ⟨_, w, hw⟩
  · rw [hk]
    exact hs
  · rw [hw]
    exact npred_search_push_of_some rsp h id e t v hs _ srcEng srcTime w

theorem after_nroi_diffuse_calls_keeps_search (x : Externals) (calls : List NroiDiffuseArgs)
    (id : String) (e : GEnergy) (t : GTime) (v : ℚ) :
    ∀ rsp : GCTAResponseIrf, rsp.cache_aligned →
      npred_search rsp id e t rsp.m_npred_names.length 0 = some v →
      npred_search (after_nroi_diffuse_calls x calls rsp) id e t
        (after_nroi_diffuse_calls x calls rsp).m_npred_names.length 0 = some v := by
  induction calls with
  | nil =>
    intro rsp _ hs
    exact hs
  | cons a rest ih =>
    intro rsp h hs
    exact ih _ (nroi_diffuse_keeps_aligned x a.model a.srcEng a.srcTime a.obsEng a.obsTime
      a.obs rsp h)
      (nroi_diffuse_keeps_search x a.model a.srcEng a.srcTime a.obsEng a.obsTime a.obs rsp h
        id e t v hs)

/-- C11: if a call of `nroi_diffuse` on a response (with aligned cache vectors) returns
the value v, then any later call on the same object with the same model name,
observation id, true energy and true time, whatever calls of `nroi_diffuse` were made
in between, returns exactly v, makes no call at all (no quadrature) and leaves the
object, hence the cache, unchanged. -/
theorem nroi_diffuse_second_call (x : Externals) (rsp : GCTAResponseIrf)
    (haligned : rsp.cache_aligned) (model : GModelSky) (srcEng : GEnergy) (srcTime : GTime)
    (obsEng : GEnergy) (obsTime : GTime) (obs : GCTAObservation) (v : ℚ)
    (hfirst : (nroi_diffuse x model srcEng srcTime obsEng obsTime obs rsp).result = .ok v)
    (between : List NroiDiffuseArgs) (model2 : GModelSky) (obsEng2 : GEnergy)
    (obsTime2 : GTime) (obs2 : GCTAObservation)
    (hname : model2.name = model.name) (hid : obs2.id = obs.id) :
    nroi_diffuse x model2 srcEng srcTime obsEng2 obsTime2 obs2
        (after_nroi_diffuse_calls x between
          (nroi_diffuse x model srcEng srcTime obsEng obsTime obs rsp).self) =
      ⟨.ok v,
        after_nroi_diffuse_calls x between
          (nroi_diffuse x model srcEng srcTime obsEng obsTime obs rsp).self, []⟩ := by
  apply nroi_diffuse_run_hit
  rw [hname, hid]
  apply after_nroi_diffuse_calls_keeps_search
  · exact nroi_diffuse_keeps_aligned x model srcEng srcTime obsEng obsTime obs rsp haligned
  · exact nroi_diffuse_ok_search x model srcEng srcTime obsEng obsTime obs rsp haligned v hfirst

theorem nroi_diffuse_second_call_witness :
    nroi_diffuse demo_x demo_diffuse ⟨1000⟩ ⟨0⟩ ⟨1000⟩ ⟨0⟩ demo_obs
        (nroi_diffuse demo_x demo_diffuse ⟨1000⟩ ⟨0⟩ ⟨1000⟩ ⟨0⟩ demo_obs demo_rsp).self =
      ⟨.ok (diffuse_value demo_x demo_rsp demo_psf demo_diffuse ⟨1000⟩ ⟨0⟩ ⟨1000⟩ ⟨0⟩ demo_obs),
        (nroi_diffuse demo_x demo_diffuse ⟨1000⟩ ⟨0⟩ ⟨1000⟩ ⟨0⟩ demo_obs demo_rsp).self, []⟩ :=
  nroi_diffuse_second_call demo_x demo_rsp ⟨rfl, rfl, rfl⟩ demo_diffuse ⟨1000⟩ ⟨0⟩ ⟨1000⟩ ⟨0⟩
    demo_obs _
    (by rw [nroi_diffuse_run_miss demo_x demo_diffuse ⟨1000⟩ ⟨0⟩ ⟨1000⟩ ⟨0⟩ demo_obs demo_rsp
      demo_psf rfl rfl])
    [] demo_diffuse ⟨1000⟩ ⟨0⟩ demo_obs rfl rfl

/-! ## The cache after `clear` -/

end GCTAResponseIrf

namespace GCTAModelCubeBackground

/-! ## Value and cache of the cube background `npred` -/

theorem bgd_npred_search_congr (bgd bgd2 : GCTAModelCubeBackground) (id : String)
    (obsEng : GEnergy) (n : Nat) :
    ∀ i, (∀ j : Nat, i ≤ j → j < i + n →
        bgd2.m_npred_names[j]? = bgd.m_npred_names[j]? ∧
        bgd2.m_npred_energies[j]? = bgd.m_npred_energies[j]? ∧
        bgd2.m_npred_values.getD j 0 = bgd.m_npred_values.getD j 0) →
      npred_search bgd2 id obsEng n i = npred_search bgd id obsEng n i := by
  induction n with
  | zero =>
    intro i _
    rfl
  | succ n ih =>
    intro i h
    obtain ⟨h1, h2, h3⟩ := h i (Nat.le_refl i) (by omega)
    unfold npred_search
    rw [h1, h2, h3, ih (i + 1) (fun j hj1 hj2 => h j (by omega) (by omega))]

theorem bgd_npred_search_extend (bgd : GCTAModelCubeBackground) (id : String)
    (obsEng : GEnergy) (v : ℚ) (n : Nat) :
    ∀ i, npred_search bgd id obsEng n i = some v →
      npred_search bgd id obsEng (n + 1) i = some v := by
  induction n with
  | zero =>
    intro i h
    simp [npred_search] at h
  | succ n ih =>
    intro i h
    unfold npred_search at h ⊢
    split_ifs at h ⊢ with hc
    · exact h
    · exact ih (i + 1) h

theorem bgd_npred_search_extend_none (bgd : GCTAModelCubeBackground) (id : String)
    (obsEng : GEnergy) (n : Nat) :
    ∀ i, npred_search bgd id obsEng n i = none →
      bgd.m_npred_names[i + n]? = some id → bgd.m_npred_energies[i + n]? = some obsEng →
      npred_search bgd id obsEng (n + 1) i = some (bgd.m_npred_values.getD (i + n) 0) := by
  induction n with
  | zero =>
    intro i _ h1 h2
    simp only [Nat.add_zero] at h1 h2 ⊢
    simp [npred_search, h1, h2]
  | succ n ih =>
    intro i h h1 h2
    unfold npred_search at h ⊢
    split_ifs at h ⊢ with hc
    have e : i + (n + 1) = i + 1 + n := by omega
    rw [e] at h1 h2 ⊢
    exact ih (i + 1) h h1 h2

theorem bgd_push_npred_agrees (bgd : GCTAModelCubeBackground) (h : bgd.cache_aligned)
    (id : String) (obsEng : GEnergy) (obsTime : GTime) (v : ℚ) (j : Nat)
    (hj : j < bgd.m_npred_names.length) :
    (bgd.push_npred id obsEng obsTime v).m_npred_names[j]? = bgd.m_npred_names[j]? ∧
    (bgd.push_npred id obsEng obsTime v).m_npred_energies[j]? = bgd.m_npred_energies[j]? ∧
    (bgd.push_npred id obsEng obsTime v).m_npred_values.getD j 0 =
      bgd.m_npred_values.getD j 0 := by
  obtain ⟨h1, h2, h3⟩ := h
  unfold push_npred
  simp only
  refine ⟨List.getElem?_append_left hj, List.getElem?_append_left (by omega), ?_⟩
  rw [List.getD_eq_getElem?_getD, List.getD_eq_getElem?_getD,
    List.getElem?_append_left (by omega)]

theorem bgd_push_npred_last (bgd : GCTAModelCubeBackground) (h : bgd.cache_aligned)
    (id : String) (obsEng : GEnergy) (obsTime : GTime) (v : ℚ) :
    (bgd.push_npred id obsEng obsTime v).m_npred_names[bgd.m_npred_names.length]? = some id ∧
    (bgd.push_npred id obsEng obsTime v).m_npred_energies[bgd.m_npred_names.length]? =
      some obsEng ∧
    (bgd.push_npred id obsEng obsTime v).m_npred_values.getD bgd.m_npred_names.length 0 = v := by
  obtain ⟨h1, h2, h3⟩ := h
  unfold push_npred
  simp only
  refine ⟨?_, ?_, ?_⟩
  · simp
  · rw [← h1]
    simp
  · rw [← h3, List.getD_eq_getElem?_getD]
    simp

theorem bgd_npred_search_push_of_some (bgd : GCTAModelCubeBackground) (h : bgd.cache_aligned)
    (id : String) (obsEng : GEnergy) (v : ℚ)
    (hs : npred_search bgd id obsEng bgd.m_npred_names.length 0 = some v)
    (id2 : String) (obsEng2 : GEnergy) (obsTime2 : GTime) (v2 : ℚ) :
    npred_search (bgd.push_npred id2 obsEng2 obsTime2 v2) id obsEng
      (bgd.push_npred id2 obsEng2 obsTime2 v2).m_npred_names.length 0 = some v := by
  have hl : (bgd.push_npred id2 obsEng2 obsTime2 v2).m_npred_names.length =
      bgd.m_npred_names.length + 1 := by simp [push_npred]
  rw [hl]
  apply bgd_npred_search_extend
  rw [bgd_npred_search_congr bgd (bgd.push_npred id2 obsEng2 obsTime2 v2) id obsEng _ 0
    (fun j _ hj => bgd_push_npred_agrees bgd h id2 obsEng2 obsTime2 v2 j (by omega))]
  exact hs

theorem bgd_npred_search_push_of_none (bgd : GCTAModelCubeBackground) (h : bgd.cache_aligned)
    (id : String) (obsEng : GEnergy) (obsTime : GTime) (v : ℚ)
    (hs : npred_search bgd id obsEng bgd.m_npred_names.length 0 = none) :
    npred_search (bgd.push_npred id obsEng obsTime v) id obsEng
      (bgd.push_npred id obsEng obsTime v).m_npred_names.length 0 = some v := by
  have hlen : (bgd.push_npred id obsEng obsTime v).m_npred_names.length =
      bgd.m_npred_names.length + 1 := by simp [push_npred]
  rw [hlen]
  have hl := bgd_push_npred_last bgd h id obsEng obsTime v
  have hn : npred_search (bgd.push_npred id obsEng obsTime v) id obsEng
      bgd.m_npred_names.length 0 = none := by
    rw [bgd_npred_search_congr bgd (bgd.push_npred id obsEng obsTime v) id obsEng _ 0
      (fun j _ hj => bgd_push_npred_agrees bgd h id obsEng obsTime v j (by omega))]
    exact hs
  have he := bgd_npred_search_extend_none (bgd.push_npred id obsEng obsTime v) id obsEng
    bgd.m_npred_names.length 0 hn (by simpa using hl.1) (by simpa using hl.2.1)
  rw [he]
  simp only [Nat.zero_add]
  rw [hl.2.2]

theorem npred_run_hit (x : Externals) (obsEng : GEnergy) (obsTime : GTime)
    (obs : GObservation) (bgd : GCTAModelCubeBackground) (spectral : GModelSpectral)
    (temporal : GModelTemporal) (hsp : bgd.m_spectral = some spectral)
    (htp : bgd.m_temporal = some temporal) (v : ℚ)
    (hs : npred_search bgd (obs.instrument ++ "::" ++ obs.id) obsEng
      bgd.m_npred_names.length 0 = some v) :
    npred x obsEng obsTime obs bgd =
      ⟨.ok (v * spectral.eval obsEng obsTime * temporal.eval obsTime * obs.deadc obsTime),
        bgd, [Call.deadc obsTime]⟩ := by
  simp [npred, Eval.seq, hs, hsp, htp]

theorem npred_run_miss (x : Externals) (obsEng : GEnergy) (obsTime : GTime)
    (cta : GCTAObservation) (cube : GCTACubeBackground)
    (hcube : cta.cube_background = some cube)
    (bgd : GCTAModelCubeBackground) (spectral : GModelSpectral)
    (temporal : GModelTemporal) (hsp : bgd.m_spectral = some spectral)
    (htp : bgd.m_temporal = some temporal)
    (hs : npred_search bgd (cta.instrument ++ "::" ++ cta.id) obsEng
      bgd.m_npred_names.length 0 = none) :
    npred x obsEng obsTime (.cta cta) bgd =
      ⟨.ok (cube.integral (x.log10TeV obsEng) * spectral.eval obsEng obsTime *
          temporal.eval obsTime * cta.deadc obsTime),
        bgd.push_npred (cta.instrument ++ "::" ++ cta.id) obsEng obsTime
          (cube.integral (x.log10TeV obsEng)),
        [Call.bgd_integral (x.log10TeV obsEng), Call.deadc obsTime]⟩ := by
  simp [npred, Eval.seq, GObservation.instrument, GObservation.id, GObservation.deadc, hs, hsp,
    htp, hcube, valid_model, push_npred]

theorem npred_keeps_state (x : Externals) (obsEng : GEnergy) (obsTime : GTime)
    (obs : GObservation) (bgd : GCTAModelCubeBackground) (h : bgd.cache_aligned) :
    (npred x obsEng obsTime obs bgd).self.cache_aligned ∧
    (npred x obsEng obsTime obs bgd).self.m_spectral = bgd.m_spectral ∧
    (npred x obsEng obsTime obs bgd).self.m_temporal = bgd.m_temporal ∧
    (∀ id e v, npred_search bgd id e bgd.m_npred_names.length 0 = some v →
      npred_search (npred x obsEng obsTime obs bgd).self id e
        (npred x obsEng obsTime obs bgd).self.m_npred_names.length 0 = some v) := by
  rcases npred_self x obsEng obsTime obs bgd with hk | ⟨_, w, hw⟩
  · rw [hk]
    exact ⟨h, rfl, rfl, fun _ _ _ hs => hs⟩
  · rw [hw]
    refine ⟨?_, rfl, rfl, fun id e v hs => bgd_npred_search_push_of_some bgd h id e v hs _ _ _ _⟩
    obtain ⟨h1, h2, h3⟩ := h
    unfold cache_aligned push_npred
    simp [h1, h2, h3]

theorem after_npred_calls_keeps_state (x : Externals) (calls : List NpredArgs) :
    ∀ bgd : GCTAModelCubeBackground, bgd.cache_aligned →
      (after_npred_calls x calls bgd).cache_aligned ∧
      (after_npred_calls x calls bgd).m_spectral = bgd.m_spectral ∧
      (after_npred_calls x calls bgd).m_temporal = bgd.m_temporal ∧
      (∀ id e v, npred_search bgd id e bgd.m_npred_names.length 0 = some v →
        npred_search (after_npred_calls x calls bgd) id e
          (after_npred_calls x calls bgd).m_npred_names.length 0 = some v) := by
  induction calls with
  | nil =>
    intro bgd h
    exact ⟨h, rfl, rfl, fun _ _ _ hs => hs⟩
  | cons a rest ih =>
    intro bgd h
    obtain ⟨k1, k2, k3, k4⟩ := npred_keeps_state x a.obsEng a.obsTime a.obs bgd h
    obtain ⟨i1, i2, i3, i4⟩ := ih _ k1
    exact ⟨i1, i2.trans k2, i3.trans k3, fun id e v hs => i4 id e v (k4 id e v hs)⟩

/-- C13, as stated, fails: the cache is searched by instrument + "::" + id and energy
alone.  On the model with an empty cache the call for `demo_obs_cube_other` misses and
returns I * 5 * 7 * (1/2) with I = 2001/1000 the integral of its own cube; after a call
for `demo_obs_cube`, which has the same instrument and id, the same call hits and
returns 1001/1000 * 5 * 7 * (1/2), the integral of the cube of the other observation
times the factors: neither I times the factors nor the value of the miss. -/
theorem cube_npred_counterexample :
    (npred demo_x ⟨1000⟩ ⟨0⟩ (.cta demo_obs_cube_other) demo_bgd).result =
      .ok (2001 / 1000 * 5 * 7 * (1 / 2)) ∧
    (npred demo_x ⟨1000⟩ ⟨0⟩ (.cta demo_obs_cube_other)
        (npred demo_x ⟨1000⟩ ⟨0⟩ (.cta demo_obs_cube) demo_bgd).self).result =
      .ok (1001 / 1000 * 5 * 7 * (1 / 2)) ∧
    (npred demo_x ⟨1000⟩ ⟨0⟩ (.cta demo_obs_cube_other)
        (npred demo_x ⟨1000⟩ ⟨0⟩ (.cta demo_obs_cube) demo_bgd).self).result ≠
      (npred demo_x ⟨1000⟩ ⟨0⟩ (.cta demo_obs_cube_other) demo_bgd).result := by
  have hmiss := npred_run_miss demo_x ⟨1000⟩ ⟨0⟩ demo_obs_cube_other ⟨fun logE => logE + 2⟩ rfl
    demo_bgd ⟨fun _ _ => 5, []⟩ ⟨fun _ => 7⟩ rfl rfl rfl
  have hfirst := npred_run_miss demo_x ⟨1000⟩ ⟨0⟩ demo_obs_cube demo_cube rfl
    demo_bgd ⟨fun _ _ => 5, []⟩ ⟨fun _ => 7⟩ rfl rfl rfl
  have hstored := bgd_npred_search_push_of_none demo_bgd ⟨rfl, rfl, rfl⟩
    (demo_obs_cube.instrument ++ "::" ++ demo_obs_cube.id) ⟨1000⟩ ⟨0⟩
    (demo_cube.integral (demo_x.log10TeV ⟨1000⟩)) rfl
  have hhit := npred_run_hit demo_x ⟨1000⟩ ⟨0⟩ (.cta demo_obs_cube_other)
    (demo_bgd.push_npred (demo_obs_cube.instrument ++ "::" ++ demo_obs_cube.id) ⟨1000⟩ ⟨0⟩
      (demo_cube.integral (demo_x.log10TeV ⟨1000⟩)))
    ⟨fun _ _ => 5, []⟩ ⟨fun _ => 7⟩ rfl rfl _ hstored
  rw [hfirst, hhit, hmiss]
  norm_num [demo_x, demo_cube, demo_obs_cube_other, GObservation.deadc]

/-- C13 (amended): for a valid cube background model (spectral and temporal component
present, cache vectors aligned) and a CTA observation with a cube response, `npred` on
a cache miss returns I * spectral.eval(obsEng, obsTime) * temporal.eval(obsTime) *
obs.deadc(obsTime), with I the background cube integral at log10(obsEng/TeV), and
stores only I under the identity instrument + "::" + id; on a cache hit it returns the
value stored under that identity and energy times the same three factors, applied
after retrieval, and leaves the cache as it is; so a call with the same energy and
observation that follows a miss, after any calls in between, hits and returns I times
the factors, which for the same time is the value of the miss. -/
theorem cube_npred_value (x : Externals) (bgd : GCTAModelCubeBackground)
    (haligned : bgd.cache_aligned) (spectral : GModelSpectral) (temporal : GModelTemporal)
    (hsp : bgd.m_spectral = some spectral) (htp : bgd.m_temporal = some temporal)
    (obsEng : GEnergy) (obsTime : GTime) (cta : GCTAObservation) (cube : GCTACubeBackground)
    (hcube : cta.cube_background = some cube) :
    (npred_search bgd (cta.instrument ++ "::" ++ cta.id) obsEng bgd.m_npred_names.length 0 =
        none →
      npred x obsEng obsTime (.cta cta) bgd =
        ⟨.ok (cube.integral (x.log10TeV obsEng) * spectral.eval obsEng obsTime *
            temporal.eval obsTime * cta.deadc obsTime),
          bgd.push_npred (cta.instrument ++ "::" ++ cta.id) obsEng obsTime
            (cube.integral (x.log10TeV obsEng)),
          [Call.bgd_integral (x.log10TeV obsEng), Call.deadc obsTime]⟩ ∧
      (∀ (between : List NpredArgs) (obsTime2 : GTime),
        npred x obsEng obsTime2 (.cta cta)
            (after_npred_calls x between (npred x obsEng obsTime (.cta cta) bgd).self) =
          ⟨.ok (cube.integral (x.log10TeV obsEng) * spectral.eval obsEng obsTime2 *
              temporal.eval obsTime2 * cta.deadc obsTime2),
            after_npred_calls x between (npred x obsEng obsTime (.cta cta) bgd).self,
            [Call.deadc obsTime2]⟩) ∧
      (∀ between : List NpredArgs,
        (npred x obsEng obsTime (.cta cta)
            (after_npred_calls x between (npred x obsEng obsTime (.cta cta) bgd).self)).result =
          (npred x obsEng obsTime (.cta cta) bgd).result)) ∧
    (∀ v, npred_search bgd (cta.instrument ++ "::" ++ cta.id) obsEng
        bgd.m_npred_names.length 0 = some v →
      npred x obsEng obsTime (.cta cta) bgd =
        ⟨.ok (v * spectral.eval obsEng obsTime * temporal.eval obsTime * cta.deadc obsTime),
          bgd, [Call.deadc obsTime]⟩) := by
  constructor
  · intro hs
    have hrun := npred_run_miss x obsEng obsTime cta cube hcube bgd spectral temporal hsp htp hs
    have hlater : ∀ (between : List NpredArgs) (obsTime2 : GTime),
        npred x obsEng obsTime2 (.cta cta)
            (after_npred_calls x between (npred x obsEng obsTime (.cta cta) bgd).self) =
          ⟨.ok (cube.integral (x.log10TeV obsEng) * spectral.eval obsEng obsTime2 *
              temporal.eval obsTime2 * cta.deadc obsTime2),
            after_npred_calls x between (npred x obsEng obsTime (.cta cta) bgd).self,
            [Call.deadc obsTime2]⟩ := by
      intro between obsTime2
      obtain ⟨k1, k2, k3, _⟩ := npred_keeps_state x obsEng obsTime (.cta cta) bgd haligned
      obtain ⟨_, i2, i3, i4⟩ := after_npred_calls_keeps_state x between _ k1
      have hfirst : npred_search (npred x obsEng obsTime (.cta cta) bgd).self
          (cta.instrument ++ "::" ++ cta.id) obsEng
          (npred x obsEng obsTime (.cta cta) bgd).self.m_npred_names.length 0 =
          some (cube.integral (x.log10TeV obsEng)) := by
        rw [hrun]
        exact bgd_npred_search_push_of_none bgd haligned _ obsEng obsTime _ hs
      exact npred_run_hit x obsEng obsTime2 (.cta cta) _ spectral temporal
        (by rw [i2, k2, hsp]) (by rw [i3, k3, htp]) _ (i4 _ _ _ hfirst)
    refine ⟨hrun, hlater, ?_⟩
    intro between
    rw [hlater between obsTime, hrun]
  · intro v hs
    exact npred_run_hit x obsEng obsTime (.cta cta) bgd spectral temporal hsp htp v hs

theorem cube_npred_value_witness :
    npred demo_x ⟨1000⟩ ⟨0⟩ (.cta demo_obs_cube) demo_bgd =
      ⟨.ok (demo_cube.integral (demo_x.log10TeV ⟨1000⟩) * 5 * 7 * (1 / 2)),
        demo_bgd.push_npred ("CTA" ++ "::" ++ "0001") ⟨1000⟩ ⟨0⟩
          (demo_cube.integral (demo_x.log10TeV ⟨1000⟩)),
        [Call.bgd_integral (demo_x.log10TeV ⟨1000⟩), Call.deadc ⟨0⟩]⟩ ∧
    npred demo_x ⟨1000⟩ ⟨3⟩ (.cta demo_obs_cube)
        (npred demo_x ⟨1000⟩ ⟨0⟩ (.cta demo_obs_cube) demo_bgd).self =
      ⟨.ok (demo_cube.integral (demo_x.log10TeV ⟨1000⟩) * 5 * 7 * (1 / 2)),
        (npred demo_x ⟨1000⟩ ⟨0⟩ (.cta demo_obs_cube) demo_bgd).self,
        [Call.deadc ⟨3⟩]⟩ :=
  have h := (cube_npred_value demo_x demo_bgd ⟨rfl, rfl, rfl⟩ ⟨fun _ _ => 5, []⟩ ⟨fun _ => 7⟩
    rfl rfl ⟨1000⟩ ⟨0⟩ demo_obs_cube demo_cube rfl).1 rfl
  ⟨h.1, h.2.1 [] ⟨3⟩⟩

end GCTAModelCubeBackground

namespace GCTAResponseIrf

/-! ## Monte Carlo simulation -/

theorem mc_run_undetected (x : Externals) (y : Samplers) (rsp : GCTAResponseIrf) (area : ℚ)
    (photon : GPhoton) (obs : GCTAObservation) (ran : GRan) (a : GCTAAeff)
    (haeff : rsp.m_aeff = some a)
    (hu : ¬ (ran.draws ran.pos ≤ photon_aeff x a photon obs / area ∧
      (obs.deadc photon.time ≥ 1 ∨ ran.draws (ran.pos + 1) ≤ obs.deadc photon.time))) :
    ∃ ran2, (mc x y area photon obs ran rsp).result = .ok (none, ran2) := by
  unfold photon_aeff photon_theta at hu
  by_cases hw : a.eval (x.log10TeV photon.energy)
      (x.dist obs.pointing.dir photon.dir) 0 obs.pointing.zenith obs.pointing.azimuth / area > 1
  all_goals
    by_cases h1 : ran.draws ran.pos ≤ a.eval (x.log10TeV photon.energy)
        (x.dist obs.pointing.dir photon.dir) 0 obs.pointing.zenith obs.pointing.azimuth / area
    · have h2 : ¬ obs.deadc photon.time ≥ 1 := fun h => hu ⟨h1, Or.inl h⟩
      have h3 : ¬ ran.draws (ran.pos + 1) ≤ obs.deadc photon.time := fun h => hu ⟨h1, Or.inr h⟩
      refine ⟨ran.uniform.2.uniform.2, ?_⟩
      simp [mc, Eval.seq, run_aeff rsp a haeff, GRan.uniform, h1, h2, h3, hw]
    · refine ⟨ran.uniform.2, ?_⟩
      simp [mc, Eval.seq, run_aeff rsp a haeff, GRan.uniform, h1, hw]

theorem mc_run_detected (x : Externals) (y : Samplers) (rsp : GCTAResponseIrf) (area : ℚ)
    (photon : GPhoton) (obs : GCTAObservation) (ran : GRan) (a : GCTAAeff) (p : GCTAPsf)
    (haeff : rsp.m_aeff = some a) (hpsf : rsp.m_psf = some p)
    (h1 : ran.draws ran.pos ≤ photon_aeff x a photon obs / area)
    (h2 : obs.deadc photon.time ≥ 1 ∨ ran.draws (ran.pos + 1) ≤ obs.deadc photon.time) :
    (rsp.use_edisp = false →
      (mc x y area photon obs ran rsp).result =
        .ok (some ⟨mc_direction x y p photon obs ran, photon.energy, photon.time⟩,
          (mc_psf_sample x y p photon obs ran).2.uniform.2)) ∧
    (∀ e, rsp.use_edisp = true → rsp.m_edisp = some e →
      (mc x y area photon obs ran rsp).result =
        .ok (some ⟨mc_direction x y p photon obs ran,
            (mc_edisp_sample x y p e photon obs ran).1, photon.time⟩,
          (mc_edisp_sample x y p e photon obs ran).2)) := by
  unfold mc_edisp_sample mc_direction mc_psf_sample mc_ran_alive
  unfold photon_aeff photon_theta at *
  by_cases hw : a.eval (x.log10TeV photon.energy)
      (x.dist obs.pointing.dir photon.dir) 0 obs.pointing.zenith obs.pointing.azimuth / area > 1
  all_goals
    by_cases hd : obs.deadc photon.time ≥ 1
    · constructor
      · intro hu
        simp [mc, Eval.seq, run_aeff rsp a haeff, GRan.uniform, h1, hd, hw, hpsf, hu]
      · intro e hu he
        simp [mc, Eval.seq, run_aeff rsp a haeff, GRan.uniform, h1, hd, hw, hpsf, hu, he]
    · have h3 : ran.draws (ran.pos + 1) ≤ obs.deadc photon.time := by
        rcases h2 with h2 | h2
        · exact absurd h2 hd
        · exact h2
      constructor
      · intro hu
        simp [mc, Eval.seq, run_aeff rsp a haeff, GRan.uniform, h1, hd, hw, hpsf, hu, h3]
      · intro e hu he
        simp [mc, Eval.seq, run_aeff rsp a haeff, GRan.uniform, h1, hd, hw, hpsf, hu, he, h3]

set_option maxHeartbeats 1000000 in
theorem mc_calls_warning (x : Externals) (y : Samplers) (rsp : GCTAResponseIrf) (area : ℚ)
    (photon : GPhoton) (obs : GCTAObservation) (ran : GRan) (a : GCTAAeff) (p : GCTAPsf)
    (haeff : rsp.m_aeff = some a) (hpsf : rsp.m_psf = some p) :
    Call.warning G_MC (msg_mc_warning y (photon_aeff x a photon obs) area photon.energy) ∈
        (mc x y area photon obs ran rsp).calls ↔
      photon_aeff x a photon obs / area > 1 := by
  unfold photon_aeff photon_theta
  by_cases hw : a.eval (x.log10TeV photon.energy)
      (x.dist obs.pointing.dir photon.dir) 0 obs.pointing.zenith obs.pointing.azimuth / area > 1
  all_goals
    by_cases h1 : ran.draws ran.pos ≤ a.eval (x.log10TeV photon.energy)
        (x.dist obs.pointing.dir photon.dir) 0 obs.pointing.zenith obs.pointing.azimuth / area
    · by_cases hd : obs.deadc photon.time ≥ 1
      · cases hu : rsp.use_edisp
        · simp [mc, Eval.seq, run_aeff rsp a haeff, GRan.uniform, h1, hd, hw, hpsf, hu]
        · cases he : rsp.m_edisp <;>
            simp [mc, Eval.seq, run_aeff rsp a haeff, GRan.uniform, h1, hd, hw, hpsf, hu, he]
      · by_cases h3 : ran.draws (ran.pos + 1) ≤ obs.deadc photon.time
        · cases hu : rsp.use_edisp
          · simp [mc, Eval.seq, run_aeff rsp a haeff, GRan.uniform, h1, hd, hw, hpsf, hu, h3]
          · cases he : rsp.m_edisp <;>
              simp [mc, Eval.seq, run_aeff rsp a haeff, GRan.uniform, h1, hd, hw, hpsf, hu, he,
                h3]
        · simp [mc, Eval.seq, run_aeff rsp a haeff, GRan.uniform, h1, hd, hw, h3]
    · simp [mc, Eval.seq, run_aeff rsp a haeff, GRan.uniform, h1, hw]

/-- C14: with the effective area and the PSF available and a simulation area that is
not zero, `mc` returns a result, and the result is an event if and only if the first
uniform variate u1 satisfies u1 <= aeff/area and either deadc(photon time) >= 1 or the
next variate u2 satisfies u2 <= deadc; otherwise the result is no event.  The warning,
with the effective area, the simulation area and the photon energy in its text, is
issued exactly when aeff/area > 1; the call then still returns, and the detection test
holds for every u1 <= 1. -/
theorem mc_detection (x : Externals) (y : Samplers) (rsp : GCTAResponseIrf) (area : ℚ)
    (photon : GPhoton) (obs : GCTAObservation) (ran : GRan) (a : GCTAAeff) (p : GCTAPsf)
    (haeff : rsp.m_aeff = some a) (hpsf : rsp.m_psf = some p) (_harea : area ≠ 0) :
    (∃ out, (mc x y area photon obs ran rsp).result = .ok out ∧
      (out.1.isSome = true ↔
        (ran.draws ran.pos ≤ photon_aeff x a photon obs / area ∧
          (obs.deadc photon.time ≥ 1 ∨
            ran.draws (ran.pos + 1) ≤ obs.deadc photon.time)))) ∧
    (Call.warning G_MC (msg_mc_warning y (photon_aeff x a photon obs) area photon.energy) ∈
        (mc x y area photon obs ran rsp).calls ↔
      photon_aeff x a photon obs / area > 1) ∧
    (photon_aeff x a photon obs / area > 1 → ran.draws ran.pos ≤ 1 →
      ran.draws ran.pos ≤ photon_aeff x a photon obs / area) := by
  refine ⟨?_, mc_calls_warning x y rsp area photon obs ran a p haeff hpsf, ?_⟩
  · by_cases hdet : ran.draws ran.pos ≤ photon_aeff x a photon obs / area ∧
        (obs.deadc photon.time ≥ 1 ∨ ran.draws (ran.pos + 1) ≤ obs.deadc photon.time)
    · have hrun := mc_run_detected x y rsp area photon obs ran a p haeff hpsf hdet.1 hdet.2
      cases hu : rsp.use_edisp with
      | false =>
        exact ⟨_, hrun.1 hu, by simp [hdet]⟩
      | true =>
        have hsome : ∃ e, rsp.m_edisp = some e := by
          cases he : rsp.m_edisp with
          | none => simp [use_edisp, he] at hu
          | some e => exact ⟨e, rfl⟩
        obtain ⟨e, he⟩ := hsome
        exact ⟨_, hrun.2 e hu he, by simp [hdet]⟩
    · obtain ⟨ran2, hrun⟩ := mc_run_undetected x y rsp area photon obs ran a haeff hdet
      exact ⟨_, hrun, by simp [hdet]⟩
  · intro hw hu1
    exact le_trans hu1 (le_of_lt hw)

theorem mc_detection_witness :
    ∃ out, (mc demo_x demo_y 8 demo_photon_near demo_obs demo_ran demo_rsp).result = .ok out ∧
      out.1.isSome = true := by
  obtain ⟨out, h1, h2⟩ := (mc_detection demo_x demo_y demo_rsp 8 demo_photon_near demo_obs
    demo_ran demo_aeff demo_psf rfl rfl (by norm_num)).1
  refine ⟨out, h1, h2.2 ?_⟩
  norm_num [photon_aeff, demo_aeff, demo_ran, demo_obs]

/-- C15: whenever `mc` returns an event, the time of the event is the true arrival time
of the photon; its energy is the true energy of the photon when energy dispersion is
not in use, and the value returned by the sampler of the energy dispersion component
when it is in use; and its direction is the photon direction rotated by the position
angle 360 * u and the offset sampled from the PSF (converted to degrees), expressed as
instrument direction of the pointing. -/
theorem mc_event (x : Externals) (y : Samplers) (rsp : GCTAResponseIrf) (area : ℚ)
    (photon : GPhoton) (obs : GCTAObservation) (ran : GRan) (a : GCTAAeff) (p : GCTAPsf)
    (haeff : rsp.m_aeff = some a) (hpsf : rsp.m_psf = some p)
    (ev : GCTAEventAtom) (ran2 : GRan)
    (hev : (mc x y area photon obs ran rsp).result = .ok (some ev, ran2)) :
    ev.m_time = photon.time ∧
    (rsp.use_edisp = false → ev.m_energy = photon.energy) ∧
    (∀ e, rsp.use_edisp = true → rsp.m_edisp = some e →
      ev.m_energy = (mc_edisp_sample x y p e photon obs ran).1) ∧
    ev.m_dir = mc_direction x y p photon obs ran := by
  by_cases hdet : ran.draws ran.pos ≤ photon_aeff x a photon obs / area ∧
      (obs.deadc photon.time ≥ 1 ∨ ran.draws (ran.pos + 1) ≤ obs.deadc photon.time)
  · have hrun := mc_run_detected x y rsp area photon obs ran a p haeff hpsf hdet.1 hdet.2
    cases hu : rsp.use_edisp with
    | false =>
      rw [hrun.1 hu] at hev
      simp only [Except.ok.injEq, Prod.mk.injEq, Option.some.injEq] at hev
      rw [← hev.1]
      exact ⟨rfl, fun _ => rfl, fun e h => by simp at h, rfl⟩
    | true =>
      have hsome : ∃ e, rsp.m_edisp = some e := by
        cases he : rsp.m_edisp with
        | none => simp [use_edisp, he] at hu
        | some e => exact ⟨e, rfl⟩
      obtain ⟨e, he⟩ := hsome
      rw [hrun.2 e hu he] at hev
      simp only [Except.ok.injEq, Prod.mk.injEq, Option.some.injEq] at hev
      rw [← hev.1]
      refine ⟨rfl, fun h => by simp at h, ?_, rfl⟩
      intro e2 _ he2
      rw [he] at he2
      simp only [Option.some.injEq] at he2
      rw [he2]
  · obtain ⟨ran3, hrun⟩ := mc_run_undetected x y rsp area photon obs ran a haeff hdet
    rw [hrun] at hev
    simp at hev

theorem mc_event_witness :
    ∃ ev ran2, (mc demo_x demo_y 8 demo_photon_near demo_obs demo_ran demo_rsp).result =
        .ok (some ev, ran2) ∧
      ev.m_time = demo_photon_near.time ∧
      ev.m_dir = mc_direction demo_x demo_y demo_psf demo_photon_near demo_obs demo_ran := by
  have hrun := (mc_run_detected demo_x demo_y demo_rsp 8 demo_photon_near demo_obs demo_ran
    demo_aeff demo_psf rfl rfl
    (by norm_num [photon_aeff, demo_aeff, demo_ran])
    (by norm_num [demo_ran, demo_obs])).2 demo_edisp rfl rfl
  have h := mc_event demo_x demo_y demo_rsp 8 demo_photon_near demo_obs demo_ran demo_aeff
    demo_psf rfl rfl _ _ hrun
  exact ⟨_, _, hrun, h.1, h.2.2.2⟩

/-! ## Missing response components -/

/-- C16, as stated, fails: with the effective area absent and a photon further from
the measured direction than delta_max, `irf` does not fail; it returns 0 without ever
asking for the effective area. -/
theorem irf_missing_component_counterexample :
    demo_rsp_no_aeff.m_aeff = none ∧
    irf demo_x demo_event demo_photon_far demo_obs demo_rsp_no_aeff =
      ⟨.ok 0, demo_rsp_no_aeff,
        [Call.psf_delta_max (photon_theta demo_x demo_photon_far demo_obs) 0
          demo_obs.pointing.zenith demo_obs.pointing.azimuth
          (demo_x.log10TeV demo_photon_far.energy)]⟩ :=
  ⟨rfl, irf_run_pruned demo_x demo_rsp_no_aeff demo_event demo_photon_far demo_obs demo_psf rfl
    (by norm_num [photon_delta, photon_theta, demo_x, demo_event, demo_photon_far, demo_psf])⟩

/-- C16 (amended): if the PSF is absent, `irf` always fails with `invalid_value`
carrying the origin of `psf_delta_max` and the message on the missing point spread
function; if the PSF is present and the effective area is absent, `irf` fails with
`invalid_value` carrying the origin of `aeff` and the message on the missing effective
area whenever delta <= delta_max, and returns 0 for delta > delta_max; in no case is
the object changed.  `aeff`, `psf` and `psf_delta_max` throw `invalid_value` exactly
when their component is absent. -/
theorem irf_missing_component (x : Externals) (rsp : GCTAResponseIrf) (event : GEvent)
    (photon : GPhoton) (obs : GCTAObservation)
    (delta theta phi zenith azimuth srcLogEng : ℚ) :
    (rsp.m_psf = none →
      irf x event photon obs rsp =
        ⟨.error (.invalid_value G_PSF_DELTA_MAX msg_no_psf), rsp,
          [Call.psf_delta_max (photon_theta x photon obs) 0 obs.pointing.zenith
            obs.pointing.azimuth (x.log10TeV photon.energy)]⟩) ∧
    (∀ p, rsp.m_psf = some p → rsp.m_aeff = none →
      (photon_delta x event photon ≤
          p.delta_max (x.log10TeV photon.energy) (photon_theta x photon obs) 0
            obs.pointing.zenith obs.pointing.azimuth →
        irf x event photon obs rsp =
          ⟨.error (.invalid_value G_AEFF msg_no_aeff), rsp,
            [Call.psf_delta_max (photon_theta x photon obs) 0 obs.pointing.zenith
              obs.pointing.azimuth (x.log10TeV photon.energy),
             Call.aeff (photon_theta x photon obs) 0 obs.pointing.zenith
              obs.pointing.azimuth (x.log10TeV photon.energy)]⟩) ∧
      (photon_delta x event photon >
          p.delta_max (x.log10TeV photon.energy) (photon_theta x photon obs) 0
            obs.pointing.zenith obs.pointing.azimuth →
        (irf x event photon obs rsp).result = .ok 0)) ∧
    ((aeff theta phi zenith azimuth srcLogEng rsp).result =
        .error (.invalid_value G_AEFF msg_no_aeff) ↔ rsp.m_aeff = none) ∧
    ((∃ v, (aeff theta phi zenith azimuth srcLogEng rsp).result = .ok v) ↔
      rsp.m_aeff ≠ none) ∧
    ((psf delta theta phi zenith azimuth srcLogEng rsp).result =
        .error (.invalid_value G_PSF msg_no_psf) ↔ rsp.m_psf = none) ∧
    ((∃ v, (psf delta theta phi zenith azimuth srcLogEng rsp).result = .ok v) ↔
      rsp.m_psf ≠ none) ∧
    ((psf_delta_max theta phi zenith azimuth srcLogEng rsp).result =
        .error (.invalid_value G_PSF_DELTA_MAX msg_no_psf) ↔ rsp.m_psf = none) ∧
    ((∃ v, (psf_delta_max theta phi zenith azimuth srcLogEng rsp).result = .ok v) ↔
      rsp.m_psf ≠ none) := by
  refine ⟨?_, ?_, ?_, ?_, ?_, ?_, ?_, ?_⟩
  · intro hp
    unfold photon_theta
    simp [irf, Eval.seq, psf_delta_max, hp]
  · intro p hp ha
    constructor
    · intro hdelta
      unfold photon_delta photon_theta at *
      simp [irf, Eval.seq, run_psf_delta_max rsp p hp, hdelta, aeff, ha]
    · intro hprune
      rw [irf_run_pruned x rsp event photon obs p hp hprune]
  · cases ha : rsp.m_aeff <;> simp [aeff, Eval.seq, ha]
  · cases ha : rsp.m_aeff <;> simp [aeff, Eval.seq, ha]
  · cases hp : rsp.m_psf <;> simp [psf, Eval.seq, hp]
  · cases hp : rsp.m_psf <;> simp [psf, Eval.seq, hp]
  · cases hp : rsp.m_psf <;> simp [psf_delta_max, Eval.seq, hp]
  · cases hp : rsp.m_psf <;> simp [psf_delta_max, Eval.seq, hp]

theorem irf_missing_component_witness :
    irf demo_x demo_event demo_photon_near demo_obs demo_rsp_no_aeff =
      ⟨.error (.invalid_value G_AEFF msg_no_aeff), demo_rsp_no_aeff,
        [Call.psf_delta_max (photon_theta demo_x demo_photon_near demo_obs) 0
          demo_obs.pointing.zenith demo_obs.pointing.azimuth
          (demo_x.log10TeV demo_photon_near.energy),
         Call.aeff (photon_theta demo_x demo_photon_near demo_obs) 0
          demo_obs.pointing.zenith demo_obs.pointing.azimuth
          (demo_x.log10TeV demo_photon_near.energy)]⟩ :=
  ((irf_missing_component demo_x demo_rsp_no_aeff demo_event demo_photon_near demo_obs
    0 0 0 0 0 0).2.1 demo_psf rfl rfl).1
    (by norm_num [photon_delta, photon_theta, demo_x, demo_event, demo_photon_near, demo_psf])

/-! ## Rotation of the configuration in `irf_radial` -/

end GCTAResponseIrf

/-! ## Effective area from the response table -/

/-- C18: the effective area operator of `GCTAAeff2D` is never negative: it returns
max(0, v) for the value v that the response table interpolates, at index 0 for true
energies and at index 1 for reconstructed energies, whatever phi, zenith and azimuth
are. -/
theorem GCTAAeff2D.eval_nonnegative (a : GCTAAeff2D) (logE theta phi zenith azimuth : ℚ)
    (etrue : Bool) :
    0 ≤ a.eval logE theta phi zenith azimuth etrue ∧
    a.eval logE theta phi zenith azimuth true = max 0 (a.m_aeff 0 logE theta) ∧
    a.eval logE theta phi zenith azimuth false = max 0 (a.m_aeff 1 logE theta) ∧
    ∀ phi2 zenith2 azimuth2 : ℚ,
      a.eval logE theta phi2 zenith2 azimuth2 etrue =
        a.eval logE theta phi zenith azimuth etrue := by
  refine ⟨?_, ?_, ?_, fun _ _ _ => rfl⟩
  · unfold GCTAAeff2D.eval
    cases etrue <;> simp only [Bool.false_eq_true, if_true, if_false] <;>
      split_ifs with h <;> first | exact le_refl 0 | exact not_lt.mp h
  · unfold GCTAAeff2D.eval
    simp only [if_true]
    split_ifs with h
    · exact (max_eq_left h.le).symm
    · exact (max_eq_right (not_lt.mp h)).symm
  · unfold GCTAAeff2D.eval
    simp only [Bool.false_eq_true, if_false]
    split_ifs with h
    · exact (max_eq_left h.le).symm
    · exact (max_eq_right (not_lt.mp h)).symm

/-! ## Value of an XML attribute -/

namespace GXmlAttribute

theorem squote_ne_dquote : squote ≠ dquote := by decide

theorem count_hyphens_eq (v : List Char) (acc : Nat × Nat) :
    count_hyphens v acc = (acc.1 + v.count squote, acc.2 + v.count dquote) := by
  induction v generalizing acc with
  | nil => simp [count_hyphens]
  | cons c rest ih =>
    have hne := squote_ne_dquote
    simp only [count_hyphens, ih, List.count_cons]
    by_cases h1 : c = squote <;> by_cases h2 : c = dquote <;>
      simp [h1, h2, hne, hne.symm, Nat.add_comm, Nat.add_left_comm]

theorem has_hyphens_eq (c : Char) (v : List Char) :
    (decide (v.length ≥ 2) && decide (v[0]? = some c) && decide (v[v.length - 1]? = some c)) =
      decide (enclosed_in c v) := by
  simp [enclosed_in, List.head?_eq_getElem?, List.getLast?_eq_getElem?, Bool.decide_and,
    Bool.and_assoc]

theorem set_value_run (attr : GXmlAttribute) (v : List Char) :
    set_value v attr =
      (if enclosed_in squote v then
        if v.count squote > 2 ∧ v.count dquote = 0 then
          ⟨.ok (), { attr with m_value := [dquote] ++ v ++ [dquote] }, []⟩
        else if v.count squote > 2 ∧ v.count dquote > 0 then
          ⟨.error (.xml_attribute_value G_VALUE v), attr, []⟩
        else ⟨.ok (), { attr with m_value := v }, []⟩
      else if enclosed_in dquote v then
        if v.count squote = 0 ∧ v.count dquote > 2 then
          ⟨.ok (), { attr with m_value := [squote] ++ v ++ [squote] }, []⟩
        else if v.count squote > 0 ∧ v.count dquote > 2 then
          ⟨.error (.xml_attribute_value G_VALUE v), attr, []⟩
        else ⟨.ok (), { attr with m_value := v }, []⟩
      else
        if v.count dquote = 0 then
          ⟨.ok (), { attr with m_value := [dquote] ++ v ++ [dquote] }, []⟩
        else if v.count squote = 0 then
          ⟨.ok (), { attr with m_value := [squote] ++ v ++ [squote] }, []⟩
        else ⟨.error (.xml_attribute_value G_VALUE v), attr, []⟩ :
        Outcome GXmlAttribute Unit) := by
  simp only [set_value, has_hyphens_eq, count_hyphens_eq, Eval.run_bind, Eval.seq]
  split_ifs <;> simp_all [Eval.seq, List.count_eq_zero]

theorem get_value_wrapped (attr : GXmlAttribute) (c : Char) (v : List Char) :
    get_value { attr with m_value := [c] ++ v ++ [c] } = v := by
  cases v with
  | nil => simp [get_value]
  | cons a rest => simp [get_value, List.take_append_eq_append_take]

theorem get_value_stored (attr : GXmlAttribute) (v : List Char) (h : 2 ≤ v.length) :
    get_value { attr with m_value := v } = v.tail.dropLast := by
  unfold get_value
  simp only []
  split_ifs with hn
  · rw [List.dropLast_eq_take, List.drop_one, List.length_tail]
    rfl
  · have h2 : v.length = 2 := by omega
    match v, h2 with
    | [a, b], _ => rfl

theorem enclosed_in_count_pos (c : Char) (v : List Char) (h : enclosed_in c v) :
    0 < v.count c := by
  rw [List.count_pos_iff]
  exact List.mem_of_mem_head? h.2.1

/-- C19: a value without single or double quote is read back unchanged after it has been
set (the empty string included), and a value enclosed in one pair of single quotes, or
of double quotes, that holds no further quote of that kind is stored as it is and read
back without its first and last character. -/
theorem value_round_trip (attr : GXmlAttribute) (v : List Char) :
    (v.count squote = 0 → v.count dquote = 0 →
      (set_value v attr).result = .ok () ∧ get_value (set_value v attr).self = v) ∧
    (∀ c : Char, c = squote ∨ c = dquote → enclosed_in c v → v.count c = 2 →
      (set_value v attr).result = .ok () ∧ (set_value v attr).self.m_value = v ∧
        get_value (set_value v attr).self = v.tail.dropLast) := by
  refine ⟨?_, ?_⟩
  · intro h1 h2
    have hA : ¬ enclosed_in squote v := fun h => by
      have := enclosed_in_count_pos squote v h
      omega
    have hB : ¬ enclosed_in dquote v := fun h => by
      have := enclosed_in_count_pos dquote v h
      omega
    rw [set_value_run, if_neg hA, if_neg hB, if_pos h2]
    exact ⟨rfl, get_value_wrapped attr dquote v⟩
  · intro c hc henc hcount
    rcases hc with hc | hc
    · subst hc
      rw [set_value_run, if_pos henc, if_neg (by omega), if_neg (by omega)]
      exact ⟨rfl, rfl, get_value_stored attr v henc.1⟩
    · subst hc
      have hA : ¬ enclosed_in squote v := fun h => by
        have h1 := h.2.1
        rw [henc.2.1] at h1
        exact squote_ne_dquote (Option.some.inj h1).symm
      rw [set_value_run, if_neg hA, if_pos henc, if_neg (by omega), if_neg (by omega)]
      exact ⟨rfl, rfl, get_value_stored attr v henc.1⟩

theorem value_round_trip_witness :
    ((set_value ['a', 'b'] demo_attr).result = .ok () ∧
      get_value (set_value ['a', 'b'] demo_attr).self = ['a', 'b']) ∧
    ((set_value [squote, 'a', dquote, 'b', squote] demo_attr).result = .ok () ∧
      (set_value [squote, 'a', dquote, 'b', squote] demo_attr).self.m_value =
        [squote, 'a', dquote, 'b', squote] ∧
      get_value (set_value [squote, 'a', dquote, 'b', squote] demo_attr).self =
        ['a', dquote, 'b']) :=
  ⟨(value_round_trip demo_attr ['a', 'b']).1 (by decide) (by decide),
    (value_round_trip demo_attr [squote, 'a', dquote, 'b', squote]).2 squote (Or.inl rfl)
      (by decide) (by decide)⟩

/-- C20: `value(v)` throws `xml_attribute_value` exactly when (A) v is enclosed in single
quotes and holds more than two single quotes and at least one double quote, or (B) v is
not so enclosed but is enclosed in double quotes and holds more than two double quotes
and at least one single quote, or (C) v is enclosed in neither and holds at least one
quote of each kind; in every other case the call succeeds, and when it throws the
attribute is left as it was. -/
theorem set_value_raises (attr : GXmlAttribute) (v : List Char) :
    ((set_value v attr).result = .error (.xml_attribute_value G_VALUE v) ↔
      (enclosed_in squote v ∧ v.count squote > 2 ∧ v.count dquote > 0) ∨
      (¬ enclosed_in squote v ∧ enclosed_in dquote v ∧
        v.count dquote > 2 ∧ v.count squote > 0) ∨
      (¬ enclosed_in squote v ∧ ¬ enclosed_in dquote v ∧
        v.count squote > 0 ∧ v.count dquote > 0)) ∧
    ((set_value v attr).result ≠ .error (.xml_attribute_value G_VALUE v) →
      (set_value v attr).result = .ok ()) ∧
    ((set_value v attr).result = .error (.xml_attribute_value G_VALUE v) →
      (set_value v attr).self = attr) := by
  rw [set_value_run]
  generalize v.count squote = q1
  generalize v.count dquote = q2
  by_cases hA : enclosed_in squote v <;> by_cases hB : enclosed_in dquote v <;>
    simp only [hA, hB, if_true, if_false] <;>
    split_ifs <;> simp_all <;> omega

theorem set_value_raises_witness :
    (set_value ['a', squote, dquote] demo_attr).result =
        .error (.xml_attribute_value G_VALUE ['a', squote, dquote]) ∧
      (set_value ['a', squote, dquote] demo_attr).self = demo_attr :=
  ⟨(set_value_raises demo_attr ['a', squote, dquote]).1.mpr
      (Or.inr (Or.inr ⟨by decide, by decide, by decide, by decide⟩)),
    (set_value_raises demo_attr ['a', squote, dquote]).2.2
      ((set_value_raises demo_attr ['a', squote, dquote]).1.mpr
        (Or.inr (Or.inr ⟨by decide, by decide, by decide, by decide⟩)))⟩

end GXmlAttribute

/-! ## Parameters of a spectral model -/

namespace GModelSpectral

theorem access_loop_found (m : GModelSpectral) (name : String) (n index : Nat) :
    access_loop m name n index < index + n →
      ∃ par, m.m_pars[access_loop m name n index]? = some par ∧ par.name = name := by
  induction n generalizing index with
  | zero => simp [access_loop]
  | succ n ih =>
    intro h
    unfold access_loop at h ⊢
    split_ifs at h ⊢ with hc
    · cases hp : m.m_pars[index]? with
      | none => simp [hp] at hc
      | some par =>
        rw [hp] at hc
        exact ⟨par, rfl, by simpa using hc⟩
    · exact ih (index + 1) (by omega)

theorem access_loop_ge (m : GModelSpectral) (name : String) (n index : Nat) :
    index ≤ access_loop m name n index ∧ access_loop m name n index ≤ index + n := by
  induction n generalizing index with
  | zero => simp [access_loop]
  | succ n ih =>
    unfold access_loop
    split_ifs
    · omega
    · have := ih (index + 1)
      omega

theorem access_loop_lowest (m : GModelSpectral) (name : String) (n index j : Nat)
    (h1 : index ≤ j) (h2 : j < access_loop m name n index) :
    (m.m_pars[j]?).map GModelPar.name ≠ some name := by
  induction n generalizing index with
  | zero =>
    simp only [access_loop] at h2
    omega
  | succ n ih =>
    unfold access_loop at h2
    split_ifs at h2 with hc
    · omega
    · rcases Nat.eq_or_lt_of_le h1 with h | h
      · rw [← h]
        exact hc
      · exact ih (index + 1) h h2

theorem has_par_loop_eq (m : GModelSpectral) (name : String) (n index : Nat) :
    has_par_loop m name n index = decide (access_loop m name n index < index + n) := by
  induction n generalizing index with
  | zero => simp [has_par_loop, access_loop]
  | succ n ih =>
    unfold has_par_loop access_loop
    split_ifs
    · simp
    · rw [ih (index + 1)]
      congr 1
      simp only [eq_iff_iff]
      omega

theorem access_loop_lt_iff (m : GModelSpectral) (name : String) :
    access_loop m name m.m_pars.length 0 < m.m_pars.length ↔
      ∃ par ∈ m.m_pars, par.name = name := by
  constructor
  · intro h
    obtain ⟨par, hp, hn⟩ := access_loop_found m name m.m_pars.length 0 (by omega)
    exact ⟨par, List.getElem?_mem hp, hn⟩
  · rintro ⟨par, hmem, hn⟩
    obtain ⟨j, hget⟩ := List.getElem?_of_mem hmem
    have hj : j < m.m_pars.length := by
      by_contra hge
      rw [List.getElem?_eq_none (by omega)] at hget
      simp at hget
    by_contra hlt
    have hlow := access_loop_lowest m name m.m_pars.length 0 j (Nat.zero_le j) (by omega)
    apply hlow
    rw [hget]
    simp [hn]

theorem access_run (m : GModelSpectral) (name : String) :
    ((∃ par ∈ m.m_pars, par.name = name) →
      ∃ par, m.access name = .ok par ∧
        m.m_pars[access_loop m name m.m_pars.length 0]? = some par ∧ par.name = name) ∧
    ((¬ ∃ par ∈ m.m_pars, par.name = name) →
      m.access name = .error (.par_not_found G_ACCESS name)) := by
  constructor
  · intro h
    have hlt := (access_loop_lt_iff m name).2 h
    obtain ⟨par, hp, hn⟩ := access_loop_found m name m.m_pars.length 0 (by omega)
    refine ⟨par, ?_, hp, hn⟩
    unfold access size
    simp only [Int.toNat_ofNat, ge_iff_le, Nat.cast_le, Int.toNat_ofNat]
    rw [if_neg (by omega), hp]
  · intro h
    have hlt := mt (access_loop_lt_iff m name).1 h
    unfold access size
    simp only [Int.toNat_ofNat, ge_iff_le, Nat.cast_le]
    rw [if_pos (by omega)]

/-- C21: `has_par(name)` is true exactly when some parameter of the container has the
name, and that is exactly when `operator[](name)` does not throw `par_not_found`; when
it succeeds, `operator[](name)` returns the parameter of the lowest index with the
name.  `at(index)` throws `out_of_range` exactly when index < 0 or index >= size(),
and returns the parameter at the index otherwise. -/
theorem parameter_access (m : GModelSpectral) (name : String) (index : Int) :
    (m.has_par name = true ↔ ∃ par ∈ m.m_pars, par.name = name) ∧
    ((∃ par ∈ m.m_pars, par.name = name) ↔
      m.access name ≠ .error (.par_not_found G_ACCESS name)) ∧
    ((∃ par ∈ m.m_pars, par.name = name) ↔ ∃ par, m.access name = .ok par) ∧
    (∀ par, m.access name = .ok par →
      ∃ i : Nat, m.m_pars[i]? = some par ∧ par.name = name ∧
        ∀ j : Nat, j < i → ∀ other, m.m_pars[j]? = some other → other.name ≠ name) ∧
    (m.«at» index = .error (.out_of_range G_AT index 0 (m.size - 1)) ↔
      (index < 0 ∨ index ≥ m.size)) ∧
    (¬ (index < 0 ∨ index ≥ m.size) →
      ∃ par, m.«at» index = .ok par ∧ m.m_pars[index.toNat]? = some par) := by
  have hrun := access_run m name
  refine ⟨?_, ?_, ?_, ?_, ?_, ?_⟩
  · unfold has_par size
    rw [Int.toNat_ofNat, has_par_loop_eq, decide_eq_true_eq, Nat.zero_add]
    exact access_loop_lt_iff m name
  · constructor
    · intro h
      obtain ⟨par, hok, _⟩ := hrun.1 h
      rw [hok]
      simp
    · intro h
      by_contra hnot
      exact h (hrun.2 hnot)
  · constructor
    · intro h
      obtain ⟨par, hok, _⟩ := hrun.1 h
      exact ⟨par, hok⟩
    · rintro ⟨par, hok⟩
      by_contra hnot
      rw [hrun.2 hnot] at hok
      simp at hok
  · intro par hok
    by_cases h : ∃ par ∈ m.m_pars, par.name = name
    · obtain ⟨par2, hok2, hget, hn⟩ := hrun.1 h
      rw [hok2] at hok
      simp only [Except.ok.injEq] at hok
      subst hok
      refine ⟨_, hget, hn, ?_⟩
      intro j hj other hother hname
      apply access_loop_lowest m name m.m_pars.length 0 j (Nat.zero_le j) hj
      rw [hother]
      simp [hname]
    · rw [hrun.2 h] at hok
      simp at hok
  · unfold «at» size
    by_cases h : index < 0 ∨ index ≥ (m.m_pars.length : Int)
    · simp [h]
    · simp only [h, if_false, iff_false]
      cases hget : m.m_pars[index.toNat]? <;> simp
  · intro h
    unfold «at»
    rw [if_neg h]
    unfold size at h
    have hlt : index.toNat < m.m_pars.length := by omega
    rw [List.getElem?_eq_getElem hlt]
    exact ⟨_, rfl, rfl⟩

theorem parameter_access_witness :
    (∃ par, demo_spectral.«at» 1 = .ok par ∧
      demo_spectral.m_pars[(1 : Int).toNat]? = some par) ∧
    (∃ i : Nat, demo_spectral.m_pars[i]? = some ⟨"Index", -2⟩ ∧
      (⟨"Index", -2⟩ : GModelPar).name = "Index" ∧
      ∀ j : Nat, j < i → ∀ other, demo_spectral.m_pars[j]? = some other →
        other.name ≠ "Index") :=
  ⟨(parameter_access demo_spectral "Index" 1).2.2.2.2.2 (by decide),
    (parameter_access demo_spectral "Index" 1).2.2.2.1 ⟨"Index", -2⟩
      (by simp [access, access_loop, size, demo_spectral])⟩

end GModelSpectral

/-! ## Random strings of the VO hub -/

namespace GVOHub

theorem getLast?_eraseIdx {α : Type} (l : List α) (i : Nat) (h : i + 1 < l.length) :
    (l.eraseIdx i).getLast? = l.getLast? := by
  induction l generalizing i with
  | nil => simp at h
  | cons a rest ih =>
    cases i with
    | zero =>
      cases rest with
      | nil => simp at h
      | cons b rest2 => simp [List.getLast?_cons_cons]
    | succ i =>
      cases rest with
      | nil => simp at h
      | cons b rest2 =>
        have h2 : i + 1 < (b :: rest2).length := by simpa using h
        have := ih i h2
        cases hrest : (b :: rest2).eraseIdx i with
        | nil =>
          have hlen := congrArg List.length hrest
          rw [List.length_eraseIdx] at hlen
          simp only [List.length_cons, List.length_nil] at hlen h2
          split_ifs at hlen
          all_goals omega
        | cons c rest3 =>
          rw [List.eraseIdx_cons_succ, hrest, List.getLast?_cons_cons, ← hrest, this,
            List.getLast?_cons_cons]

theorem alphabet_ascending : alphabet.Pairwise (fun a b => a < b) := by
  decide

theorem random_string_loop_returns (rand : Nat → Nat) (n : Nat) (hn : 1 ≤ n) (d : Nat) :
    ∀ (k : Nat) (str : List Char), str.length = n + d → str.Sublist alphabet →
      str.getLast? = some 'z' →
      ∃ s, (∀ fuel, d ≤ fuel → random_string_loop rand n fuel k str = some (.ok s)) ∧
        s.length = n ∧ s.Sublist alphabet ∧ s.getLast? = some 'z' := by
  induction d with
  | zero =>
    intro k str hlen hsub hlast
    refine ⟨str, ?_, hlen, hsub, hlast⟩
    intro fuel _
    unfold random_string_loop
    simp [hlen]
  | succ d ih =>
    intro k str hlen hsub hlast
    have hpos : rand k % (str.length - 1) < str.length - 1 :=
      Nat.mod_lt _ (by omega)
    obtain ⟨s, hs, h1, h2, h3⟩ := ih (k + 1) (str.eraseIdx (rand k % (str.length - 1)))
      (by rw [List.length_eraseIdx]; split_ifs <;> omega)
      ((List.eraseIdx_sublist _ _).trans hsub)
      (by rw [getLast?_eraseIdx _ _ (by omega)]; exact hlast)
    refine ⟨s, ?_, h1, h2, h3⟩
    intro fuel hfuel
    obtain ⟨f, rfl⟩ : ∃ f, fuel = f + 1 := ⟨fuel - 1, by omega⟩
    unfold random_string_loop
    rw [if_neg (by omega)]
    simp only []
    rw [if_neg (by omega)]
    exact hs f (by omega)

theorem random_string_loop_short (rand : Nat → Nat) (n fuel : Nat) :
    ∀ (k : Nat) (str : List Char), str.length < n →
      ∀ s, random_string_loop rand n fuel k str ≠ some (.ok s) := by
  induction fuel with
  | zero =>
    intro k str hlen s
    unfold random_string_loop
    simp [Nat.ne_of_lt hlen]
  | succ fuel ih =>
    intro k str hlen s
    unfold random_string_loop
    rw [if_neg (by omega)]
    simp only []
    split_ifs with h0
    · simp
    · apply ih
      rw [List.length_eraseIdx]
      split_ifs <;> omega

/-- C30: for 1 <= n <= 62 and every sequence of `rand()` values, `random_string(n)`
returns after at most 62 - n iterations of its loop; the string returned has exactly n
characters, which are pairwise distinct, form a subsequence of the alphabet of 62
characters, hence are in ascending order, and end with the letter z.  For n > 62 the
loop never returns a string. -/
theorem random_string_returns (rand : Nat → Nat) (n : Nat) :
    (1 ≤ n → n ≤ 62 →
      ∃ s, (∀ fuel, 62 - n ≤ fuel → random_string rand n fuel = some (.ok s)) ∧
        s.length = n ∧ s.Nodup ∧ s.Sublist alphabet ∧
        s.Pairwise (fun a b => a < b) ∧ s.getLast? = some 'z') ∧
    (62 < n → ∀ fuel s, random_string rand n fuel ≠ some (.ok s)) := by
  constructor
  · intro h1 h62
    obtain ⟨s, hs, hlen, hsub, hlast⟩ := random_string_loop_returns rand n h1 (62 - n) 0
      alphabet (by simp [alphabet]; omega) (List.Sublist.refl _) (by decide)
    have hasc := alphabet_ascending.sublist hsub
    exact ⟨s, hs, hlen, hasc.imp (fun h => ne_of_lt h), hsub, hasc, hlast⟩
  · intro h fuel s
    exact random_string_loop_short rand n fuel 0 alphabet (by simpa [alphabet] using h) s

theorem random_string_returns_witness :
    ∃ s, (∀ fuel, 62 - 15 ≤ fuel → random_string (fun k => 7 * k + 3) 15 fuel = some (.ok s)) ∧
      s.length = 15 ∧ s.Nodup ∧ s.Sublist alphabet ∧
      s.Pairwise (fun a b => a < b) ∧ s.getLast? = some 'z' :=
  (random_string_returns (fun k => 7 * k + 3) 15).1 (by decide) (by decide)

end GVOHub

/-! ## Quoting of the stored value -/

namespace GXmlAttribute

theorem enclosed_in_body (q : Char) (v : List Char) (h : enclosed_in q v) :
    ∃ body, v = q :: (body ++ [q]) := by
  obtain ⟨hlen, hhead, hlast⟩ := h
  match v, hlen, hhead, hlast with
  | a :: b :: rest, _, hhead, hlast =>
    simp only [List.head?_cons, Option.some.injEq] at hhead
    subst hhead
    rw [List.getLast?_cons_cons] at hlast
    refine ⟨(b :: rest).dropLast, ?_⟩
    rw [List.dropLast_append_getLast? _ hlast]

theorem enclosed_in_count (q : Char) (v : List Char) (h : enclosed_in q v)
    (hcount : v.count q ≤ 2) :
    ∃ body, v = q :: (body ++ [q]) ∧ q ∉ body := by
  obtain ⟨body, hv⟩ := enclosed_in_body q v h
  refine ⟨body, hv, ?_⟩
  rw [hv] at hcount
  simp only [List.count_cons_self, List.count_append, List.count_singleton_self] at hcount
  rw [← List.count_eq_zero]
  omega

theorem enclosed_in_wrapped (q : Char) (body : List Char) :
    enclosed_in q (q :: (body ++ [q])) := by
  refine ⟨by simp, rfl, ?_⟩
  rw [← List.cons_append, List.getLast?_append]
  simp

theorem set_value_stored_again (attr : GXmlAttribute) (q : Char) (body : List Char)
    (hq : q = squote ∨ q = dquote) (hbody : q ∉ body)
    (hvalue : attr.m_value = q :: (body ++ [q])) :
    set_value attr.m_value attr = ⟨.ok (), attr, []⟩ := by
  have henc : enclosed_in q attr.m_value := by
    rw [hvalue]
    exact enclosed_in_wrapped q body
  have hcount : attr.m_value.count q = 2 := by
    rw [hvalue]
    simp [List.count_eq_zero.2 hbody]
  rcases hq with hq | hq
  · subst hq
    rw [set_value_run, if_pos henc, if_neg (by omega), if_neg (by omega)]
  · subst hq
    have hA : ¬ enclosed_in squote attr.m_value := fun h => by
      have h1 := h.2.1
      rw [henc.2.1] at h1
      exact squote_ne_dquote (Option.some.inj h1).symm
    rw [set_value_run, if_neg hA, if_pos henc, if_neg (by omega), if_neg (by omega)]

/-- C28: after every successful `value(v)` the stored value is a quote character (single
or double), a body in which that quote character does not occur, and the same quote
character again; so it has length >= 2, and setting the attribute again with its own
stored value succeeds and leaves the attribute unchanged. -/
theorem stored_value_quoted (attr : GXmlAttribute) (v : List Char)
    (hok : (set_value v attr).result = .ok ()) :
    (∃ q body, (q = squote ∨ q = dquote) ∧
      (set_value v attr).self.m_value = q :: (body ++ [q]) ∧ q ∉ body) ∧
    2 ≤ (set_value v attr).self.m_value.length ∧
    (∃ q, (q = squote ∨ q = dquote) ∧
      (set_value v attr).self.m_value.head? = some q ∧
      (set_value v attr).self.m_value.getLast? = some q ∧
      (set_value v attr).self.m_value.count q = 2) ∧
    set_value (set_value v attr).self.m_value (set_value v attr).self =
      ⟨.ok (), (set_value v attr).self, []⟩ := by
  have hshape : ∃ q body, (q = squote ∨ q = dquote) ∧
      (set_value v attr).self.m_value = q :: (body ++ [q]) ∧ q ∉ body := by
    rw [set_value_run] at hok ⊢
    by_cases hA : enclosed_in squote v
    · simp only [hA, if_true] at hok ⊢
      split_ifs at hok ⊢ with h1 h2
      · exact ⟨dquote, v, Or.inr rfl, rfl, List.count_eq_zero.1 h1.2⟩
      · obtain ⟨body, hv, hb⟩ := enclosed_in_count squote v hA (by omega)
        exact ⟨squote, body, Or.inl rfl, hv, hb⟩
    · by_cases hB : enclosed_in dquote v
      · simp only [hA, hB, if_true, if_false] at hok ⊢
        split_ifs at hok ⊢ with h1 h2
        · exact ⟨squote, v, Or.inl rfl, rfl, List.count_eq_zero.1 h1.1⟩
        · obtain ⟨body, hv, hb⟩ := enclosed_in_count dquote v hB (by omega)
          exact ⟨dquote, body, Or.inr rfl, hv, hb⟩
      · simp only [hA, hB, if_false] at hok ⊢
        split_ifs at hok ⊢ with h1 h2
        · exact ⟨dquote, v, Or.inr rfl, rfl, List.count_eq_zero.1 h1⟩
        · exact ⟨squote, v, Or.inl rfl, rfl, List.count_eq_zero.1 h2⟩
  obtain ⟨q, body, hq, hv, hb⟩ := hshape
  have henc := enclosed_in_wrapped q body
  refine ⟨⟨q, body, hq, hv, hb⟩, ?_, ⟨q, hq, ?_, ?_, ?_⟩, ?_⟩
  · rw [hv]
    exact henc.1
  · rw [hv]
    exact henc.2.1
  · rw [hv]
    exact henc.2.2
  · rw [hv]
    simp [List.count_eq_zero.2 hb]
  · exact set_value_stored_again _ q body hq hb hv

theorem stored_value_quoted_witness :
    set_value (set_value [squote, 'a', squote, 'b', squote] demo_attr).self.m_value
        (set_value [squote, 'a', squote, 'b', squote] demo_attr).self =
      ⟨.ok (), (set_value [squote, 'a', squote, 'b', squote] demo_attr).self, []⟩ :=
  (stored_value_quoted demo_attr [squote, 'a', squote, 'b', squote]
    (by rw [set_value_run, if_pos (by decide), if_pos (by decide)])).2.2.2

end GXmlAttribute

/-! ## Predicted counts with energy dispersion -/

namespace GCTAResponseIrf

theorem nroi_edisp_loop_run (x : Externals) (model : GModelSky) (srcTime : GTime)
    (obsEng : GEnergy) (obsTime : GTime) (obs : GCTAObservation) (iter : Nat)
    (rsp : GCTAResponseIrf) (bins : List (GEnergy × GEnergy)) :
    ∀ acc : ℚ,
      nroi_edisp_loop x model srcTime obsEng obsTime obs iter bins acc rsp =
        ⟨.ok (acc + ((bins.filter (fun b => decide (b.2.MeV > b.1.MeV))).map
            (fun b => x.romberg (.nroi_kern ⟨model, rsp, srcTime, obsEng, obsTime, obs⟩) iter
              (x.log b.1.MeV) (x.log b.2.MeV))).sum),
          rsp,
          (bins.filter (fun b => decide (b.2.MeV > b.1.MeV))).map
            (fun b => Call.romberg (.nroi_kern ⟨model, rsp, srcTime, obsEng, obsTime, obs⟩) iter
              (x.log b.1.MeV) (x.log b.2.MeV))⟩ := by
  induction bins with
  | nil =>
    intro acc
    simp [nroi_edisp_loop]
  | cons b rest ih =>
    intro acc
    obtain ⟨e_min, e_max⟩ := b
    by_cases h : e_max.MeV > e_min.MeV
    · simp [nroi_edisp_loop, Eval.seq, GIntegral.romberg, h, ih, add_assoc]
    · simp [nroi_edisp_loop, Eval.seq, h, ih]

/-- C23: with energy dispersion in use, `nroi(model, obsEng, obsTime, obs)` returns the
sum, over the true energy intervals of the energy dispersion component that have
emax > emin, of the Romberg integral with 6 iterations of the Nroi kernel over
[ln(emin/MeV), ln(emax/MeV)], multiplied by the instrument scale when the model has
scales; it makes one Romberg call for each of these intervals and no other call; and
when no interval is valid the sum is 0. -/
theorem nroi_with_edisp (x : Externals) (rsp : GCTAResponseIrf) (e : GCTAEdisp)
    (model : GModelSky) (obsEng : GEnergy) (obsTime : GTime) (obs : GCTAObservation)
    (hu : rsp.use_edisp = true) (he : rsp.m_edisp = some e) :
    nroi x model obsEng obsTime obs rsp =
      ⟨.ok (if model.has_scales then
          claimed_nroi_edisp x rsp e model obsEng obsTime obs * model.scale obs.instrument
        else claimed_nroi_edisp x rsp e model obsEng obsTime obs),
        rsp,
        (valid_intervals x e obsEng).map (interval_call x rsp model obsEng obsTime obs)⟩ ∧
    ((∀ b ∈ (e.ebounds_src (x.log10TeV obsEng)).bins, b.2.MeV ≤ b.1.MeV) →
      claimed_nroi_edisp x rsp e model obsEng obsTime obs = 0 ∧
      (nroi x model obsEng obsTime obs rsp).calls = []) := by
  have hrun : nroi x model obsEng obsTime obs rsp =
      ⟨.ok (if model.has_scales then
          claimed_nroi_edisp x rsp e model obsEng obsTime obs * model.scale obs.instrument
        else claimed_nroi_edisp x rsp e model obsEng obsTime obs),
        rsp,
        (valid_intervals x e obsEng).map (interval_call x rsp model obsEng obsTime obs)⟩ := by
    unfold claimed_nroi_edisp valid_intervals interval_integral interval_call nroi_kernel
    simp only [nroi, Eval.run_bind, Eval.seq, Eval.run_this, hu, he, if_true]
    rw [nroi_edisp_loop_run]
    cases model.has_scales <;> simp
  refine ⟨hrun, ?_⟩
  intro hnone
  have hvalid : valid_intervals x e obsEng = [] := by
    unfold valid_intervals
    rw [List.filter_eq_nil_iff]
    intro b hb
    simpa using hnone b hb
  rw [hrun]
  simp [claimed_nroi_edisp, hvalid]

theorem nroi_with_edisp_witness :
    nroi demo_x (demo_model (.point_source ⟨⟨0, 0⟩⟩) true) ⟨1000⟩ ⟨0⟩ demo_obs
        { demo_rsp with m_edisp := some demo_edisp_mixed } =
      ⟨.ok (demo_x.romberg
          (nroi_kernel { demo_rsp with m_edisp := some demo_edisp_mixed }
            (demo_model (.point_source ⟨⟨0, 0⟩⟩) true) ⟨1000⟩ ⟨0⟩ demo_obs) 6 1 2 * 3),
        { demo_rsp with m_edisp := some demo_edisp_mixed },
        [Call.romberg
          (nroi_kernel { demo_rsp with m_edisp := some demo_edisp_mixed }
            (demo_model (.point_source ⟨⟨0, 0⟩⟩) true) ⟨1000⟩ ⟨0⟩ demo_obs) 6 1 2]⟩ := by
  have h := (nroi_with_edisp demo_x { demo_rsp with m_edisp := some demo_edisp_mixed }
    demo_edisp_mixed (demo_model (.point_source ⟨⟨0, 0⟩⟩) true) ⟨1000⟩ ⟨0⟩ demo_obs rfl rfl).1
  rw [h]
  norm_num [claimed_nroi_edisp, valid_intervals, interval_integral, interval_call,
    demo_edisp_mixed, demo_model, demo_x, List.filter]

/-! ## The radial PSF integral of `npsf` -/

/-- C25: in `npsf`, when the PSF is not fully enclosed in the ROI and the radial range
is valid (rmax > rmin, with rmin = max(0, distance - ROI radius) and
rmax = delta_max), the integral is the trapezoidal rule over [rmin, rmax] if
rmax - rmin < 1.0e-12 and the Romberg integration with 6 fixed iterations otherwise;
no other quadrature is called. -/
theorem npsf_small_range (x : Externals) (rsp : GCTAResponseIrf) (p : GCTAPsf)
    (hpsf : rsp.m_psf = some p) (srcDir : GSkyDir) (srcLogEng : ℚ) (srcTime : GTime)
    (pnt : GCTAPointing) (roi : GCTARoi)
    (hopen : ¬ (x.dist roi.centre.dir srcDir + npsf_rmax x p srcDir srcLogEng pnt ≤
      roi.radius * x.deg2rad))
    (hvalid : npsf_rmax x p srcDir srcLogEng pnt > claimed_npsf_rmin x srcDir roi) :
    (npsf_rmax x p srcDir srcLogEng pnt - claimed_npsf_rmin x srcDir roi <
        1 / 1000000000000 →
      npsf x srcDir srcLogEng srcTime pnt roi rsp =
        ⟨.ok (x.trapzd (npsf_kernel x rsp srcDir srcLogEng pnt roi) 6
            (claimed_npsf_rmin x srcDir roi) (npsf_rmax x p srcDir srcLogEng pnt)),
          rsp,
          [Call.psf_delta_max (x.dist pnt.dir srcDir) 0 pnt.zenith pnt.azimuth srcLogEng,
           Call.trapzd (npsf_kernel x rsp srcDir srcLogEng pnt roi) 6
            (claimed_npsf_rmin x srcDir roi) (npsf_rmax x p srcDir srcLogEng pnt)]⟩) ∧
    (¬ (npsf_rmax x p srcDir srcLogEng pnt - claimed_npsf_rmin x srcDir roi <
        1 / 1000000000000) →
      npsf x srcDir srcLogEng srcTime pnt roi rsp =
        ⟨.ok (x.romberg (npsf_kernel x rsp srcDir srcLogEng pnt roi) 6
            (claimed_npsf_rmin x srcDir roi) (npsf_rmax x p srcDir srcLogEng pnt)),
          rsp,
          [Call.psf_delta_max (x.dist pnt.dir srcDir) 0 pnt.zenith pnt.azimuth srcLogEng,
           Call.romberg (npsf_kernel x rsp srcDir srcLogEng pnt roi) 6
            (claimed_npsf_rmin x srcDir roi) (npsf_rmax x p srcDir srcLogEng pnt)]⟩) := by
  have hrmin : claimed_npsf_rmin x srcDir roi =
      if x.dist roi.centre.dir srcDir > roi.radius * x.deg2rad then
        x.dist roi.centre.dir srcDir - roi.radius * x.deg2rad else 0 := by
    unfold claimed_npsf_rmin
    split_ifs with h
    · exact max_eq_right (by linarith)
    · exact max_eq_left (by linarith)
  rw [hrmin] at hvalid ⊢
  unfold npsf_rmax npsf_kernel at *
  constructor
  · intro hsmall
    simp only [one_div, gt_iff_lt] at hsmall hvalid
    simp [npsf, Eval.seq, run_psf_delta_max rsp p hpsf, hopen, hvalid, hsmall,
      GIntegral.trapzd]
  · intro hlarge
    simp only [one_div, gt_iff_lt] at hlarge hvalid
    simp [npsf, Eval.seq, run_psf_delta_max rsp p hpsf, hopen, hvalid, hlarge,
      GIntegral.romberg]

theorem npsf_small_range_witness :
    npsf demo_x ⟨0, 0⟩ 0 ⟨0⟩ demo_obs_point_roi.pointing demo_obs_point_roi.roi demo_rsp_tiny =
      ⟨.ok (demo_x.trapzd
          (npsf_kernel demo_x demo_rsp_tiny ⟨0, 0⟩ 0 demo_obs_point_roi.pointing
            demo_obs_point_roi.roi) 6
          (claimed_npsf_rmin demo_x ⟨0, 0⟩ demo_obs_point_roi.roi)
          (npsf_rmax demo_x ⟨fun _ _ _ _ _ _ => 3, fun _ _ _ _ _ => 1 / 10000000000000⟩
            ⟨0, 0⟩ 0 demo_obs_point_roi.pointing)),
        demo_rsp_tiny,
        [Call.psf_delta_max
          (demo_x.dist demo_obs_point_roi.pointing.dir ⟨0, 0⟩) 0
          demo_obs_point_roi.pointing.zenith demo_obs_point_roi.pointing.azimuth 0,
         Call.trapzd
          (npsf_kernel demo_x demo_rsp_tiny ⟨0, 0⟩ 0 demo_obs_point_roi.pointing
            demo_obs_point_roi.roi) 6
          (claimed_npsf_rmin demo_x ⟨0, 0⟩ demo_obs_point_roi.roi)
          (npsf_rmax demo_x ⟨fun _ _ _ _ _ _ => 3, fun _ _ _ _ _ => 1 / 10000000000000⟩
            ⟨0, 0⟩ 0 demo_obs_point_roi.pointing)]⟩ :=
  (npsf_small_range demo_x demo_rsp_tiny _ rfl ⟨0, 0⟩ 0 ⟨0⟩ demo_obs_point_roi.pointing
    demo_obs_point_roi.roi
    (by norm_num [npsf_rmax, demo_x, demo_obs_point_roi])
    (by norm_num [npsf_rmax, claimed_npsf_rmin, demo_x, demo_obs_point_roi])).1
    (by norm_num [npsf_rmax, claimed_npsf_rmin, demo_x, demo_obs_point_roi])

/-! ## Identity strings of the Npred cache -/

theorem append_cons_inj {α : Type} (c : α) :
    ∀ (l1 l2 r1 r2 : List α), c ∉ l1 → c ∉ l2 → l1 ++ c :: r1 = l2 ++ c :: r2 →
      l1 = l2 ∧ r1 = r2 := by
  intro l1
  induction l1 with
  | nil =>
    intro l2 r1 r2 _ h2 h
    cases l2 with
    | nil => exact ⟨rfl, by simpa using h⟩
    | cons b l2 =>
      simp only [List.nil_append, List.cons_append, List.cons.injEq] at h
      exact absurd (h.1 ▸ List.mem_cons_self _ _) h2
  | cons a l1 ih =>
    intro l2 r1 r2 h1 h2 h
    cases l2 with
    | nil =>
      simp only [List.nil_append, List.cons_append, List.cons.injEq] at h
      exact absurd (h.1 ▸ List.mem_cons_self _ _) h1
    | cons b l2 =>
      simp only [List.cons_append, List.cons.injEq] at h
      obtain ⟨hl, hr⟩ := ih l2 r1 r2 (fun hm => h1 (List.mem_cons_of_mem _ hm))
        (fun hm => h2 (List.mem_cons_of_mem _ hm)) h.2
      exact ⟨by rw [h.1, hl], hr⟩

theorem identity_inj (name name2 id id2 : String) (h1 : ':' ∉ name.data)
    (h2 : ':' ∉ name2.data) (h : name ++ "::" ++ id = name2 ++ "::" ++ id2) :
    name = name2 ∧ id = id2 := by
  have hd := congrArg String.data h
  simp only [String.data_append, List.append_assoc] at hd
  simp only [List.cons_append, List.nil_append] at hd
  obtain ⟨hl, hr⟩ := append_cons_inj ':' name.data name2.data _ _ h1 h2 hd
  simp only [List.cons.injEq, true_and] at hr
  exact ⟨String.ext hl, String.ext hr⟩

/-- C27: the identity string name + "::" + id of the Npred cache determines the model
name and the observation id whenever the model names hold no colon; without that
restriction it does not: the distinct pairs ("a:", ":b") and ("a", "::b") have the
same identity string, and after a call of `nroi_diffuse` for the first pair has
returned v, a call for the second pair with the same true energy and time returns v
from the cache without computing anything. -/
theorem cache_identity_injective (x : Externals) (rsp : GCTAResponseIrf)
    (haligned : rsp.cache_aligned) :
    (∀ (model model2 : GModelSky) (obs obs2 : GCTAObservation),
      ':' ∉ model.name.data → ':' ∉ model2.name.data →
      model.name ++ "::" ++ obs.id = model2.name ++ "::" ++ obs2.id →
      model.name = model2.name ∧ obs.id = obs2.id) ∧
    ((("a:", ":b") : String × String) ≠ ("a", "::b") ∧
      "a:" ++ "::" ++ ":b" = "a" ++ "::" ++ "::b") ∧
    (∀ (model model2 : GModelSky) (obs obs2 : GCTAObservation) (srcEng obsEng obsEng2 : GEnergy)
        (srcTime obsTime obsTime2 : GTime) (v : ℚ),
      model.name = "a:" → obs.id = ":b" → model2.name = "a" → obs2.id = "::b" →
      (nroi_diffuse x model srcEng srcTime obsEng obsTime obs rsp).result = .ok v →
      nroi_diffuse x model2 srcEng srcTime obsEng2 obsTime2 obs2
          (nroi_diffuse x model srcEng srcTime obsEng obsTime obs rsp).self =
        ⟨.ok v, (nroi_diffuse x model srcEng srcTime obsEng obsTime obs rsp).self, []⟩) := by
  refine ⟨?_, ⟨by decide, by decide⟩, ?_⟩
  · intro model model2 obs obs2 h1 h2 h
    exact identity_inj _ _ _ _ h1 h2 h
  · intro model model2 obs obs2 srcEng obsEng obsEng2 srcTime obsTime obsTime2 v hn hi hn2 hi2
      hfirst
    apply nroi_diffuse_run_hit
    have hkey : model2.name ++ "::" ++ obs2.id = model.name ++ "::" ++ obs.id := by
      rw [hn, hi, hn2, hi2]
      decide
    rw [hkey]
    exact nroi_diffuse_ok_search x model srcEng srcTime obsEng obsTime obs rsp haligned v hfirst

theorem cache_identity_injective_witness :
    nroi_diffuse demo_x { demo_diffuse with name := "a" } ⟨1000⟩ ⟨0⟩ ⟨1000⟩ ⟨0⟩
        { demo_obs with id := "::b" }
        (nroi_diffuse demo_x { demo_diffuse with name := "a:" } ⟨1000⟩ ⟨0⟩ ⟨1000⟩ ⟨0⟩
          { demo_obs with id := ":b" } demo_rsp).self =
      ⟨.ok (diffuse_value demo_x demo_rsp demo_psf { demo_diffuse with name := "a:" } ⟨1000⟩ ⟨0⟩
          ⟨1000⟩ ⟨0⟩ { demo_obs with id := ":b" }),
        (nroi_diffuse demo_x { demo_diffuse with name := "a:" } ⟨1000⟩ ⟨0⟩ ⟨1000⟩ ⟨0⟩
          { demo_obs with id := ":b" } demo_rsp).self, []⟩ :=
  (cache_identity_injective demo_x demo_rsp ⟨rfl, rfl, rfl⟩).2.2
    { demo_diffuse with name := "a:" } { demo_diffuse with name := "a" }
    { demo_obs with id := ":b" } { demo_obs with id := "::b" } ⟨1000⟩ ⟨1000⟩ ⟨1000⟩ ⟨0⟩ ⟨0⟩ ⟨0⟩ _
    rfl rfl rfl rfl
    (by rw [nroi_diffuse_run_miss demo_x { demo_diffuse with name := "a:" } ⟨1000⟩ ⟨0⟩ ⟨1000⟩
      ⟨0⟩ { demo_obs with id := ":b" } demo_rsp demo_psf rfl rfl])

/-! ## Spatial models of an unknown type -/

/-- C29: for a spatial model whose code is none of point source, radial, elliptical
and diffuse, `irf(event, source, obs)` and
`nroi(model, srcEng, srcTime, obsEng, obsTime, obs)` return 0 without throwing, leave
the response as it is and make no call of a response component. -/
theorem unknown_code_returns_zero (x : Externals) (rsp : GCTAResponseIrf) (event : GEvent)
    (source : GSource) (model : GModelSky) (srcEng obsEng : GEnergy) (srcTime obsTime : GTime)
    (obs : GCTAObservation) :
    (source.model.code = .unknown →
      irf_source x event source obs rsp = ⟨.ok 0, rsp, []⟩) ∧
    (model.spatial.code = .unknown →
      nroi_spatial x model srcEng srcTime obsEng obsTime obs rsp = ⟨.ok 0, rsp, []⟩) := by
  constructor
  · intro h
    unfold irf_source
    rw [h]
    rfl
  · intro h
    unfold nroi_spatial
    rw [h]
    rfl

theorem unknown_code_returns_zero_witness :
    irf_source demo_x demo_event (demo_source .other) demo_obs demo_rsp =
      ⟨.ok 0, demo_rsp, []⟩ ∧
    nroi_spatial demo_x (demo_model .other false) ⟨1000⟩ ⟨0⟩ ⟨1000⟩ ⟨0⟩ demo_obs demo_rsp =
      ⟨.ok 0, demo_rsp, []⟩ :=
  ⟨(unknown_code_returns_zero demo_x demo_rsp demo_event (demo_source .other)
      (demo_model .other false) ⟨1000⟩ ⟨1000⟩ ⟨0⟩ ⟨0⟩ demo_obs).1 rfl,
    (unknown_code_returns_zero demo_x demo_rsp demo_event (demo_source .other)
      (demo_model .other false) ⟨1000⟩ ⟨1000⟩ ⟨0⟩ ⟨0⟩ demo_obs).2 rfl⟩

end GCTAResponseIrf

/-! ## Breakpoints and iteration counts of the spatial integrators -/

namespace GCTAResponseIrf

theorem irf_radial_outcome (x : Externals) (rsp : GCTAResponseIrf) (event : GEvent)
    (source : GSource) (obs : GCTAObservation) (m : GModelSpatialRadial) (p : GCTAPsf)
    (hm : source.model = .radial m) (hpsf : rsp.m_psf = some p)
    (hrange : claimed_rho_min (x.dist m.dir event.dir.dir)
        (measured_delta_max x p source.energy event obs) <
      claimed_rho_max (x.dist m.dir event.dir.dir)
        (measured_delta_max x p source.energy event obs) m.theta_max) :
    irf_radial x event source obs rsp =
      ⟨.ok (x.romberg_bounds
          (Kernel.integrand (.irf_radial_kern_rho
            (radial_kernel x rsp m obs.pointing.zenith obs.pointing.azimuth source.energy
              source.time event.energy (x.dist m.dir event.dir.dir)
              (x.dist obs.pointing.dir event.dir.dir) (x.dist m.dir obs.pointing.dir)
              (measured_delta_max x p source.energy event obs))))
          5 (radial_bounds x m (x.dist m.dir event.dir.dir)
            (measured_delta_max x p source.energy event obs)) 5 * obs.deadc source.time),
        rsp,
        [measured_delta_max_call x source.energy event obs,
         Call.romberg_bounds
          (.irf_radial_kern_rho
            (radial_kernel x rsp m obs.pointing.zenith obs.pointing.azimuth source.energy
              source.time event.energy (x.dist m.dir event.dir.dir)
              (x.dist obs.pointing.dir event.dir.dir) (x.dist m.dir obs.pointing.dir)
              (measured_delta_max x p source.energy event obs)))
          5 (radial_bounds x m (x.dist m.dir event.dir.dir)
            (measured_delta_max x p source.energy event obs)) 5,
         Call.deadc source.time]⟩ := by
  rw [← rho_min_eq, ← rho_max_eq] at hrange
  unfold measured_delta_max at hrange
  unfold radial_kernel radial_bounds radial_omega0 radial_rho_min radial_rho_max
    measured_delta_max measured_delta_max_call
  simp only [irf_radial, hm, Eval.run_bind, Eval.seq, run_psf_delta_max rsp p hpsf]
  rw [if_pos hrange]
  rfl

theorem irf_radial_outcome_empty (x : Externals) (rsp : GCTAResponseIrf) (event : GEvent)
    (source : GSource) (obs : GCTAObservation) (m : GModelSpatialRadial) (p : GCTAPsf)
    (hm : source.model = .radial m) (hpsf : rsp.m_psf = some p)
    (hrange : ¬ claimed_rho_min (x.dist m.dir event.dir.dir)
        (measured_delta_max x p source.energy event obs) <
      claimed_rho_max (x.dist m.dir event.dir.dir)
        (measured_delta_max x p source.energy event obs) m.theta_max) :
    irf_radial x event source obs rsp =
      ⟨.ok 0, rsp, [measured_delta_max_call x source.energy event obs]⟩ := by
  rw [← rho_min_eq, ← rho_max_eq] at hrange
  unfold measured_delta_max at hrange
  unfold measured_delta_max_call
  simp only [irf_radial, hm, Eval.run_bind, Eval.seq, run_psf_delta_max rsp p hpsf]
  rw [if_neg hrange]
  rfl

theorem irf_radial_call_kinds (x : Externals) (rsp : GCTAResponseIrf) (event : GEvent)
    (source : GSource) (obs : GCTAObservation) (c : Call)
    (hc : c ∈ (irf_radial x event source obs rsp).calls) :
    c.is_trapzd = false ∧ ∀ it ∈ c.iterations, it = 5 := by
  cases hm : source.model with
  | radial m =>
    cases hp : rsp.m_psf with
    | none =>
      simp [irf_radial, hm, Eval.seq, psf_delta_max, hp] at hc
      subst hc
      simp [Call.is_trapzd, Call.iterations]
    | some p =>
      by_cases hrange : claimed_rho_min (x.dist m.dir event.dir.dir)
          (measured_delta_max x p source.energy event obs) <
        claimed_rho_max (x.dist m.dir event.dir.dir)
          (measured_delta_max x p source.energy event obs) m.theta_max
      · rw [irf_radial_outcome x rsp event source obs m p hm hp hrange] at hc
        simp only [List.mem_cons, List.mem_singleton, List.not_mem_nil, or_false] at hc
        rcases hc with rfl | rfl | rfl <;>
          simp [Call.is_trapzd, Call.iterations, Kernel.inner_iterations,
            measured_delta_max_call, radial_kernel]
      · rw [irf_radial_outcome_empty x rsp event source obs m p hm hp hrange] at hc
        simp only [List.mem_singleton] at hc
        subst hc
        simp [Call.is_trapzd, Call.iterations, measured_delta_max_call]
  | point_source _ => simp [irf_radial, hm, raise] at hc
  | elliptical _ => simp [irf_radial, hm, raise] at hc
  | diffuse _ => simp [irf_radial, hm, raise] at hc
  | other => simp [irf_radial, hm, raise] at hc

theorem transition_point_iff (zeta delta_max theta_max : ℚ) :
    (delta_max - zeta > claimed_rho_min zeta delta_max ∧
      delta_max - zeta < claimed_rho_max zeta delta_max theta_max) ↔
    (0 < zeta ∧ zeta < delta_max ∧ delta_max - zeta < theta_max) := by
  unfold claimed_rho_min claimed_rho_max
  constructor
  · rintro ⟨h1, h2⟩
    have h3 := lt_of_le_of_lt (le_max_left 0 (zeta - delta_max)) h1
    have h4 := lt_of_lt_of_le h2 (min_le_left _ _)
    have h5 := lt_of_lt_of_le h2 (min_le_right _ _)
    exact ⟨by linarith, by linarith, h5⟩
  · rintro ⟨h1, h2, h3⟩
    refine ⟨?_, ?_⟩
    · rw [gt_iff_lt, max_lt_iff]
      exact ⟨by linarith, by linarith⟩
    · rw [lt_min_iff]
      exact ⟨by linarith, h3⟩

theorem radial_bounds_eq (x : Externals) (m : GModelSpatialRadial) (zeta delta_max : ℚ) :
    radial_bounds x m zeta delta_max =
      claimed_rho_min zeta delta_max :: claimed_rho_max zeta delta_max m.theta_max ::
        claimed_radial_interior x m zeta delta_max := by
  unfold radial_bounds radial_rho_min radial_rho_max claimed_radial_interior
  simp only [rho_min_eq, rho_max_eq]
  by_cases ht : 0 < zeta ∧ zeta < delta_max ∧ delta_max - zeta < m.theta_max
  · rw [if_pos ((transition_point_iff zeta delta_max m.theta_max).2 ht), if_pos ht]
    cases m.shell_radius with
    | none => rfl
    | some radius =>
      simp only [gt_iff_lt]
      split_ifs <;> rfl
  · rw [if_neg (mt (transition_point_iff zeta delta_max m.theta_max).1 ht), if_neg ht]
    cases m.shell_radius with
    | none => rfl
    | some radius =>
      simp only [gt_iff_lt]
      split_ifs <;> rfl

theorem radial_interior_between (x : Externals) (m : GModelSpatialRadial)
    (zeta delta_max b : ℚ) (hb : b ∈ claimed_radial_interior x m zeta delta_max) :
    claimed_rho_min zeta delta_max < b ∧ b < claimed_rho_max zeta delta_max m.theta_max := by
  unfold claimed_radial_interior at hb
  rw [List.mem_append] at hb
  rcases hb with hb | hb
  · split_ifs at hb with ht
    · rw [List.mem_singleton] at hb
      subst hb
      exact (transition_point_iff zeta delta_max m.theta_max).2 ht
    · simp at hb
  · cases hs : m.shell_radius with
    | none => simp [hs] at hb
    | some radius =>
      simp only [hs] at hb
      split_ifs at hb with h
      · rw [List.mem_singleton] at hb
        subst hb
        exact h
      · simp at hb

theorem irf_elliptical_outcome (x : Externals) (rsp : GCTAResponseIrf) (event : GEvent)
    (source : GSource) (obs : GCTAObservation) (m : GModelSpatialElliptical) (p : GCTAPsf)
    (hm : source.model = .elliptical m) (hpsf : rsp.m_psf = some p)
    (hrange : claimed_rho_min (x.dist m.dir event.dir.dir)
        (measured_delta_max x p source.energy event obs) <
      claimed_rho_max (x.dist m.dir event.dir.dir)
        (measured_delta_max x p source.energy event obs) (boundary_ellipse x m).semimajor) :
    irf_elliptical x event source obs rsp =
      ⟨.ok (x.romberg_bounds
          (.irf_elliptical_kern_rho
            (elliptical_kernel x rsp m event source obs
              (measured_delta_max x p source.energy event obs)))
          5 (claimed_rho_min (x.dist m.dir event.dir.dir)
              (measured_delta_max x p source.energy event obs) ::
            claimed_rho_max (x.dist m.dir event.dir.dir)
              (measured_delta_max x p source.energy event obs)
              (boundary_ellipse x m).semimajor ::
            claimed_elliptical_interior x m (x.dist m.dir event.dir.dir)
              (measured_delta_max x p source.energy event obs)) 5 * obs.deadc source.time),
        rsp,
        [measured_delta_max_call x source.energy event obs,
         Call.romberg_bounds
          (.irf_elliptical_kern_rho
            (elliptical_kernel x rsp m event source obs
              (measured_delta_max x p source.energy event obs)))
          5 (claimed_rho_min (x.dist m.dir event.dir.dir)
              (measured_delta_max x p source.energy event obs) ::
            claimed_rho_max (x.dist m.dir event.dir.dir)
              (measured_delta_max x p source.energy event obs)
              (boundary_ellipse x m).semimajor ::
            claimed_elliptical_interior x m (x.dist m.dir event.dir.dir)
              (measured_delta_max x p source.energy event obs)) 5,
         Call.deadc source.time]⟩ := by
  unfold claimed_elliptical_interior elliptical_kernel measured_delta_max_call
  unfold measured_delta_max at *
  simp only [irf_elliptical, hm, Eval.run_bind, Eval.seq, run_psf_delta_max rsp p hpsf]
  simp only [rho_min_eq, rho_max_eq, gt_iff_lt]
  rw [if_pos hrange]
  split_ifs <;> rfl

theorem irf_elliptical_outcome_empty (x : Externals) (rsp : GCTAResponseIrf) (event : GEvent)
    (source : GSource) (obs : GCTAObservation) (m : GModelSpatialElliptical) (p : GCTAPsf)
    (hm : source.model = .elliptical m) (hpsf : rsp.m_psf = some p)
    (hrange : ¬ claimed_rho_min (x.dist m.dir event.dir.dir)
        (measured_delta_max x p source.energy event obs) <
      claimed_rho_max (x.dist m.dir event.dir.dir)
        (measured_delta_max x p source.energy event obs) (boundary_ellipse x m).semimajor) :
    irf_elliptical x event source obs rsp =
      ⟨.ok 0, rsp, [measured_delta_max_call x source.energy event obs]⟩ := by
  unfold measured_delta_max_call
  unfold measured_delta_max at *
  simp only [irf_elliptical, hm, Eval.run_bind, Eval.seq, run_psf_delta_max rsp p hpsf]
  simp only [rho_min_eq, rho_max_eq, gt_iff_lt]
  rw [if_neg hrange]
  rfl

theorem irf_elliptical_call_kinds (x : Externals) (rsp : GCTAResponseIrf) (event : GEvent)
    (source : GSource) (obs : GCTAObservation) (c : Call)
    (hc : c ∈ (irf_elliptical x event source obs rsp).calls) :
    c.is_trapzd = false ∧ ∀ it ∈ c.iterations, it = 5 := by
  cases hm : source.model with
  | elliptical m =>
    cases hp : rsp.m_psf with
    | none =>
      simp [irf_elliptical, hm, Eval.seq, psf_delta_max, hp] at hc
      subst hc
      simp [Call.is_trapzd, Call.iterations]
    | some p =>
      by_cases hrange : claimed_rho_min (x.dist m.dir event.dir.dir)
          (measured_delta_max x p source.energy event obs) <
        claimed_rho_max (x.dist m.dir event.dir.dir)
          (measured_delta_max x p source.energy event obs) (boundary_ellipse x m).semimajor
      · rw [irf_elliptical_outcome x rsp event source obs m p hm hp hrange] at hc
        simp only [List.mem_cons, List.mem_singleton, List.not_mem_nil, or_false] at hc
        rcases hc with rfl | rfl | rfl <;>
          simp [Call.is_trapzd, Call.iterations, Kernel.inner_iterations,
            measured_delta_max_call, elliptical_kernel]
      · rw [irf_elliptical_outcome_empty x rsp event source obs m p hm hp hrange] at hc
        simp only [List.mem_singleton] at hc
        subst hc
        simp [Call.is_trapzd, Call.iterations, measured_delta_max_call]
  | point_source _ => simp [irf_elliptical, hm, raise] at hc
  | radial _ => simp [irf_elliptical, hm, raise] at hc
  | diffuse _ => simp [irf_elliptical, hm, raise] at hc
  | other => simp [irf_elliptical, hm, raise] at hc

theorem irf_diffuse_iterations (x : Externals) (rsp : GCTAResponseIrf) (event : GEvent)
    (source : GSource) (obs : GCTAObservation) :
    ∀ c ∈ (irf_diffuse x event source obs rsp).calls, ∀ it ∈ c.iterations, it = 5 := by
  cases hp : rsp.m_psf with
  | none =>
    cases he : obs.events <;> cases hi : event.atom_index <;>
      simp only [irf_diffuse, he, hi, Eval.run_bind, Eval.seq, Eval.run_pure, Eval.run_trace] <;>
      (try split_ifs) <;>
      simp [Eval.seq, psf_delta_max, hp, Call.iterations]
  | some p =>
    cases he : obs.events <;> cases hi : event.atom_index <;>
      simp only [irf_diffuse, he, hi, Eval.run_bind, Eval.seq, Eval.run_pure, Eval.run_trace,
        run_psf_delta_max rsp p hp] <;>
      (try split_ifs) <;>
      simp [Eval.seq, GIntegral.romberg, Call.iterations, Kernel.inner_iterations,
        run_psf_delta_max rsp p hp]
    all_goals try split_ifs
    all_goals simp [Eval.seq, GIntegral.romberg, Call.iterations, Kernel.inner_iterations]

theorem nroi_radial_iterations (x : Externals) (rsp : GCTAResponseIrf) (model : GModelSky)
    (srcEng obsEng : GEnergy) (srcTime obsTime : GTime) (obs : GCTAObservation) :
    ∀ c ∈ (nroi_radial x model srcEng srcTime obsEng obsTime obs rsp).calls,
      ∀ it ∈ c.iterations, it = 6 := by
  cases hm : model.spatial with
  | radial m =>
    cases hp : rsp.m_psf with
    | none => simp [nroi_radial, hm, Eval.seq, psf_delta_max, hp, Call.iterations]
    | some p =>
      cases hs : m.shell_radius <;>
        simp only [nroi_radial, hm, hs, Eval.run_bind, Eval.seq, run_psf_delta_max rsp p hp] <;>
        split_ifs <;>
        simp [Eval.seq, GIntegral.romberg_bounds, Call.iterations, Kernel.inner_iterations]
  | point_source _ => simp [nroi_radial, hm, raise]
  | elliptical _ => simp [nroi_radial, hm, raise]
  | diffuse _ => simp [nroi_radial, hm, raise]
  | other => simp [nroi_radial, hm, raise]

theorem nroi_elliptical_iterations (x : Externals) (rsp : GCTAResponseIrf) (model : GModelSky)
    (srcEng obsEng : GEnergy) (srcTime obsTime : GTime) (obs : GCTAObservation) :
    ∀ c ∈ (nroi_elliptical x model srcEng srcTime obsEng obsTime obs rsp).calls,
      ∀ it ∈ c.iterations, it = 6 := by
  cases hm : model.spatial with
  | elliptical m =>
    cases hp : rsp.m_psf with
    | none => simp [nroi_elliptical, hm, Eval.seq, psf_delta_max, hp, Call.iterations]
    | some p =>
      simp only [nroi_elliptical, hm, Eval.run_bind, Eval.seq, run_psf_delta_max rsp p hp]
      split_ifs <;>
        simp [Eval.seq, GIntegral.romberg_bounds, Call.iterations, Kernel.inner_iterations]
  | point_source _ => simp [nroi_elliptical, hm, raise]
  | radial _ => simp [nroi_elliptical, hm, raise]
  | diffuse _ => simp [nroi_elliptical, hm, raise]
  | other => simp [nroi_elliptical, hm, raise]

theorem nroi_diffuse_iterations (x : Externals) (rsp : GCTAResponseIrf) (model : GModelSky)
    (srcEng obsEng : GEnergy) (srcTime obsTime : GTime) (obs : GCTAObservation) :
    ∀ c ∈ (nroi_diffuse x model srcEng srcTime obsEng obsTime obs rsp).calls,
      ∀ it ∈ c.iterations, it = 9 := by
  cases hs : npred_search rsp (model.name ++ "::" ++ obs.id) srcEng srcTime
      rsp.m_npred_names.length 0 with
  | some v => simp [nroi_diffuse, Eval.seq, hs]
  | none =>
    cases hp : rsp.m_psf with
    | none => simp [nroi_diffuse, Eval.seq, hs, psf_delta_max, hp, Call.iterations]
    | some p =>
      simp only [nroi_diffuse, Eval.run_bind, Eval.seq, Eval.run_this, hs,
        run_psf_delta_max rsp p hp]
      split_ifs <;>
        simp [Eval.seq, GIntegral.romberg, Call.iterations, Kernel.inner_iterations]

theorem irf_diffuse_outcome (x : Externals) (rsp : GCTAResponseIrf) (event : GEvent)
    (source : GSource) (obs : GCTAObservation) (p : GCTAPsf) (hpsf : rsp.m_psf = some p)
    (hevents : obs.events = none)
    (hpos : measured_delta_max x p source.energy event obs > 0) :
    irf_diffuse x event source obs rsp =
      ⟨.ok (x.romberg (irf_diffuse_kernel x rsp event source obs) 5 0
          (measured_delta_max x p source.energy event obs) * obs.deadc source.time),
        rsp,
        [measured_delta_max_call x source.energy event obs,
         Call.romberg (irf_diffuse_kernel x rsp event source obs) 5 0
          (measured_delta_max x p source.energy event obs),
         Call.deadc source.time]⟩ := by
  unfold measured_delta_max at hpos
  unfold measured_delta_max measured_delta_max_call irf_diffuse_kernel
  simp only [irf_diffuse, hevents, Eval.run_bind, Eval.seq, Eval.run_pure,
    run_psf_delta_max rsp p hpsf]
  rw [if_pos hpos]
  rfl

/-- C22: in `irf_radial`, when rho_max > rho_min, the breakpoint list handed to the
piecewise Romberg integration is rho_min, rho_max, then the transition point
delta_max - zeta exactly when 0 < zeta < delta_max and delta_max - zeta < theta_max,
then the shell radius in radians exactly when the model is a shell and
rho_min < radius < rho_max; every entry after the first two lies strictly between
rho_min and rho_max.  In `irf_elliptical` the list is rho_min, rho_max, then the
boundary semiminor axis exactly when rho_min < semiminor < rho_max. -/
theorem irf_breakpoints (x : Externals) (rsp : GCTAResponseIrf) (event : GEvent)
    (obs : GCTAObservation) (p : GCTAPsf) (hpsf : rsp.m_psf = some p)
    (source : GSource) (model : GModelSpatialRadial) (hr : source.model = .radial model)
    (esource : GSource) (emodel : GModelSpatialElliptical)
    (he : esource.model = .elliptical emodel) :
    (claimed_rho_min (x.dist model.dir event.dir.dir)
          (measured_delta_max x p source.energy event obs) <
        claimed_rho_max (x.dist model.dir event.dir.dir)
          (measured_delta_max x p source.energy event obs) model.theta_max →
      (irf_radial x event source obs rsp).calls =
        [measured_delta_max_call x source.energy event obs,
         Call.romberg_bounds
          (.irf_radial_kern_rho
            (radial_kernel x rsp model obs.pointing.zenith obs.pointing.azimuth source.energy
              source.time event.energy (x.dist model.dir event.dir.dir)
              (x.dist obs.pointing.dir event.dir.dir) (x.dist model.dir obs.pointing.dir)
              (measured_delta_max x p source.energy event obs)))
          5 (claimed_rho_min (x.dist model.dir event.dir.dir)
              (measured_delta_max x p source.energy event obs) ::
            claimed_rho_max (x.dist model.dir event.dir.dir)
              (measured_delta_max x p source.energy event obs) model.theta_max ::
            claimed_radial_interior x model (x.dist model.dir event.dir.dir)
              (measured_delta_max x p source.energy event obs)) 5,
         Call.deadc source.time]) ∧
    (∀ b ∈ claimed_radial_interior x model (x.dist model.dir event.dir.dir)
        (measured_delta_max x p source.energy event obs),
      claimed_rho_min (x.dist model.dir event.dir.dir)
          (measured_delta_max x p source.energy event obs) < b ∧
        b < claimed_rho_max (x.dist model.dir event.dir.dir)
          (measured_delta_max x p source.energy event obs) model.theta_max) ∧
    (claimed_rho_min (x.dist emodel.dir event.dir.dir)
          (measured_delta_max x p esource.energy event obs) <
        claimed_rho_max (x.dist emodel.dir event.dir.dir)
          (measured_delta_max x p esource.energy event obs)
          (boundary_ellipse x emodel).semimajor →
      (irf_elliptical x event esource obs rsp).calls =
        [measured_delta_max_call x esource.energy event obs,
         Call.romberg_bounds
          (.irf_elliptical_kern_rho
            (elliptical_kernel x rsp emodel event esource obs
              (measured_delta_max x p esource.energy event obs)))
          5 (claimed_rho_min (x.dist emodel.dir event.dir.dir)
              (measured_delta_max x p esource.energy event obs) ::
            claimed_rho_max (x.dist emodel.dir event.dir.dir)
              (measured_delta_max x p esource.energy event obs)
              (boundary_ellipse x emodel).semimajor ::
            claimed_elliptical_interior x emodel (x.dist emodel.dir event.dir.dir)
              (measured_delta_max x p esource.energy event obs)) 5,
         Call.deadc esource.time]) ∧
    (∀ b ∈ claimed_elliptical_interior x emodel (x.dist emodel.dir event.dir.dir)
        (measured_delta_max x p esource.energy event obs),
      b = (boundary_ellipse x emodel).semiminor ∧
      claimed_rho_min (x.dist emodel.dir event.dir.dir)
          (measured_delta_max x p esource.energy event obs) < b ∧
        b < claimed_rho_max (x.dist emodel.dir event.dir.dir)
          (measured_delta_max x p esource.energy event obs)
          (boundary_ellipse x emodel).semimajor) := by
  refine ⟨?_, ?_, ?_, ?_⟩
  · intro hrange
    rw [irf_radial_outcome x rsp event source obs model p hr hpsf hrange, radial_bounds_eq]
  · intro b hb
    exact radial_interior_between x model _ _ b hb
  · intro hrange
    rw [irf_elliptical_outcome x rsp event esource obs emodel p he hpsf hrange]
  · intro b hb
    unfold claimed_elliptical_interior at hb
    split_ifs at hb with h
    · rw [List.mem_singleton] at hb
      subst hb
      exact ⟨rfl, h⟩
    · simp at hb

theorem irf_breakpoints_witness :
    (irf_radial demo_x demo_event (demo_source (.radial demo_shell)) demo_obs demo_rsp).calls =
      [measured_delta_max_call demo_x ⟨1000⟩ demo_event demo_obs,
       Call.romberg_bounds
        (.irf_radial_kern_rho
          (radial_kernel demo_x demo_rsp demo_shell 0 0 ⟨1000⟩ ⟨0⟩ ⟨1000⟩ 0 0 0 1))
        5 [0, 1, 1 / 2] 5,
       Call.deadc ⟨0⟩] := by
  have h := (irf_breakpoints demo_x demo_rsp demo_event demo_obs demo_psf rfl
    (demo_source (.radial demo_shell)) demo_shell rfl
    (demo_source (.elliptical demo_elliptical)) demo_elliptical rfl).1
    (by norm_num [claimed_rho_min, claimed_rho_max, measured_delta_max, demo_x, demo_psf,
      demo_shell, demo_event, demo_obs, demo_source])
  rw [h]
  norm_num [claimed_rho_min, claimed_rho_max, claimed_radial_interior, measured_delta_max,
    demo_x, demo_psf, demo_shell, demo_event, demo_obs, demo_source]

/-- C24, as stated, fails: `irf_diffuse` integrates with 5 Romberg iterations, for the
offset angle as well as for the azimuth, not with 9. -/
theorem diffuse_iterations_counterexample :
    (irf_diffuse demo_x demo_event (demo_source (.diffuse ⟨fun _ _ _ => 1⟩)) demo_obs
        demo_rsp).calls =
      [measured_delta_max_call demo_x ⟨1000⟩ demo_event demo_obs,
       Call.romberg (irf_diffuse_kernel demo_x demo_rsp demo_event
        (demo_source (.diffuse ⟨fun _ _ _ => 1⟩)) demo_obs) 5 0 1,
       Call.deadc ⟨0⟩] ∧
    (Call.romberg (irf_diffuse_kernel demo_x demo_rsp demo_event
      (demo_source (.diffuse ⟨fun _ _ _ => 1⟩)) demo_obs) 5 0 1).iterations = [5, 5] := by
  constructor
  · rw [irf_diffuse_outcome demo_x demo_rsp demo_event (demo_source (.diffuse ⟨fun _ _ _ => 1⟩))
      demo_obs demo_psf rfl rfl (by norm_num [measured_delta_max, demo_psf])]
    simp [measured_delta_max, demo_psf, demo_source]
  · rfl

/-- C24 (amended): `nroi_diffuse` uses 9 Romberg iterations for the offset angle and
for the azimuth integral, more than the radial and elliptical integrators, which use
5 (`irf_radial`, `irf_elliptical`) and 6 (`nroi_radial`, `nroi_elliptical`);
`irf_diffuse` uses 5 for both integrals, as `irf_radial` and `irf_elliptical` do. -/
theorem romberg_iteration_counts (x : Externals) (rsp : GCTAResponseIrf) (event : GEvent)
    (source : GSource) (model : GModelSky) (srcEng obsEng : GEnergy) (srcTime obsTime : GTime)
    (obs : GCTAObservation) :
    ((∀ c ∈ (nroi_diffuse x model srcEng srcTime obsEng obsTime obs rsp).calls,
        ∀ it ∈ c.iterations, it = 9) ∧
      (∀ p, rsp.m_psf = some p →
        npred_search rsp (model.name ++ "::" ++ obs.id) srcEng srcTime
          rsp.m_npred_names.length 0 = none →
        diffuse_roi_psf_radius x p srcEng obs > 0 →
        ∃ c ∈ (nroi_diffuse x model srcEng srcTime obsEng obsTime obs rsp).calls,
          c.iterations = [9, 9])) ∧
    ((∀ c ∈ (irf_diffuse x event source obs rsp).calls, ∀ it ∈ c.iterations, it = 5) ∧
      (∀ p, rsp.m_psf = some p → obs.events = none →
        measured_delta_max x p source.energy event obs > 0 →
        ∃ c ∈ (irf_diffuse x event source obs rsp).calls, c.iterations = [5, 5])) ∧
    (∀ c ∈ (irf_radial x event source obs rsp).calls, ∀ it ∈ c.iterations, it = 5) ∧
    (∀ c ∈ (irf_elliptical x event source obs rsp).calls, ∀ it ∈ c.iterations, it = 5) ∧
    (∀ c ∈ (nroi_radial x model srcEng srcTime obsEng obsTime obs rsp).calls,
      ∀ it ∈ c.iterations, it = 6) ∧
    (∀ c ∈ (nroi_elliptical x model srcEng srcTime obsEng obsTime obs rsp).calls,
      ∀ it ∈ c.iterations, it = 6) := by
  refine ⟨⟨nroi_diffuse_iterations x rsp model srcEng obsEng srcTime obsTime obs, ?_⟩,
    ⟨irf_diffuse_iterations x rsp event source obs, ?_⟩,
    fun c hc => (irf_radial_call_kinds x rsp event source obs c hc).2,
    fun c hc => (irf_elliptical_call_kinds x rsp event source obs c hc).2,
    nroi_radial_iterations x rsp model srcEng obsEng srcTime obsTime obs,
    nroi_elliptical_iterations x rsp model srcEng obsEng srcTime obsTime obs⟩
  · intro p hp hs hpos
    refine ⟨Call.romberg (diffuse_kernel rsp model srcEng srcTime obsEng obsTime obs) 9 0
      (diffuse_roi_psf_radius x p srcEng obs), ?_, rfl⟩
    rw [nroi_diffuse_run_miss x model srcEng srcTime obsEng obsTime obs rsp p hp hs]
    simp [diffuse_calls, hpos]
  · intro p hp he hpos
    refine ⟨Call.romberg (irf_diffuse_kernel x rsp event source obs) 5 0
      (measured_delta_max x p source.energy event obs), ?_, rfl⟩
    rw [irf_diffuse_outcome x rsp event source obs p hp he hpos]
    simp

theorem romberg_iteration_counts_witness :
    ∃ c ∈ (nroi_diffuse demo_x demo_diffuse ⟨1000⟩ ⟨0⟩ ⟨1000⟩ ⟨0⟩ demo_obs demo_rsp).calls,
      c.iterations = [9, 9] :=
  (romberg_iteration_counts demo_x demo_rsp demo_event (demo_source (.diffuse ⟨fun _ _ _ => 1⟩))
    demo_diffuse ⟨1000⟩ ⟨1000⟩ ⟨0⟩ ⟨0⟩ demo_obs).1.2 demo_psf rfl rfl
    (by norm_num [diffuse_roi_psf_radius, demo_psf, demo_obs, demo_x])

/-- C26, as stated, fails: for a range [rho_min, rho_max] of width 1/10^13 `irf_radial`
hands the breakpoint list to the piecewise Romberg integration with 5 iterations and
never calls the trapezoidal rule. -/
theorem narrow_interval_counterexample :
    (irf_radial demo_x demo_event (demo_source (.radial demo_radial_tiny)) demo_obs
        demo_rsp).calls =
      [measured_delta_max_call demo_x ⟨1000⟩ demo_event demo_obs,
       Call.romberg_bounds
        (.irf_radial_kern_rho
          (radial_kernel demo_x demo_rsp demo_radial_tiny 0 0 ⟨1000⟩ ⟨0⟩ ⟨1000⟩ 0 0 0 1))
        5 [0, 1 / 10000000000000] 5,
       Call.deadc ⟨0⟩] ∧
    (1 / 10000000000000 - 0 : ℚ) < 1 / 1000000000000 ∧
    ∀ c ∈ (irf_radial demo_x demo_event (demo_source (.radial demo_radial_tiny)) demo_obs
        demo_rsp).calls, c.is_trapzd = false := by
  refine ⟨?_, by norm_num, fun c hc => (irf_radial_call_kinds _ _ _ _ _ c hc).1⟩
  rw [irf_radial_outcome demo_x demo_rsp demo_event (demo_source (.radial demo_radial_tiny))
    demo_obs demo_radial_tiny demo_psf rfl rfl
    (by norm_num [claimed_rho_min, claimed_rho_max, measured_delta_max, demo_x, demo_psf,
      demo_radial_tiny, demo_event, demo_obs, demo_source]), radial_bounds_eq]
  norm_num [claimed_rho_min, claimed_rho_max, claimed_radial_interior, measured_delta_max,
    demo_x, demo_psf, demo_radial_tiny, demo_event, demo_obs, demo_source]

/-- C26 (amended): `irf_radial` and `irf_elliptical` never call the trapezoidal rule and
apply no test on the width of an interval: whenever rho_max > rho_min they hand the
whole breakpoint list to the piecewise Romberg integration with 5 fixed iterations,
whatever the widths of the intervals between consecutive breakpoints. -/
theorem spatial_integrators_romberg_only (x : Externals) (rsp : GCTAResponseIrf)
    (event : GEvent) (source : GSource) (obs : GCTAObservation) :
    (∀ c ∈ (irf_radial x event source obs rsp).calls, c.is_trapzd = false) ∧
    (∀ c ∈ (irf_elliptical x event source obs rsp).calls, c.is_trapzd = false) ∧
    (∀ (m : GModelSpatialRadial) (p : GCTAPsf), source.model = .radial m →
      rsp.m_psf = some p →
      claimed_rho_min (x.dist m.dir event.dir.dir)
          (measured_delta_max x p source.energy event obs) <
        claimed_rho_max (x.dist m.dir event.dir.dir)
          (measured_delta_max x p source.energy event obs) m.theta_max →
      (irf_radial x event source obs rsp).calls =
        [measured_delta_max_call x source.energy event obs,
         Call.romberg_bounds
          (.irf_radial_kern_rho
            (radial_kernel x rsp m obs.pointing.zenith obs.pointing.azimuth source.energy
              source.time event.energy (x.dist m.dir event.dir.dir)
              (x.dist obs.pointing.dir event.dir.dir) (x.dist m.dir obs.pointing.dir)
              (measured_delta_max x p source.energy event obs)))
          5 (radial_bounds x m (x.dist m.dir event.dir.dir)
            (measured_delta_max x p source.energy event obs)) 5,
         Call.deadc source.time]) ∧
    (∀ (m : GModelSpatialElliptical) (p : GCTAPsf), source.model = .elliptical m →
      rsp.m_psf = some p →
      claimed_rho_min (x.dist m.dir event.dir.dir)
          (measured_delta_max x p source.energy event obs) <
        claimed_rho_max (x.dist m.dir event.dir.dir)
          (measured_delta_max x p source.energy event obs)
          (boundary_ellipse x m).semimajor →
      ∃ bounds,
        (irf_elliptical x event source obs rsp).calls =
          [measured_delta_max_call x source.energy event obs,
           Call.romberg_bounds
            (.irf_elliptical_kern_rho
              (elliptical_kernel x rsp m event source obs
                (measured_delta_max x p source.energy event obs)))
            5 bounds 5,
           Call.deadc source.time]) := by
  refine ⟨fun c hc => (irf_radial_call_kinds x rsp event source obs c hc).1,
    fun c hc => (irf_elliptical_call_kinds x rsp event source obs c hc).1, ?_, ?_⟩
  · intro m p hm hp hrange
    rw [irf_radial_outcome x rsp event source obs m p hm hp hrange]
  · intro m p hm hp hrange
    rw [irf_elliptical_outcome x rsp event source obs m p hm hp hrange]
    exact ⟨_, rfl⟩

theorem spatial_integrators_romberg_only_witness :
    (irf_radial demo_x demo_event (demo_source (.radial demo_radial_tiny)) demo_obs
        demo_rsp).calls =
      [measured_delta_max_call demo_x (demo_source (.radial demo_radial_tiny)).energy
        demo_event demo_obs,
       Call.romberg_bounds
        (.irf_radial_kern_rho
          (radial_kernel demo_x demo_rsp demo_radial_tiny demo_obs.pointing.zenith
            demo_obs.pointing.azimuth (demo_source (.radial demo_radial_tiny)).energy
            (demo_source (.radial demo_radial_tiny)).time demo_event.energy
            (demo_x.dist demo_radial_tiny.dir demo_event.dir.dir)
            (demo_x.dist demo_obs.pointing.dir demo_event.dir.dir)
            (demo_x.dist demo_radial_tiny.dir demo_obs.pointing.dir)
            (measured_delta_max demo_x demo_psf (demo_source (.radial demo_radial_tiny)).energy
              demo_event demo_obs)))
        5 (radial_bounds demo_x demo_radial_tiny
          (demo_x.dist demo_radial_tiny.dir demo_event.dir.dir)
          (measured_delta_max demo_x demo_psf (demo_source (.radial demo_radial_tiny)).energy
            demo_event demo_obs)) 5,
       Call.deadc (demo_source (.radial demo_radial_tiny)).time] :=
  (spatial_integrators_romberg_only demo_x demo_rsp demo_event
    (demo_source (.radial demo_radial_tiny)) demo_obs).2.2.1 demo_radial_tiny demo_psf rfl rfl
    (by norm_num [claimed_rho_min, claimed_rho_max, measured_delta_max, demo_x, demo_psf,
      demo_radial_tiny, demo_event, demo_obs, demo_source])

end GCTAResponseIrf

end GammaLib
